import Mathlib

/-!
Verification of the libvirt qemu command-line synthesis engine
(`src/qemu/qemu_command.c`) against its natural-language specification.

The C code is shallowly embedded: `virBuffer` accumulation becomes `String`
concatenation, `virCommand` becomes an argument list, capability queries
become a record of booleans, and fallible builders return `Except QemuError`.
External collaborators that live outside the embedded file (alias assignment,
JSON utility serializers, machine-type predicates) are modelled from the
specification and marked as such in their doc comments.
-/

namespace QemuCmd

/-! ## Basic data model -/

set_option maxHeartbeats 1600000 in
/-- Tristate switch used all over the libvirt domain model
(`virTristateSwitch`): absent / on / off. -/
inductive VirTristateSwitch where
  | absent
  | on
  | off
deriving DecidableEq, Repr

/-- Textual form of a tristate switch (`virTristateSwitchTypeToString`);
only meaningful for `on` / `off`. -/
def VirTristateSwitch.toStr : VirTristateSwitch → String
  | .absent => "default"
  | .on => "on"
  | .off => "off"

/-- Tristate boolean (`virTristateBool`). -/
inductive VirTristateBool where
  | absent
  | yes
  | no
deriving DecidableEq, Repr

/-- Capability set: a read-only oracle of boolean flags describing the
target emulator binary (`virQEMUCaps`, queried via `virQEMUCapsGet`).
Each field corresponds to one `QEMU_CAPS_*` flag used by the embedded
builders. -/
structure QemuCaps where
  objectQapified : Bool := false
  virtioPciTransitional : Bool := false
  virtioPciDisableLegacy : Bool := false
  blockdev : Bool := false
  virtioIoeventfd : Bool := false
  virtioBlkEventIdx : Bool := false
  virtioBlkScsi : Bool := false
  virtioBlkScsiDefaultDisabled : Bool := false
  diskShareRw : Bool := false
  blockio : Bool := false
  usbStorageRemovable : Bool := false
  diskWriteCache : Bool := false
  storageWerror : Bool := false
  scsiDiskDeviceId : Bool := false
  qxlVram64 : Bool := false
  qxlVgamem : Bool := false
  qxlMaxOutputs : Bool := false
  vgaVgamem : Bool := false
  vmwareSvgaVgamem : Bool := false
  virtioGpuVirgl : Bool := false
  virtioGpuMaxOutputs : Bool := false
  virtioGpuGlPci : Bool := false
  virtioVgaGl : Bool := false
  objectTlsCredsX509 : Bool := false
  objectMemoryFile : Bool := false
  objectMemoryRam : Bool := false
  objectMemoryMemfd : Bool := false
  objectMemoryFileDiscard : Bool := false
  objectMemoryFileAlign : Bool := false
  objectMemoryFilePmem : Bool := false
  xUseCanonicalPathForRamblockId : Bool := false
deriving DecidableEq, Repr

/-- Error classification mirroring the `virReportError` codes raised by the
embedded builders. -/
inductive VirErrCode where
  | internalError
  | configUnsupported
  | enumRangeError
deriving DecidableEq, Repr

/-- Errors raised by the embedded builders.  Each constructor captures the
data interpolated into the corresponding C error message, so that theorems
can state what an error names. -/
inductive QemuError where
  /-- "missing 'type'(%s) or 'alias'(%s) field of QOM 'object'" -/
  | missingQomTypeOrAlias (type : Option String) (aliasName : Option String)
  /-- "Could not find PCI controller with index %u required for device at
  address %s" -/
  | missingPCIController (busIdx : Nat) (devAddr : String)
  /-- "Device alias was not set for PCI controller with index %u required
  for device at address %s" -/
  | pciControllerNoAlias (busIdx : Nat) (devAddr : String)
  /-- "virtio (non-)transitional models are not supported for address
  type=%s" -/
  | virtioBadAddressType (addrType : String)
  /-- "virtio non-transitional model not supported for this qemu" -/
  | virtioNonTransitionalUnsupported
  /-- "Unexpected address type for '%s'" -/
  | virtioUnexpectedAddressType (baseName : String)
  /-- `virReportEnumRangeError` on an out-of-range tagged-union tag -/
  | enumRange (what : String)
  /-- "Could not find %s controller with index %d required for device" -/
  | missingControllerAlias (ctype : String) (idx : Nat)
  /-- "unsupported disk bus '%s' with device setup" -/
  | unsupportedDiskBus (bus : String)
  /-- "Unexpected SCSI controller model %d" -/
  | unexpectedSCSIModel (m : Int)
  /-- catch-all for other reported errors, carrying the message -/
  | other (code : VirErrCode) (msg : String)
deriving DecidableEq, Repr

/-- The `virErrorNumber`-level classification of each embedded error. -/
def QemuError.code : QemuError → VirErrCode
  | .missingQomTypeOrAlias _ _ => .internalError
  | .missingPCIController _ _ => .internalError
  | .pciControllerNoAlias _ _ => .internalError
  | .virtioBadAddressType _ => .configUnsupported
  | .virtioNonTransitionalUnsupported => .configUnsupported
  | .virtioUnexpectedAddressType _ => .internalError
  | .enumRange _ => .enumRangeError
  | .missingControllerAlias _ _ => .internalError
  | .unsupportedDiskBus _ => .internalError
  | .unexpectedSCSIModel _ => .internalError
  | .other c _ => c

/-- The literal message text of those errors whose wording a claim cares
about. -/
def QemuError.message : QemuError → String
  | .virtioNonTransitionalUnsupported =>
      "virtio non-transitional model not supported for this qemu"
  | .other _ m => m
  | _ => ""

/-! ## JSON property trees

`virJSONValue` restricted to the value kinds the embedded builders create:
strings, unsigned numbers, booleans, nested objects and arrays.  An object
is an insertion-ordered association list, as in the spec's Property Tree. -/

inductive JValue where
  | str (s : String)
  | num (n : Nat)
  | bool (b : Bool)
  | obj (fields : List (String × JValue))
  | arr (items : List JValue)

/-- A property tree as handed to the emitters: the ordered field list of a
JSON object. -/
abbrev JObject := List (String × JValue)

/-- Lookup of a string-valued field (`virJSONValueObjectGetString`): returns
the value only when the key is present and its value is a string. -/
def jobjectGetString (props : JObject) (key : String) : Option String :=
  match props.find? (fun kv => kv.1 == key) with
  | some (_, JValue.str s) => some s
  | _ => none

/-- JSON string escaping for the characters the embedded builders can place
into string values (quote and backslash). -/
def jsonEscape (s : String) : String :=
  String.join (s.data.map (fun c =>
    if c = '"' then "\\\"" else if c = '\\' then "\\\\" else String.singleton c))

mutual

/-- Modelled from the spec: `virJSONValueToBuffer` (external JSON utility,
absent from src/) serializes a property tree "directly to the structured
encoding understood by the target, preserving key order" — compact JSON. -/
def jsonToString : JValue → String
  | .str s => "\"" ++ jsonEscape s ++ "\""
  | .num n => toString n
  | .bool true => "true"
  | .bool false => "false"
  | .obj fs => "\x7b" ++ jsonFieldsToString fs ++ "\x7d"
  | .arr xs => "[" ++ jsonItemsToString xs ++ "]"

/-- Comma-joined `"key":value` renderings of an object's fields, in order. -/
def jsonFieldsToString : List (String × JValue) → String
  | [] => ""
  | [kv] => "\"" ++ jsonEscape kv.1 ++ "\":" ++ jsonToString kv.2
  | kv :: rest =>
      "\"" ++ jsonEscape kv.1 ++ "\":" ++ jsonToString kv.2 ++ ","
        ++ jsonFieldsToString rest

/-- Comma-joined renderings of an array's items, in order. -/
def jsonItemsToString : List JValue → String
  | [] => ""
  | [v] => jsonToString v
  | v :: rest => jsonToString v ++ "," ++ jsonItemsToString rest

end

/-- Scalar rendering used by the legacy flat command-line form. -/
def legacyScalarString : JValue → String
  | .str s => s
  | .num n => toString n
  | .bool true => "on"
  | .bool false => "off"
  | .obj _ => ""
  | .arr _ => ""

/-- Does a value render as a legacy scalar (string, number, boolean)? -/
def JValue.isScalar : JValue → Bool
  | .str _ => true
  | .num _ => true
  | .bool _ => true
  | _ => false

mutual

/-- Modelled from the spec: the legacy flattening of
`virQEMUBuildCommandLineJSON` (external JSON utility, absent from src/):
"emit every remaining key as `key=value` joined by commas, applying
nested-tree flattening with dotted key paths and array flattening with
colon-joined elements". Produces the flat `key=value` pair list for one
keyed value. -/
def legacyFlattenValue (key : String) : JValue → List (String × String)
  | .str s => [(key, s)]
  | .num n => [(key, toString n)]
  | .bool b => [(key, legacyScalarString (.bool b))]
  | .obj fs => legacyFlattenFields key fs
  | .arr xs => [(key, legacyJoinArray xs)]

/-- Nested-tree flattening: each nested key is reached by a dotted path. -/
def legacyFlattenFields (keyPrefix : String) : List (String × JValue) → List (String × String)
  | [] => []
  | kv :: rest =>
      legacyFlattenValue (keyPrefix ++ "." ++ kv.1) kv.2
        ++ legacyFlattenFields keyPrefix rest

/-- Array flattening with colon-joined elements. -/
def legacyJoinArray : List JValue → String
  | [] => ""
  | [v] => legacyScalarString v
  | v :: rest => legacyScalarString v ++ ":" ++ legacyJoinArray rest

end

/-- Modelled from the spec: the pair list `virQEMUBuildCommandLineJSON`
emits for a whole property tree, skipping `skipKey` at the top level. -/
def legacyCommandLinePairs (props : JObject) (skipKey : String) : List (String × String) :=
  props.flatMap (fun kv =>
    if kv.1 = skipKey then [] else legacyFlattenValue kv.1 kv.2)

/-- Join the flat pairs into the comma-separated `key=value` text. -/
def legacyPairsToString : List (String × String) → String
  | [] => ""
  | [kv] => kv.1 ++ "=" ++ kv.2
  | kv :: rest => kv.1 ++ "=" ++ kv.2 ++ "," ++ legacyPairsToString rest

/-- Embedded from `qemuBuildObjectCommandlineFromJSON`
(qemu_command.c:158-181): read the `qom-type` and `id` fields; if either is
missing report an internal error; with `QEMU_CAPS_OBJECT_QAPIFIED` serialize
the tree as JSON, otherwise emit the type as a bare leading token followed
by the flattened `key=value` pairs of every other key. -/
def qemuBuildObjectCommandlineFromJSON (props : JObject) (qemuCaps : QemuCaps) :
    Except QemuError String :=
  let type := jobjectGetString props "qom-type"
  let aliasName := jobjectGetString props "id"
  match type, aliasName with
  | some t, some _ =>
      if qemuCaps.objectQapified then
        .ok (jsonToString (.obj props))
      else
        .ok (t ++ "," ++ legacyPairsToString (legacyCommandLinePairs props "qom-type"))
  | _, _ => .error (.missingQomTypeOrAlias type aliasName)

end QemuCmd

namespace QemuCmd

/-! ## Device addressing -/

/-- PCI address record (`virPCIDeviceAddress`), with the zPCI extension
reduced to the data `qemuBuildZPCIDevStr` prints. -/
structure PCIAddress where
  domain : Nat := 0
  bus : Nat := 0
  slot : Nat := 0
  function : Nat := 0
  multi : VirTristateSwitch := .absent
  zpciUid : Option Nat := none
  zpciFid : Nat := 0
deriving DecidableEq, Repr

/-- Drive address payload (controller/bus/target/unit). -/
structure DriveAddress where
  controller : Nat := 0
  bus : Nat := 0
  target : Nat := 0
  unit : Nat := 0
deriving DecidableEq, Repr

/-- Device address tagged union (`virDomainDeviceAddressType` plus its
per-tag payload from `virDomainDeviceInfo.addr`).  The sentinel `_LAST` tag
of the C enum has no Lean counterpart: the embedding is exhaustively
typed. -/
inductive DeviceAddress where
  | none
  | pci (a : PCIAddress)
  | drive (a : DriveAddress)
  | virtioSerial
  | ccid
  | usb (bus : Nat) (port : List Nat)
  | spaprvio (reg : Option Nat)
  | virtioS390
  | ccw (cssid ssid devno : Nat) (assigned : Bool)
  | virtioMmio
  | isa (iobase irq : Nat)
  | dimm (slot : Nat) (base : Nat)
  | unassigned
deriving DecidableEq, Repr

/-- Name of an address tag (`virDomainDeviceAddressTypeToString`), used in
error messages. -/
def DeviceAddress.typeName : DeviceAddress → String
  | .none => "none"
  | .pci _ => "pci"
  | .drive _ => "drive"
  | .virtioSerial => "virtio-serial"
  | .ccid => "ccid"
  | .usb _ _ => "usb"
  | .spaprvio _ => "spapr-vio"
  | .virtioS390 => "virtio-s390"
  | .ccw _ _ _ _ => "ccw"
  | .virtioMmio => "virtio-mmio"
  | .isa _ _ => "isa"
  | .dimm _ _ => "dimm"
  | .unassigned => "unassigned"

/-- Common device bookkeeping (`virDomainDeviceInfo`): assigned address,
alias, ACPI index.  The alias field is named `aliasName` because `alias` is
a Lean keyword. -/
structure DeviceInfo where
  addr : DeviceAddress := .none
  aliasName : Option String := Option.none
  acpiIndex : Nat := 0
deriving DecidableEq, Repr

/-- Join strings with a separator (used where the C code interleaves
separators manually). -/
def joinSep (sep : String) : List String → String
  | [] => ""
  | [x] => x
  | x :: rest => x ++ sep ++ joinSep sep rest

/-- Lower-case hexadecimal rendering of a number (C `%x`). -/
def hexStr (n : Nat) : String :=
  String.mk (Nat.toDigits 16 n)

/-- Zero-padded lower-case hexadecimal rendering (C `%04x` and friends). -/
def hexPad (width n : Nat) : String :=
  let s := hexStr n
  String.mk (List.replicate (width - s.length) '0') ++ s

/-- Modelled from the spec: `virPCIDeviceAddressAsString` (external, absent
from src/) renders `dddd:bb:ss.f`; it only feeds error messages here. -/
def virPCIDeviceAddressAsString (a : PCIAddress) : String :=
  hexPad 4 a.domain ++ ":" ++ hexPad 2 a.bus ++ ":" ++ hexPad 2 a.slot
    ++ "." ++ hexStr a.function

/-- Modelled from the spec: `virDomainDeviceAliasIsUserAlias` (external,
absent from src/) — user-assigned aliases carry the reserved `ua-`
prefix. -/
def virDomainDeviceAliasIsUserAlias (aliasName : String) : Bool :=
  ("ua-").data.isPrefixOf aliasName.data

/-- Controller kinds (`virDomainControllerType`). -/
inductive ControllerType where
  | ide
  | fdc
  | scsi
  | sata
  | virtioSerial
  | ccid
  | usb
  | pci
  | xenbus
deriving DecidableEq, Repr

/-- PCI controller models, collapsed to the tags the embedded builders
inspect (`VIR_DOMAIN_CONTROLLER_MODEL_PCI_ROOT` / `PCIE_ROOT` / anything
else). -/
inductive PCIControllerModel where
  | pciRoot
  | pcieRoot
  | otherModel
deriving DecidableEq, Repr

/-- SCSI controller models (`virDomainControllerModelSCSI`) that the disk
device builder dispatches on. -/
inductive SCSIControllerModel where
  | auto
  | buslogic
  | lsilogic
  | lsisas1068
  | vmpvscsi
  | ibmvscsi
  | virtioScsi
  | lsisas1078
  | virtioTransitional
  | virtioNonTransitional
  | ncr53c90
  | dc390
  | am53c974
  | defaultModel
deriving DecidableEq, Repr

/-- A controller definition with the fields the embedded builders read.
`isPSeriesPHB` carries the value of the external predicate
`virDomainControllerIsPSeriesPHB`, and `pciTargetIndex` the
`opts.pciopts.targetIndex` option. -/
structure ControllerDef where
  ctype : ControllerType
  idx : Nat := 0
  info : DeviceInfo := {}
  pciModel : PCIControllerModel := .otherModel
  pciTargetIndex : Int := -1
  isPSeriesPHB : Bool := false
  scsiModel : SCSIControllerModel := .auto
deriving DecidableEq, Repr

end QemuCmd

namespace QemuCmd

/-- Disk bus kinds (`virDomainDiskBus`). -/
inductive DiskBus where
  | noneBus
  | ide
  | fdc
  | scsi
  | virtio
  | xen
  | usb
  | uml
  | sata
  | sd
deriving DecidableEq, Repr

/-- Name of a disk bus (`virDomainDiskBusTypeToString`), for error text. -/
def DiskBus.toStr : DiskBus → String
  | .noneBus => "none"
  | .ide => "ide"
  | .fdc => "fdc"
  | .scsi => "scsi"
  | .virtio => "virtio"
  | .xen => "xen"
  | .usb => "usb"
  | .uml => "uml"
  | .sata => "sata"
  | .sd => "sd"

/-- Disk frontend kinds (`virDomainDiskDevice`). -/
inductive DiskDevice where
  | disk
  | cdrom
  | floppy
  | lun
deriving DecidableEq, Repr

/-- Disk model (`virDomainDiskModel`): default or one of the virtio model
variants. -/
inductive DiskModel where
  | defaultModel
  | virtio
  | virtioTransitional
  | virtioNonTransitional
deriving DecidableEq, Repr

/-- Storage types relevant to the embedded disk builders
(`virStorageType`); `vhostUser` is the actual-type the code special-cases. -/
inductive StorageType where
  | fileType
  | blockType
  | dirType
  | network
  | volume
  | nvme
  | vhostUser
deriving DecidableEq, Repr

/-- Persistent-reservations settings of a storage source
(`virStoragePRDef`). -/
structure PRDef where
  managed : Bool := false
  mgralias : String := ""
  path : String := ""
deriving DecidableEq, Repr

/-- AES secret bookkeeping (`qemuDomainSecretInfo`, external private data):
only the fields `qemuBuildSecretInfoProps` prints. -/
structure SecretInfo where
  isAES : Bool := true
  aesAlias : String := ""
  ciphertext : String := ""
  iv : String := ""
deriving DecidableEq, Repr

/-- Storage source chain layer (`virStorageSource`).  The property trees of
the `-blockdev` backend (`storageProps`, `storageSliceProps`,
`formatProps`) are carried as precomputed fields: they are built by
`qemuBlockStorageSourceAttachPrepareBlockdev` in qemu_block.c, which is
absent from src/ and therefore modelled from the spec (each layer is an
individually named node).  Alias fields (`nodeformat`) are pre-computed
strings per the spec's alias-assignment interface. -/
inductive StorageSource where
  | mk (stype : StorageType)
       (emptySource : Bool)
       (shared : Bool)
       (readonly : Bool)
       (nodeformat : Option String)
       (pr : Option PRDef)
       (secinfo : Option SecretInfo)
       (encinfo : Option SecretInfo)
       (httpcookie : Option SecretInfo)
       (tlsKeySecret : Option SecretInfo)
       (haveTLS : VirTristateBool)
       (tlsCertdir : String)
       (tlsAlias : String)
       (storageProps : Option JObject)
       (storageSliceProps : Option JObject)
       (formatProps : Option JObject)
       (vhostuserPath : Option String)
       (backingStore : Option StorageSource)

def StorageSource.stype : StorageSource → StorageType
  | .mk t _ _ _ _ _ _ _ _ _ _ _ _ _ _ _ _ _ => t

def StorageSource.emptySource : StorageSource → Bool
  | .mk _ e _ _ _ _ _ _ _ _ _ _ _ _ _ _ _ _ => e

def StorageSource.shared : StorageSource → Bool
  | .mk _ _ s _ _ _ _ _ _ _ _ _ _ _ _ _ _ _ => s

def StorageSource.readonly : StorageSource → Bool
  | .mk _ _ _ r _ _ _ _ _ _ _ _ _ _ _ _ _ _ => r

def StorageSource.nodeformat : StorageSource → Option String
  | .mk _ _ _ _ n _ _ _ _ _ _ _ _ _ _ _ _ _ => n

def StorageSource.pr : StorageSource → Option PRDef
  | .mk _ _ _ _ _ p _ _ _ _ _ _ _ _ _ _ _ _ => p

def StorageSource.secinfo : StorageSource → Option SecretInfo
  | .mk _ _ _ _ _ _ s _ _ _ _ _ _ _ _ _ _ _ => s

def StorageSource.encinfo : StorageSource → Option SecretInfo
  | .mk _ _ _ _ _ _ _ e _ _ _ _ _ _ _ _ _ _ => e

def StorageSource.httpcookie : StorageSource → Option SecretInfo
  | .mk _ _ _ _ _ _ _ _ h _ _ _ _ _ _ _ _ _ => h

def StorageSource.tlsKeySecret : StorageSource → Option SecretInfo
  | .mk _ _ _ _ _ _ _ _ _ t _ _ _ _ _ _ _ _ => t

def StorageSource.haveTLS : StorageSource → VirTristateBool
  | .mk _ _ _ _ _ _ _ _ _ _ t _ _ _ _ _ _ _ => t

def StorageSource.tlsCertdir : StorageSource → String
  | .mk _ _ _ _ _ _ _ _ _ _ _ d _ _ _ _ _ _ => d

def StorageSource.tlsAlias : StorageSource → String
  | .mk _ _ _ _ _ _ _ _ _ _ _ _ a _ _ _ _ _ => a

def StorageSource.storageProps : StorageSource → Option JObject
  | .mk _ _ _ _ _ _ _ _ _ _ _ _ _ p _ _ _ _ => p

def StorageSource.storageSliceProps : StorageSource → Option JObject
  | .mk _ _ _ _ _ _ _ _ _ _ _ _ _ _ p _ _ _ => p

def StorageSource.formatProps : StorageSource → Option JObject
  | .mk _ _ _ _ _ _ _ _ _ _ _ _ _ _ _ p _ _ => p

def StorageSource.vhostuserPath : StorageSource → Option String
  | .mk _ _ _ _ _ _ _ _ _ _ _ _ _ _ _ _ p _ => p

def StorageSource.backingStore : StorageSource → Option StorageSource
  | .mk _ _ _ _ _ _ _ _ _ _ _ _ _ _ _ _ _ b => b

/-- Modelled from the spec: `virStorageSourceGetActualType` (external,
absent from src/) — the effective storage type of a source.  The embedding
carries the already-resolved type in `stype`. -/
def virStorageSourceGetActualType (src : StorageSource) : StorageType :=
  src.stype

/-- Modelled from the spec: `virStorageSourceIsEmpty` (external, absent
from src/) — whether the source has no media.  Carried as the precomputed
`emptySource` field. -/
def virStorageSourceIsEmpty (src : StorageSource) : Bool :=
  src.emptySource

/-- Disk error policies (`virDomainDiskErrorPolicy`). -/
inductive DiskErrorPolicy where
  | defaultPolicy
  | stop
  | report
  | ignore
  | enospace
deriving DecidableEq, Repr

/-- Textual form (`virDomainDiskErrorPolicyTypeToString`). -/
def DiskErrorPolicy.toStr : DiskErrorPolicy → String
  | .defaultPolicy => "default"
  | .stop => "stop"
  | .report => "report"
  | .ignore => "ignore"
  | .enospace => "enospace"

/-- Disk cache modes (`virDomainDiskCache`); `relaxed` stands for the
source's VIR_DOMAIN_DISK_CACHE_UNSAFE mode. -/
inductive DiskCacheMode where
  | defaultMode
  | disable
  | writethrough
  | writeback
  | directsync
  | relaxed
deriving DecidableEq, Repr

/-- Block I/O throttling settings (`disk->blkdeviotune`,
`virDomainBlockIoTuneInfo`). -/
structure BlockIoTune where
  totalBytesSec : Nat := 0
  readBytesSec : Nat := 0
  writeBytesSec : Nat := 0
  totalIopsSec : Nat := 0
  readIopsSec : Nat := 0
  writeIopsSec : Nat := 0
  totalBytesSecMax : Nat := 0
  readBytesSecMax : Nat := 0
  writeBytesSecMax : Nat := 0
  totalIopsSecMax : Nat := 0
  readIopsSecMax : Nat := 0
  writeIopsSecMax : Nat := 0
  sizeIopsSec : Nat := 0
  groupName : Option String := Option.none
  totalBytesSecMaxLength : Nat := 0
  readBytesSecMaxLength : Nat := 0
  writeBytesSecMaxLength : Nat := 0
  totalIopsSecMaxLength : Nat := 0
  readIopsSecMaxLength : Nat := 0
  writeIopsSecMaxLength : Nat := 0
deriving DecidableEq, Repr

/-- Per-disk virtio tuning options (`virDomainVirtioOptions`). -/
structure VirtioOptions where
  iommu : VirTristateSwitch := .absent
  ats : VirTristateSwitch := .absent
  packed : VirTristateSwitch := .absent
deriving DecidableEq, Repr

/-- Disk definition (`virDomainDiskDef`) restricted to the fields the
embedded builders read; `effectiveBootindex` is the qemu-private
bookkeeping `QEMU_DOMAIN_DISK_PRIVATE(disk)->effectiveBootindex`. -/
structure DiskDef where
  bus : DiskBus
  device : DiskDevice := .disk
  model : DiskModel := .defaultModel
  src : StorageSource
  info : DeviceInfo := {}
  iothread : Nat := 0
  ioeventfd : VirTristateSwitch := .absent
  eventIdx : VirTristateSwitch := .absent
  queues : Nat := 0
  virtioOpts : Option VirtioOptions := Option.none
  serial : Option String := Option.none
  wwn : Option String := Option.none
  rotationRate : Nat := 0
  vendor : Option String := Option.none
  product : Option String := Option.none
  removable : VirTristateSwitch := .absent
  cachemode : DiskCacheMode := .defaultMode
  copyOnRead : VirTristateSwitch := .absent
  discardName : Option String := Option.none
  detectZeroesName : Option String := Option.none
  iomodeName : Option String := Option.none
  driveSourceStr : String := ""
  dstIndex : Nat := 0
  blkdeviotune : BlockIoTune := {}
  copyOnReadNodeProps : Option JObject := Option.none
  blockioLogical : Nat := 0
  blockioPhysical : Nat := 0
  geomCylinders : Nat := 0
  geomHeads : Nat := 0
  geomSectors : Nat := 0
  geomTransName : Option String := Option.none
  errorPolicy : DiskErrorPolicy := .defaultPolicy
  rerrorPolicy : DiskErrorPolicy := .defaultPolicy
  effectiveBootindex : Nat := 0
  transient : Bool := false
  transientShareBacking : VirTristateBool := .absent

end QemuCmd

namespace QemuCmd

/-- Panic device models (`virDomainPanicModel`).  The DEFAULT model is
rewritten in post-parse, but the builder still switches on it. -/
inductive PanicModel where
  | defaultModel
  | isa
  | pseries
  | hyperv
  | s390
deriving DecidableEq, Repr

/-- Panic device definition (`virDomainPanicDef`). -/
structure PanicDef where
  model : PanicModel := .defaultModel
  info : DeviceInfo := {}
deriving DecidableEq, Repr

/-- VM definition (`virDomainDef`) restricted to what the embedded
builders consult.  The machine-type predicates of qemu_domain.c /
qemu_capabilities.c (`qemuDomainIsPSeries`, `qemuDomainIsQ35`,
`qemuDomainHasBuiltinIDE`, `virQEMUCapsHasPCIMultiBus`,
`qemuDomainNeedsFDC`) are external to src/ and carried as precomputed
boolean fields. -/
structure DomainDef where
  controllers : List ControllerDef := []
  disks : List DiskDef := []
  panics : List PanicDef := []
  isPSeries : Bool := false
  isQ35 : Bool := false
  hasBuiltinIDE : Bool := false
  hasPCIMultiBus : Bool := false
  needsFDC : Bool := false

/-- Embedded from `qemuBuildDeviceAddressStr` (qemu_command.c:306-442):
format the address suffix of a `-device` argument.  For a PCI address the
owning bus alias is resolved by walking the VM definition's controller
list for the PCI controller whose index equals the address's bus number;
a missing controller or a controller without an alias is an internal
error.  On success the returned string is what the C code appended to the
buffer. -/
def qemuBuildDeviceAddressStr (domainDef : DomainDef) (info : DeviceInfo) :
    Except QemuError String :=
  match info.addr with
  | .pci a =>
      let devStr := virPCIDeviceAddressAsString a
      match domainDef.controllers.find?
          (fun cont => cont.ctype == ControllerType.pci && cont.idx == a.bus) with
      | Option.none => .error (.missingPCIController a.bus devStr)
      | some cont =>
          match cont.info.aliasName with
          | Option.none => .error (.pciControllerNoAlias a.bus devStr)
          | some al =>
              let contAlias :=
                if virDomainDeviceAliasIsUserAlias al then
                  -- a builtin pci-root is not on the command line, so a
                  -- user-assigned alias cannot be used for it
                  if !domainDef.isPSeries && cont.pciModel == .pciRoot then
                    (if domainDef.hasPCIMultiBus then "pci.0" else "pci")
                  else if cont.pciModel == .pcieRoot then "pcie.0"
                  else al
                else al
              let busPart :=
                if cont.isPSeriesPHB && cont.pciTargetIndex > 0 then
                  ",bus=" ++ contAlias ++ ".0"
                else
                  ",bus=" ++ contAlias
              let multiPart :=
                match a.multi with
                | .on => ",multifunction=on"
                | .off => ",multifunction=off"
                | .absent => ""
              let slotPart := ",addr=0x" ++ hexStr a.slot
              let funcPart :=
                if a.function ≠ 0 then ".0x" ++ hexStr a.function else ""
              let acpiPart :=
                if info.acpiIndex ≠ 0 then
                  ",acpi-index=" ++ toString info.acpiIndex
                else ""
              .ok (busPart ++ multiPart ++ slotPart ++ funcPart ++ acpiPart)
  | .usb bus port =>
      match domainDef.controllers.find?
          (fun cont => cont.ctype == ControllerType.usb && cont.idx == bus) with
      | Option.none => .error (.missingControllerAlias "usb" bus)
      | some cont =>
          match cont.info.aliasName with
          | Option.none => .error (.missingControllerAlias "usb" bus)
          | some contAlias =>
              let portPart :=
                if port ≠ [] then
                  ",port=" ++ joinSep "." (port.map toString)
                else ""
              .ok (",bus=" ++ contAlias ++ ".0" ++ portPart)
  | .spaprvio reg =>
      match reg with
      | some r => .ok (",reg=0x" ++ hexPad 8 r)
      | Option.none => .ok ""
  | .ccw cssid ssid devno assigned =>
      if assigned then
        .ok (",devno=" ++ hexStr cssid ++ "." ++ hexStr ssid ++ "."
              ++ hexPad 4 devno)
      else .ok ""
  | .isa iobase irq =>
      .ok (",iobase=0x" ++ hexStr iobase ++ ",irq=0x" ++ hexStr irq)
  | .dimm slot base =>
      let basePart := if base ≠ 0 then ",addr=" ++ toString base else ""
      .ok (",slot=" ++ toString slot ++ basePart)
  | .none => .ok ""
  | .drive _ => .ok ""
  | .virtioSerial => .ok ""
  | .ccid => .ok ""
  | .virtioS390 => .ok ""
  | .virtioMmio => .ok ""
  | .unassigned => .ok ""

/-- Embedded from `qemuBuildVirtioDevStr` (qemu_command.c:598-689), after
the per-device-kind extraction of the transitional / non-transitional
model flags: pick the implementation suffix from the address type, then
apply the transitional-naming capability logic.  `hasT` / `hasNT` are the
`has_tmodel` / `has_ntmodel` values the device-kind switch computes. -/
def qemuBuildVirtioDevStrCore (baseName : String) (qemuCaps : QemuCaps)
    (addr : DeviceAddress) (hasT hasNT : Bool) : Except QemuError String :=
  let implName? : Except QemuError String :=
    match addr with
    | .pci _ => .ok "pci"
    | .virtioMmio => .ok "device"
    | .ccw _ _ _ _ => .ok "ccw"
    | .virtioS390 => .error (.virtioUnexpectedAddressType baseName)
    | .drive _ => .error (.virtioUnexpectedAddressType baseName)
    | .virtioSerial => .error (.virtioUnexpectedAddressType baseName)
    | .ccid => .error (.virtioUnexpectedAddressType baseName)
    | .usb _ _ => .error (.virtioUnexpectedAddressType baseName)
    | .spaprvio _ => .error (.virtioUnexpectedAddressType baseName)
    | .isa _ _ => .error (.virtioUnexpectedAddressType baseName)
    | .dimm _ _ => .error (.virtioUnexpectedAddressType baseName)
    | .none => .error (.enumRange "virDomainDeviceAddressType")
    | .unassigned => .error (.enumRange "virDomainDeviceAddressType")
  match implName? with
  | .error e => .error e
  | .ok implName =>
      let base := baseName ++ "-" ++ implName
      if (match addr with | .pci _ => false | _ => true) && (hasT || hasNT) then
        .error (.virtioBadAddressType addr.typeName)
      else if hasT then
        if qemuCaps.virtioPciTransitional then
          .ok (base ++ "-transitional")
        else if qemuCaps.virtioPciDisableLegacy then
          .ok (base ++ ",disable-legacy=off,disable-modern=off")
        else
          -- no error: plain PCI placement is functionally identical
          .ok base
      else if hasNT then
        if qemuCaps.virtioPciTransitional then
          .ok (base ++ "-non-transitional")
        else if qemuCaps.virtioPciDisableLegacy then
          .ok (base ++ ",disable-legacy=on,disable-modern=off")
        else
          .error .virtioNonTransitionalUnsupported
      else
        .ok base

/-- The `VIR_DOMAIN_DEVICE_DISK` arm of `qemuBuildVirtioDevStr`'s
device-kind switch: the disk's model selects the transitional flags. -/
def qemuBuildVirtioDevStrDisk (baseName : String) (qemuCaps : QemuCaps)
    (disk : DiskDef) : Except QemuError String :=
  qemuBuildVirtioDevStrCore baseName qemuCaps disk.info.addr
    (disk.model == DiskModel.virtioTransitional)
    (disk.model == DiskModel.virtioNonTransitional)

/-- Embedded from `qemuBuildVirtioOptionsStr` (qemu_command.c:630-651). -/
def qemuBuildVirtioOptionsStr (vopts : Option VirtioOptions) : String :=
  match vopts with
  | Option.none => ""
  | some v =>
      (if v.iommu ≠ .absent then ",iommu_platform=" ++ v.iommu.toStr else "")
        ++ (if v.ats ≠ .absent then ",ats=" ++ v.ats.toStr else "")
        ++ (if v.packed ≠ .absent then ",packed=" ++ v.packed.toStr else "")

/-- Embedded from `qemuBuildIoEventFdStr` (qemu_command.c:693-701). -/
def qemuBuildIoEventFdStr (use : VirTristateSwitch) (qemuCaps : QemuCaps) :
    String :=
  if use ≠ .absent && qemuCaps.virtioIoeventfd then
    ",ioeventfd=" ++ use.toStr
  else ""

end QemuCmd

namespace QemuCmd

/-- The C enum ordinal of a SCSI controller model
(`virDomainControllerModelSCSI`, with `_DEFAULT = -1`), used in the
"Unexpected SCSI controller model %d" message. -/
def SCSIControllerModel.toCInt : SCSIControllerModel → Int
  | .auto => 0
  | .buslogic => 1
  | .lsilogic => 2
  | .lsisas1068 => 3
  | .vmpvscsi => 4
  | .ibmvscsi => 5
  | .virtioScsi => 6
  | .lsisas1078 => 7
  | .virtioTransitional => 8
  | .virtioNonTransitional => 9
  | .ncr53c90 => 10
  | .dc390 => 11
  | .am53c974 => 12
  | .defaultModel => -1

/-- Union read of the drive member of a device address; the C code reads
`info->addr.drive` only on branches where the address is a drive
address. -/
def DeviceAddress.driveOrDefault : DeviceAddress → DriveAddress
  | .drive a => a
  | _ => {}

/-- The alias string of a device (empty when unset), as interpolated by
`%s` format directives. -/
def DeviceInfo.aliasStr (info : DeviceInfo) : String :=
  (info.aliasName).getD ""

/-- Modelled from the spec: `virQEMUBuildBufferEscapeComma` (external,
absent from src/) — "any free-text value interpolated into a
comma-delimited flat argument must have embedded commas doubled". -/
def virQEMUBuildBufferEscapeComma (s : String) : String :=
  String.mk (s.data.flatMap (fun c => if c = ',' then [',', ','] else [c]))

/-- Modelled from `virBufferEscape(buf, '\\', " ", ...)`: backslash-escape
embedded spaces (used for disk serials). -/
def virBufferEscapeSpace (s : String) : String :=
  String.mk (s.data.flatMap (fun c => if c = ' ' then ['\\', ' '] else [c]))

/-- Embedded from `qemuDiskBusIsSD` (qemu_command.c:1183-1195). -/
def qemuDiskBusIsSD (bus : DiskBus) : Bool :=
  bus == DiskBus.sd

/-- Modelled from the spec: `qemuAliasDiskDriveFromDisk` (qemu_alias.c,
absent from src/) — the legacy `-drive` id derived from the device alias
by prefixing `drive-`; fails when the device alias is missing. -/
def qemuAliasDiskDriveFromDisk (disk : DiskDef) : Option String :=
  match disk.info.aliasName with
  | some a => some ("drive-" ++ a)
  | Option.none => Option.none

/-- Modelled from the spec: `qemuDomainGetVhostUserChrAlias`
(qemu_domain.c, absent from src/) — chardev alias for a vhost-user
backend, derived by prefixing `chr-vu-`. -/
def qemuDomainGetVhostUserChrAlias (aliasName : String) : String :=
  "chr-vu-" ++ aliasName

/-- Modelled from the spec: `qemuDomainDiskGetBackendAlias`
(qemu_domain.c, absent from src/) — the alias of the backend storage node
a disk frontend references: with the blockdev capability (and not an SD
bus) it is the pre-computed node name of the top image (none for empty
removable media); otherwise it is the legacy `-drive` alias. -/
def qemuDomainDiskGetBackendAlias (disk : DiskDef) (qemuCaps : QemuCaps) :
    Except QemuError (Option String) :=
  if !qemuCaps.blockdev || qemuDiskBusIsSD disk.bus then
    match qemuAliasDiskDriveFromDisk disk with
    | some a => .ok (some a)
    | Option.none => .error (.other .internalError "missing disk alias")
  else if virStorageSourceIsEmpty disk.src then
    .ok Option.none
  else
    .ok disk.src.nodeformat

/-- Modelled from the spec: `virDomainControllerAliasFind` (domain_conf.c,
absent from src/) — find the controller of the given type and index in the
VM definition and return its alias; report an internal error naming the
type and index when the controller or its alias is missing. -/
def virDomainControllerAliasFind (domainDef : DomainDef)
    (ctype : ControllerType) (typeName : String) (idx : Nat) :
    Except QemuError String :=
  match domainDef.controllers.find?
      (fun cont => cont.ctype == ctype && cont.idx == idx) with
  | some cont =>
      match cont.info.aliasName with
      | some a => .ok a
      | Option.none => .error (.missingControllerAlias typeName idx)
  | Option.none => .error (.missingControllerAlias typeName idx)

/-- Modelled from the spec: `qemuDomainFindSCSIControllerModel`
(qemu_domain.c, absent from src/) — resolve the model of the SCSI
controller owning the disk's drive address. -/
def qemuDomainFindSCSIControllerModel (domainDef : DomainDef)
    (info : DeviceInfo) : Except QemuError SCSIControllerModel :=
  match domainDef.controllers.find?
      (fun cont => cont.ctype == ControllerType.scsi
        && cont.idx == info.addr.driveOrDefault.controller) with
  | some cont => .ok cont.scsiModel
  | Option.none =>
      .error (.missingControllerAlias "scsi" info.addr.driveOrDefault.controller)

/-- Modelled from the spec: the writeback flag of
`qemuDomainDiskCachemodeFlags` (qemu_domain.c, absent from src/): the
cache modes with a writeback semantic report `write-cache=on`. -/
def diskCachemodeWriteback : DiskCacheMode → Bool
  | .defaultMode => false
  | .disable => true
  | .writethrough => false
  | .writeback => true
  | .directsync => false
  | .relaxed => true

/-- Embedded from `qemuBuildDriveDevCacheStr` (qemu_command.c:1547-1572):
frontend `write-cache=` attribute, gated on an explicit cache mode, a
non-LUN frontend and the `QEMU_CAPS_DISK_WRITE_CACHE` capability. -/
def qemuBuildDriveDevCacheStr (disk : DiskDef) (qemuCaps : QemuCaps) : String :=
  if disk.cachemode == DiskCacheMode.defaultMode then ""
  else if disk.device == DiskDevice.lun then ""
  else if !qemuCaps.diskWriteCache then ""
  else
    ",write-cache=" ++ (if diskCachemodeWriteback disk.cachemode then "on" else "off")

/-- Embedded from `qemuBuildDiskFrontendAttributeErrorPolicy`
(qemu_command.c:1417-1446). -/
def qemuBuildDiskFrontendAttributeErrorPolicy (disk : DiskDef) : String :=
  let wpolicy0 : Option String :=
    if disk.errorPolicy ≠ DiskErrorPolicy.defaultPolicy then
      some disk.errorPolicy.toStr
    else Option.none
  let rpolicy0 : Option String :=
    if disk.rerrorPolicy ≠ DiskErrorPolicy.defaultPolicy then
      some disk.rerrorPolicy.toStr
    else Option.none
  let wpolicy :=
    if disk.errorPolicy == DiskErrorPolicy.enospace then some "enospc" else wpolicy0
  let rpolicy :=
    if disk.errorPolicy == DiskErrorPolicy.enospace then rpolicy0
    else if rpolicy0 == Option.none then wpolicy else rpolicy0
  (match wpolicy with
   | some w => ",werror=" ++ w
   | Option.none => "")
    ++ (match rpolicy with
        | some r => ",rerror=" ++ r
        | Option.none => "")

/-- Embedded from `qemuBuildDiskFrontendAttributes`
(qemu_command.c:1448-1470): geometry keys and the space-escaped serial.
The geometry translation mode is carried as its pre-rendered name
(`Option.none` for VIR_DOMAIN_DISK_TRANS_DEFAULT). -/
def qemuBuildDiskFrontendAttributes (disk : DiskDef) : String :=
  let geom :=
    if disk.geomCylinders > 0 && disk.geomHeads > 0 && disk.geomSectors > 0 then
      ",cyls=" ++ toString disk.geomCylinders
        ++ ",heads=" ++ toString disk.geomHeads
        ++ ",secs=" ++ toString disk.geomSectors
        ++ (match disk.geomTransName with
            | some t => ",bios-chs-trans=" ++ t
            | Option.none => "")
    else ""
  let serial :=
    match disk.serial with
    | some s => ",serial=" ++ virBufferEscapeSpace s
    | Option.none => ""
  geom ++ serial

end QemuCmd

namespace QemuCmd

/-- Embedded from `qemuBuildDiskDeviceStr` (qemu_command.c:1574-1838),
first switch over the disk bus: select the device name and the bus /
address keys of the frontend. -/
def qemuBuildDiskDeviceStrHead (domainDef : DomainDef) (disk : DiskDef)
    (qemuCaps : QemuCaps) : Except QemuError String := do
  let drv := disk.info.addr.driveOrDefault
  match disk.bus with
    | DiskBus.ide => do
        let dev := if disk.device == DiskDevice.cdrom then "ide-cd" else "ide-hd"
        let contAlias ←
          if domainDef.hasBuiltinIDE then
            pure "ide"
          else
            virDomainControllerAliasFind domainDef ControllerType.ide "ide"
              drv.controller
        pure (dev ++ ",bus=" ++ contAlias ++ "." ++ toString drv.bus
          ++ ",unit=" ++ toString drv.unit)
    | DiskBus.scsi => do
        let controllerModel ← qemuDomainFindSCSIControllerModel domainDef disk.info
        let base :=
          if disk.device == DiskDevice.lun then "scsi-block"
          else if disk.device == DiskDevice.cdrom then "scsi-cd"
          else "scsi-hd"
        let scsiVPDDeviceId : Option String :=
          if disk.device ≠ DiskDevice.lun && qemuCaps.scsiDiskDeviceId then
            match disk.serial with
            | some s => some s
            | Option.none => qemuAliasDiskDriveFromDisk disk
          else Option.none
        -- the C code fails when the device-id fallback alias is missing
        if disk.device ≠ DiskDevice.lun && qemuCaps.scsiDiskDeviceId
            && scsiVPDDeviceId == Option.none then
          throw (.other .internalError "missing disk alias")
        let contAlias ←
          virDomainControllerAliasFind domainDef ControllerType.scsi "scsi"
            drv.controller
        let busPart : String ←
          match controllerModel with
          | .lsilogic | .ncr53c90 | .dc390 | .am53c974 =>
              pure (",bus=" ++ contAlias ++ "." ++ toString drv.bus
                ++ ",scsi-id=" ++ toString drv.unit)
          | .auto | .buslogic | .lsisas1068 | .vmpvscsi | .ibmvscsi
          | .virtioScsi | .lsisas1078 | .virtioTransitional
          | .virtioNonTransitional =>
              pure (",bus=" ++ contAlias ++ ".0"
                ++ ",channel=" ++ toString drv.bus
                ++ ",scsi-id=" ++ toString drv.target
                ++ ",lun=" ++ toString drv.unit)
          | .defaultModel =>
              throw (.unexpectedSCSIModel controllerModel.toCInt)
        let deviceIdPart :=
          match scsiVPDDeviceId with
          | some d => ",device_id=" ++ d
          | Option.none => ""
        pure (base ++ busPart ++ deviceIdPart)
    | DiskBus.sata => do
        let dev := if disk.device == DiskDevice.cdrom then "ide-cd" else "ide-hd"
        let contAlias ←
          if domainDef.isQ35 && drv.controller == 0 then
            pure "ide"
          else
            virDomainControllerAliasFind domainDef ControllerType.sata "sata"
              drv.controller
        pure (dev ++ ",bus=" ++ contAlias ++ "." ++ toString drv.unit)
    | DiskBus.virtio => do
        let name ←
          if virStorageSourceGetActualType disk.src == StorageType.vhostUser then
            qemuBuildVirtioDevStrDisk "vhost-user-blk" qemuCaps disk
          else
            qemuBuildVirtioDevStrDisk "virtio-blk" qemuCaps disk
        let iothreadPart :=
          if disk.iothread ≠ 0 then
            ",iothread=iothread" ++ toString disk.iothread
          else ""
        let ioeventfdPart := qemuBuildIoEventFdStr disk.ioeventfd qemuCaps
        let eventIdxPart :=
          if disk.eventIdx ≠ .absent && qemuCaps.virtioBlkEventIdx then
            ",event_idx=" ++ disk.eventIdx.toStr
          else ""
        let scsiPart :=
          if qemuCaps.virtioBlkScsi
              && !(qemuCaps.virtioBlkScsiDefaultDisabled
                    && disk.device ≠ DiskDevice.lun) then
            ",scsi=" ++ (if disk.device == DiskDevice.lun then "on" else "off")
          else ""
        let queuesPart :=
          if disk.queues ≠ 0 then ",num-queues=" ++ toString disk.queues else ""
        let vPart := qemuBuildVirtioOptionsStr disk.virtioOpts
        let addrPart ← qemuBuildDeviceAddressStr domainDef disk.info
        pure (name ++ iothreadPart ++ ioeventfdPart ++ eventIdxPart ++ scsiPart
          ++ queuesPart ++ vPart ++ addrPart)
    | DiskBus.usb => do
        let addrPart ← qemuBuildDeviceAddressStr domainDef disk.info
        pure ("usb-storage" ++ addrPart)
    | DiskBus.fdc =>
        pure ("floppy,unit=" ++ toString drv.unit)
    | DiskBus.xen => throw (.unsupportedDiskBus DiskBus.xen.toStr)
    | DiskBus.uml => throw (.unsupportedDiskBus DiskBus.uml.toStr)
    | DiskBus.sd => throw (.unsupportedDiskBus DiskBus.sd.toStr)
    | DiskBus.noneBus => throw (.unsupportedDiskBus DiskBus.noneBus.toStr)

/-- Embedded from `qemuBuildDiskDeviceStr` (qemu_command.c:1574-1838):
build the `-device` argument text of a disk frontend — the bus-specific
head followed by the common tail appending backend reference, id, boot
index and tuning keys. -/
def qemuBuildDiskDeviceStr (domainDef : DomainDef) (disk : DiskDef)
    (qemuCaps : QemuCaps) : Except QemuError String := do
  let head ← qemuBuildDiskDeviceStrHead domainDef disk qemuCaps
  let sharePart :=
    if disk.src.shared && qemuCaps.diskShareRw then ",share-rw=on" else ""
  let backendPart : String ←
    if virStorageSourceGetActualType disk.src == StorageType.vhostUser then
      pure (",chardev=" ++ qemuDomainGetVhostUserChrAlias disk.info.aliasStr)
    else do
      let backendAlias ← qemuDomainDiskGetBackendAlias disk qemuCaps
      match backendAlias with
      | some a => pure (",drive=" ++ a)
      | Option.none => pure ""
  let idPart := ",id=" ++ disk.info.aliasStr
  let bootPart :=
    if disk.device ≠ DiskDevice.floppy && disk.effectiveBootindex > 0 then
      ",bootindex=" ++ toString disk.effectiveBootindex
    else ""
  let blockioPart :=
    if qemuCaps.blockio then
      (if disk.blockioLogical > 0 then
        ",logical_block_size=" ++ toString disk.blockioLogical
      else "")
        ++ (if disk.blockioPhysical > 0 then
              ",physical_block_size=" ++ toString disk.blockioPhysical
            else "")
    else ""
  let wwnPart :=
    match disk.wwn with
    | some w =>
        if ("0x").data.isPrefixOf w.data then ",wwn=" ++ w
        else ",wwn=0x" ++ w
    | Option.none => ""
  let rotationPart :=
    if disk.rotationRate ≠ 0 then
      ",rotation_rate=" ++ toString disk.rotationRate
    else ""
  let vendorPart :=
    match disk.vendor with
    | some v => ",vendor=" ++ virQEMUBuildBufferEscapeComma v
    | Option.none => ""
  let productPart :=
    match disk.product with
    | some p => ",product=" ++ virQEMUBuildBufferEscapeComma p
    | Option.none => ""
  let removablePart :=
    if disk.bus == DiskBus.usb && qemuCaps.usbStorageRemovable then
      if disk.removable == .on then ",removable=on" else ",removable=off"
    else ""
  let cachePart := qemuBuildDriveDevCacheStr disk qemuCaps
  let frontendPart := qemuBuildDiskFrontendAttributes disk
  let werrorPart :=
    if qemuCaps.storageWerror then
      qemuBuildDiskFrontendAttributeErrorPolicy disk
    else ""
  pure (head ++ sharePart ++ backendPart ++ idPart ++ bootPart ++ blockioPart
    ++ wwnPart ++ rotationPart ++ vendorPart ++ productPart ++ removablePart
    ++ cachePart ++ frontendPart ++ werrorPart)

end QemuCmd

namespace QemuCmd

/-! ## Commands and backend attachment bundles -/

/-- The accumulated command (`virCommand`), reduced to its ordered argument
list. -/
structure VirCommand where
  args : List String := []
deriving DecidableEq, Repr

/-- Append one argument (`virCommandAddArg` /
`virCommandAddArgBuffer`). -/
def VirCommand.addArg (cmd : VirCommand) (a : String) : VirCommand :=
  { args := cmd.args ++ [a] }

/-- Append several arguments (`virCommandAddArgList`). -/
def VirCommand.addArgList (cmd : VirCommand) (l : List String) : VirCommand :=
  { args := cmd.args ++ l }

/-- Embedded from `qemuBuildObjectCommandline` (qemu_command.c:1957-1974):
emit `-object` with the serialized property tree, or nothing when the tree
is absent. -/
def qemuBuildObjectCommandline (cmd : VirCommand) (objProps : Option JObject)
    (qemuCaps : QemuCaps) : Except QemuError VirCommand :=
  match objProps with
  | Option.none => .ok cmd
  | some props => do
      let s ← qemuBuildObjectCommandlineFromJSON props qemuCaps
      .ok (cmd.addArgList ["-object", s])

/-- Modelled from the spec: `qemuDomainGetMasterKeyAlias` (qemu_domain.c,
absent from src/) — the fixed alias of the master-key secret object. -/
def qemuDomainGetMasterKeyAlias : String := "masterKey0"

/-- Modelled from the spec: `qemuMonitorCreateObjectProps`
(qemu_monitor.c, absent from src/) — build a property tree whose first two
keys are the object type (`qom-type`) and alias (`id`), followed by the
listed properties. -/
def qemuMonitorCreateObjectProps (qomType aliasName : String)
    (rest : JObject) : JObject :=
  ("qom-type", JValue.str qomType) :: ("id", JValue.str aliasName) :: rest

/-- Embedded from `qemuBuildSecretInfoProps` (qemu_command.c:709-724):
property tree of an AES `secret` object. -/
def qemuBuildSecretInfoProps (secinfo : SecretInfo) : JObject :=
  qemuMonitorCreateObjectProps "secret" secinfo.aesAlias
    [("data", JValue.str secinfo.ciphertext),
     ("keyid", JValue.str qemuDomainGetMasterKeyAlias),
     ("iv", JValue.str secinfo.iv),
     ("format", JValue.str "base64")]

/-- Embedded from `qemuBuildPRManagerInfoPropsInternal`
(qemu_command.c:10012-10025). -/
def qemuBuildPRManagerInfoPropsInternal (aliasName path : String) : JObject :=
  qemuMonitorCreateObjectProps "pr-manager-helper" aliasName
    [("path", JValue.str path)]

/-- Embedded from `qemuBuildPRManagerInfoProps` (qemu_command.c:10047-10056):
pr-manager object of an unmanaged reservation. -/
def qemuBuildPRManagerInfoProps (pr : PRDef) : JObject :=
  qemuBuildPRManagerInfoPropsInternal pr.mgralias pr.path

/-- Modelled from the spec: `virStoragePRDefIsManaged` (external, absent
from src/). -/
def virStoragePRDefIsManaged (pr : PRDef) : Bool := pr.managed

/-- Embedded from `qemuBuildTLSx509BackendProps` (qemu_command.c:862-887):
property tree of a `tls-creds-x509` object, gated on the
`QEMU_CAPS_OBJECT_TLS_CREDS_X509` capability. -/
def qemuBuildTLSx509BackendProps (tlspath : String) (isListen verifypeer : Bool)
    (aliasName : String) (secalias : Option String) (qemuCaps : QemuCaps) :
    Except QemuError JObject :=
  if !qemuCaps.objectTlsCredsX509 then
    .error (.other .configUnsupported "tls-creds-x509 not supported in this QEMU binary")
  else
    .ok (qemuMonitorCreateObjectProps "tls-creds-x509" aliasName
      ([("dir", JValue.str tlspath),
        ("endpoint", JValue.str (if isListen then "server" else "client")),
        ("verify-peer", JValue.bool (if isListen then verifypeer else true))]
        ++ (match secalias with
            | some s => [("passwordid", JValue.str s)]
            | Option.none => [])))

/-- One backend attachment bundle (`qemuBlockStorageSourceAttachData`):
the prerequisite property trees and primary backend fragments of one
storage layer. -/
structure BlockStorageSourceAttachData where
  prmgrProps : Option JObject := Option.none
  authsecretProps : Option JObject := Option.none
  encryptsecretProps : Option JObject := Option.none
  httpcookiesecretProps : Option JObject := Option.none
  tlsKeySecretProps : Option JObject := Option.none
  tlsProps : Option JObject := Option.none
  driveCmd : Option String := Option.none
  chardevCmd : Option String := Option.none
  storageProps : Option JObject := Option.none
  storageSliceProps : Option JObject := Option.none
  formatProps : Option JObject := Option.none

/-- Embedded from `qemuBuildBlockStorageSourceAttachDataCommandline`
(qemu_command.c:1977-2024): emit the bundle's objects in the fixed
dependency order — pr-manager, auth secret, encryption secret, http-cookie
secret, TLS key secret, TLS credentials — followed by the primary backend
(`-drive`, `-chardev`, or the `-blockdev` triple of storage, slice and
format nodes). -/
def qemuBuildBlockStorageSourceAttachDataCommandline (cmd : VirCommand)
    (data : BlockStorageSourceAttachData) (qemuCaps : QemuCaps) :
    Except QemuError VirCommand := do
  let cmd ← qemuBuildObjectCommandline cmd data.prmgrProps qemuCaps
  let cmd ← qemuBuildObjectCommandline cmd data.authsecretProps qemuCaps
  let cmd ← qemuBuildObjectCommandline cmd data.encryptsecretProps qemuCaps
  let cmd ← qemuBuildObjectCommandline cmd data.httpcookiesecretProps qemuCaps
  let cmd ← qemuBuildObjectCommandline cmd data.tlsKeySecretProps qemuCaps
  let cmd ← qemuBuildObjectCommandline cmd data.tlsProps qemuCaps
  let cmd :=
    match data.driveCmd with
    | some d => cmd.addArgList ["-drive", d]
    | Option.none => cmd
  let cmd :=
    match data.chardevCmd with
    | some c => cmd.addArgList ["-chardev", c]
    | Option.none => cmd
  let cmd :=
    match data.storageProps with
    | some p => cmd.addArgList ["-blockdev", jsonToString (.obj p)]
    | Option.none => cmd
  let cmd :=
    match data.storageSliceProps with
    | some p => cmd.addArgList ["-blockdev", jsonToString (.obj p)]
    | Option.none => cmd
  let cmd :=
    match data.formatProps with
    | some p => cmd.addArgList ["-blockdev", jsonToString (.obj p)]
    | Option.none => cmd
  pure cmd

/-- Embedded from `qemuBuildStorageSourceAttachPrepareCommon`
(qemu_command.c:10968-11017): attach the secret / TLS / pr-manager
property trees of one storage layer to its bundle. -/
def qemuBuildStorageSourceAttachPrepareCommon (src : StorageSource)
    (data : BlockStorageSourceAttachData) (qemuCaps : QemuCaps) :
    Except QemuError BlockStorageSourceAttachData := do
  let data :=
    match src.pr with
    | some pr =>
        if !virStoragePRDefIsManaged pr then
          { data with prmgrProps := some (qemuBuildPRManagerInfoProps pr) }
        else data
    | Option.none => data
  let data :=
    match src.secinfo with
    | some si =>
        if si.isAES then
          { data with authsecretProps := some (qemuBuildSecretInfoProps si) }
        else data
    | Option.none => data
  let data :=
    match src.encinfo with
    | some ei => { data with encryptsecretProps := some (qemuBuildSecretInfoProps ei) }
    | Option.none => data
  let data :=
    match src.httpcookie with
    | some hc => { data with httpcookiesecretProps := some (qemuBuildSecretInfoProps hc) }
    | Option.none => data
  let data :=
    match src.tlsKeySecret with
    | some tk => { data with tlsKeySecretProps := some (qemuBuildSecretInfoProps tk) }
    | Option.none => data
  let tlsKeySecretAlias :=
    match src.tlsKeySecret with
    | some tk => some tk.aesAlias
    | Option.none => Option.none
  if src.haveTLS == VirTristateBool.yes then do
    let tlsProps ← qemuBuildTLSx509BackendProps src.tlsCertdir false true
      src.tlsAlias tlsKeySecretAlias qemuCaps
    pure { data with tlsProps := some tlsProps }
  else
    pure data

end QemuCmd

namespace QemuCmd

/-- Legacy cache-mode names (`qemuDiskCacheV2TypeToString`); `relaxed`
renders as the source's name for the no-flush mode. -/
def DiskCacheMode.legacyStr : DiskCacheMode → String
  | .defaultMode => "default"
  | .disable => "none"
  | .writethrough => "writethrough"
  | .writeback => "writeback"
  | .directsync => "directsync"
  | .relaxed => "unsafe"

/-- Embedded from `qemuBuildDiskThrottling` (qemu_command.c:1377-1415):
`throttling.*` keys of the legacy `-drive` argument, one per non-zero
iotune field, in source order. -/
def qemuBuildDiskThrottling (disk : DiskDef) : String :=
  let t := disk.blkdeviotune
  let add (v : Nat) (label : String) : String :=
    if v ≠ 0 then ",throttling." ++ label ++ "=" ++ toString v else ""
  add t.totalBytesSec "bps-total"
    ++ add t.readBytesSec "bps-read"
    ++ add t.writeBytesSec "bps-write"
    ++ add t.totalIopsSec "iops-total"
    ++ add t.readIopsSec "iops-read"
    ++ add t.writeIopsSec "iops-write"
    ++ add t.totalBytesSecMax "bps-total-max"
    ++ add t.readBytesSecMax "bps-read-max"
    ++ add t.writeBytesSecMax "bps-write-max"
    ++ add t.totalIopsSecMax "iops-total-max"
    ++ add t.readIopsSecMax "iops-read-max"
    ++ add t.writeIopsSecMax "iops-write-max"
    ++ add t.sizeIopsSec "iops-size"
    ++ (match t.groupName with
        | some g => ",throttling.group=" ++ virQEMUBuildBufferEscapeComma g
        | Option.none => "")
    ++ add t.totalBytesSecMaxLength "bps-total-max-length"
    ++ add t.readBytesSecMaxLength "bps-read-max-length"
    ++ add t.writeBytesSecMaxLength "bps-write-max-length"
    ++ add t.totalIopsSecMaxLength "iops-total-max-length"
    ++ add t.readIopsSecMaxLength "iops-read-max-length"
    ++ add t.writeIopsSecMaxLength "iops-write-max-length"

/-- Embedded from `qemuBuildDriveStr` (qemu_command.c:1473-1544).  The
source-locator prefix that `qemuBuildDriveSourceStr`
(qemu_command.c:1290-1371) renders is carried precomputed in
`disk.driveSourceStr` (empty for an empty drive, otherwise
comma-terminated): no claim depends on the locator text itself.  The SD
index that `virDiskNameToIndex` (external) derives from the target name is
carried in `disk.dstIndex`. -/
def qemuBuildDriveStr (disk : DiskDef) (qemuCaps : QemuCaps) :
    Except QemuError String := do
  let sourcePart := disk.driveSourceStr
  let ifPart : String ←
    if !qemuDiskBusIsSD disk.bus then
      match qemuAliasDiskDriveFromDisk disk with
      | some drivealias => pure ("if=none" ++ ",id=" ++ drivealias)
      | Option.none => throw (.other .internalError "missing disk alias")
    else
      pure ("if=sd,index=" ++ toString disk.dstIndex)
  let werrorPart :=
    if !qemuCaps.storageWerror then
      qemuBuildDiskFrontendAttributeErrorPolicy disk
    else ""
  let readonlyPart := if disk.src.readonly then ",readonly=on" else ""
  let mediaPart :=
    if !virStorageSourceIsEmpty disk.src then
      (if disk.cachemode ≠ DiskCacheMode.defaultMode then
        ",cache=" ++ disk.cachemode.legacyStr
      else "")
        ++ (if disk.copyOnRead ≠ .absent then
              ",copy-on-read=" ++ disk.copyOnRead.toStr
            else "")
        ++ (match disk.discardName with
            | some d => ",discard=" ++ d
            | Option.none => "")
        ++ (match disk.detectZeroesName with
            | some d => ",detect-zeroes=" ++ d
            | Option.none => "")
        ++ (match disk.iomodeName with
            | some m => ",aio=" ++ m
            | Option.none => "")
    else ""
  pure (sourcePart ++ ifPart ++ werrorPart ++ readonlyPart ++ mediaPart
    ++ qemuBuildDiskThrottling disk)

/-- Embedded from `qemuBuildStorageSourceAttachPrepareDrive`
(qemu_command.c:10909-10932): legacy `-drive` bundle of a disk. -/
def qemuBuildStorageSourceAttachPrepareDrive (disk : DiskDef)
    (qemuCaps : QemuCaps) : Except QemuError BlockStorageSourceAttachData := do
  let driveCmd ← qemuBuildDriveStr disk qemuCaps
  match qemuAliasDiskDriveFromDisk disk with
  | some _ => pure { driveCmd := some driveCmd }
  | Option.none => throw (.other .internalError "missing disk alias")

/-- Embedded from `qemuBuildStorageSourceAttachPrepareChardev`
(qemu_command.c:10935-10963): `-chardev` bundle of a vhost-user disk.  The
reconnect sub-options of `qemuBuildChrChardevReconnectStr` are omitted:
the embedded sources never set them. -/
def qemuBuildStorageSourceAttachPrepareChardev (disk : DiskDef) :
    BlockStorageSourceAttachData :=
  let chardevAlias := qemuDomainGetVhostUserChrAlias disk.info.aliasStr
  let path := (disk.src.vhostuserPath).getD ""
  { chardevCmd := some ("socket" ++ ",id=" ++ chardevAlias ++ ",path="
      ++ virQEMUBuildBufferEscapeComma path) }

/-- Modelled from the spec: `qemuBlockStorageSourceAttachPrepareBlockdev`
(qemu_block.c, absent from src/) — the `-blockdev` bundle of one storage
layer, whose protocol / slice / format property trees are carried
precomputed on the source ("a modern structured backend-chain approach
where every layer ... is attached as a chain of individually named
nodes"). -/
def qemuBlockStorageSourceAttachPrepareBlockdev (src : StorageSource) :
    BlockStorageSourceAttachData :=
  { storageProps := src.storageProps
    storageSliceProps := src.storageSliceProps
    formatProps := src.formatProps }

/-- Embedded from `qemuBuildStorageSourceChainAttachPrepareBlockdevOne`
(qemu_command.c:11075-11091): bundle of one layer plus its common backend
objects. -/
def qemuBuildStorageSourceChainAttachPrepareBlockdevOne (src : StorageSource)
    (qemuCaps : QemuCaps) : Except QemuError BlockStorageSourceAttachData :=
  qemuBuildStorageSourceAttachPrepareCommon src
    (qemuBlockStorageSourceAttachPrepareBlockdev src) qemuCaps

/-- Embedded from `qemuBuildStorageSourceChainAttachPrepareBlockdev`
(qemu_command.c:11094-11118): walk the backing chain from the top image
inward, appending one bundle per layer (so the resulting list is ordered
top image first, innermost backing file last). -/
def qemuBuildStorageSourceChainAttachPrepareBlockdev :
    StorageSource → QemuCaps → Except QemuError (List BlockStorageSourceAttachData)
  | .mk t e sh r nf pr si ei hc tk ht tc ta sp ssp fp vp bs, qemuCaps => do
      let src := StorageSource.mk t e sh r nf pr si ei hc tk ht tc ta sp ssp fp vp bs
      let elem ← qemuBuildStorageSourceChainAttachPrepareBlockdevOne src qemuCaps
      let rest ←
        match bs with
        | some b => qemuBuildStorageSourceChainAttachPrepareBlockdev b qemuCaps
        | Option.none => pure []
      pure (elem :: rest)

/-- Embedded from `qemuBuildStorageSourceChainAttachPrepareDrive`
(qemu_command.c:11021-11046): single-element chain data for the legacy
`-drive` strategy. -/
def qemuBuildStorageSourceChainAttachPrepareDrive (disk : DiskDef)
    (qemuCaps : QemuCaps) : Except QemuError (List BlockStorageSourceAttachData) := do
  let elem ← qemuBuildStorageSourceAttachPrepareDrive disk qemuCaps
  let elem ← qemuBuildStorageSourceAttachPrepareCommon disk.src elem qemuCaps
  pure [elem]

/-- Embedded from `qemuBuildStorageSourceChainAttachPrepareChardev`
(qemu_command.c:11049-11070): single-element chain data for the
vhost-user `-chardev` strategy. -/
def qemuBuildStorageSourceChainAttachPrepareChardev (disk : DiskDef) :
    List BlockStorageSourceAttachData :=
  [qemuBuildStorageSourceAttachPrepareChardev disk]

/-- Emission loop of `qemuBuildDiskSourceCommandLine`
(qemu_command.c:2057-2062): `for (i = data->nsrcdata; i > 0; i--)` emits
the chain bundles in reverse list order (innermost backing file first). -/
def emitChainDataReversed (cmd : VirCommand)
    (srcdata : List BlockStorageSourceAttachData) (qemuCaps : QemuCaps) :
    Except QemuError VirCommand :=
  (srcdata.reverse).foldlM
    (fun acc d => qemuBuildBlockStorageSourceAttachDataCommandline acc d qemuCaps)
    cmd

/-- Embedded from `qemuBuildDiskSourceCommandLine`
(qemu_command.c:2027-2072): choose exactly one attachment strategy
(vhost-user chardev, modern blockdev chain, or legacy drive), then emit
the bundles innermost-first, followed by the copy-on-read node when
requested. -/
def qemuBuildDiskSourceCommandLine (cmd : VirCommand) (disk : DiskDef)
    (qemuCaps : QemuCaps) : Except QemuError VirCommand := do
  if virStorageSourceGetActualType disk.src == StorageType.vhostUser then
    let data := qemuBuildStorageSourceChainAttachPrepareChardev disk
    emitChainDataReversed cmd data qemuCaps
  else if qemuCaps.blockdev && !qemuDiskBusIsSD disk.bus then
    if virStorageSourceIsEmpty disk.src then
      pure cmd
    else do
      let data ← qemuBuildStorageSourceChainAttachPrepareBlockdev disk.src qemuCaps
      let copyOnReadProps ←
        if disk.copyOnRead == .on then
          match disk.copyOnReadNodeProps with
          | some p => pure (some p)
          | Option.none =>
              throw (.other .internalError "copy-on-read node props missing")
        else
          pure (Option.none : Option JObject)
      let cmd ← emitChainDataReversed cmd data qemuCaps
      match copyOnReadProps with
      | some p => pure (cmd.addArgList ["-blockdev", jsonToString (.obj p)])
      | Option.none => pure cmd
  else do
    let data ← qemuBuildStorageSourceChainAttachPrepareDrive disk qemuCaps
    emitChainDataReversed cmd data qemuCaps

/-- Embedded from `qemuBuildZPCIDevStr` (qemu_command.c:1840-1854). -/
def qemuBuildZPCIDevStr (info : DeviceInfo) : String :=
  match info.addr with
  | .pci a =>
      let uid := (a.zpciUid).getD 0
      "zpci,uid=" ++ toString uid ++ ",fid=" ++ toString a.zpciFid
        ++ ",target=" ++ info.aliasStr ++ ",id=zpci" ++ toString uid
  | _ => ""

/-- Embedded from `qemuCommandAddExtDevice` (qemu_command.c:1872-1886):
emit the companion zPCI `-device` for a PCI address carrying the zPCI
extension. -/
def qemuCommandAddExtDevice (cmd : VirCommand) (info : DeviceInfo) : VirCommand :=
  match info.addr with
  | .pci a =>
      match a.zpciUid with
      | some _ => cmd.addArgList ["-device", qemuBuildZPCIDevStr info]
      | Option.none => cmd
  | _ => cmd

/-- Embedded from `qemuBuildDiskCommandLine` (qemu_command.c:2076-2106):
emit the backend bundles of one disk, then (except for SD disks and
pre-blockdev floppies) the consuming `-device` fragment. -/
def qemuBuildDiskCommandLine (cmd : VirCommand) (domainDef : DomainDef)
    (disk : DiskDef) (qemuCaps : QemuCaps) : Except QemuError VirCommand := do
  let cmd ← qemuBuildDiskSourceCommandLine cmd disk qemuCaps
  if qemuDiskBusIsSD disk.bus then
    pure cmd
  else if disk.bus == DiskBus.fdc && !qemuCaps.blockdev then
    pure cmd
  else do
    let cmd := qemuCommandAddExtDevice cmd disk.info
    let cmd := cmd.addArg "-device"
    let optstr ← qemuBuildDiskDeviceStr domainDef disk qemuCaps
    pure (cmd.addArg optstr)

end QemuCmd

namespace QemuCmd

/-- Drop one trailing comma (`virBufferTrim(buf, ",")`). -/
def trimTrailingComma (s : String) : String :=
  if s.data.getLast? == some ',' then String.mk s.data.dropLast else s

/-- Embedded from `qemuBuildFloppyCommandLineControllerOptions`
(qemu_command.c:1888-1955): `-global isa-fdc.*` options (implicit FDC) or
one explicit `isa-fdc` `-device` collecting the per-drive options. -/
def qemuBuildFloppyCommandLineControllerOptions (cmd : VirCommand)
    (domainDef : DomainDef) (qemuCaps : QemuCaps) : Except QemuError VirCommand := do
  let explicitfdc := domainDef.needsFDC
  let res ← domainDef.disks.foldlM
    (fun (acc : VirCommand × String × Bool) disk => do
      let (cmd, fdcOpts, hasfloppy) := acc
      if disk.bus ≠ DiskBus.fdc then
        pure (cmd, fdcOpts, hasfloppy)
      else do
        let driveLetter :=
          if disk.info.addr.driveOrDefault.unit ≠ 0 then "B" else "A"
        let bootindexStr : Option String :=
          if disk.effectiveBootindex > 0 then
            some ("bootindex" ++ driveLetter ++ "="
              ++ toString disk.effectiveBootindex)
          else Option.none
        let backendStr : Option String ←
          if !qemuCaps.blockdev then do
            let backendAlias ← qemuDomainDiskGetBackendAlias disk qemuCaps
            pure (backendAlias.map
              (fun a => "drive" ++ driveLetter ++ "=" ++ a))
          else
            pure Option.none
        if !explicitfdc then
          let cmd :=
            match backendStr with
            | some b => cmd.addArgList ["-global", "isa-fdc." ++ b]
            | Option.none => cmd
          let cmd :=
            match bootindexStr with
            | some b => cmd.addArgList ["-global", "isa-fdc." ++ b]
            | Option.none => cmd
          pure (cmd, fdcOpts, true)
        else
          let fdcOpts := fdcOpts
            ++ (match backendStr with
                | some b => b ++ ","
                | Option.none => "")
          let fdcOpts := fdcOpts
            ++ (match bootindexStr with
                | some b => b ++ ","
                | Option.none => "")
          pure (cmd, fdcOpts, true))
    (cmd, "isa-fdc,", false)
  let (cmd, fdcOpts, hasfloppy) := res
  if explicitfdc && hasfloppy then
    pure ((cmd.addArg "-device").addArg (trimTrailingComma fdcOpts))
  else
    pure cmd

/-- Embedded from `qemuBuildDisksCommandLine` (qemu_command.c:2109-2141):
floppy controller options (before the loop with blockdev, after it
without), then one `qemuBuildDiskCommandLine` per non-deferred disk. -/
def qemuBuildDisksCommandLine (cmd : VirCommand) (domainDef : DomainDef)
    (qemuCaps : QemuCaps) : Except QemuError VirCommand := do
  let blockdev := qemuCaps.blockdev
  let cmd ←
    if blockdev then
      qemuBuildFloppyCommandLineControllerOptions cmd domainDef qemuCaps
    else
      pure cmd
  let cmd ← domainDef.disks.foldlM
    (fun cmd disk =>
      if disk.transient && disk.transientShareBacking == VirTristateBool.yes then
        pure cmd
      else
        qemuBuildDiskCommandLine cmd domainDef disk qemuCaps)
    cmd
  if !blockdev then
    qemuBuildFloppyCommandLineControllerOptions cmd domainDef qemuCaps
  else
    pure cmd

/-- Embedded from `qemuBuildPanicCommandLine` (qemu_command.c:9977-10009):
one `pvpanic` `-device` pair per ISA-model panic device with an ISA or
absent address; the ISA arm of the outer model switch lacks a `break`, but
it falls through only into arms whose bodies are empty `break`s, so
nothing further is emitted and the function always succeeds. -/
def qemuBuildPanicCommandLine (cmd : VirCommand) (domainDef : DomainDef) :
    Except QemuError VirCommand :=
  .ok (domainDef.panics.foldl
    (fun cmd p =>
      match p.model with
      | .isa =>
          (match p.info.addr with
           | .isa iobase _ =>
               cmd.addArgList ["-device", "pvpanic,ioport=" ++ toString iobase]
           | .none => cmd.addArgList ["-device", "pvpanic"]
           | _ => cmd)
      | _ => cmd)
    cmd)

end QemuCmd

namespace QemuCmd

/-! ## Memory backend objects -/

/-- Memory access modes (`virDomainMemoryAccess`). -/
inductive MemAccess where
  | defaultAccess
  | shared
  | privateAccess
deriving DecidableEq, Repr

/-- Memory device models, collapsed to the tags the backend builder
inspects. -/
inductive MemoryModel where
  | noneModel
  | dimm
  | nvdimm
  | virtioPmem
deriving DecidableEq, Repr

/-- Memory sources (`virDomainMemorySource`). -/
inductive MemorySource where
  | noneSource
  | fileSource
  | anonymous
  | memfd
deriving DecidableEq, Repr

/-- Memory allocation modes (`virDomainMemoryAllocation`). -/
inductive MemAllocation where
  | noneAlloc
  | immediate
  | ondemand
deriving DecidableEq, Repr

/-- NUMA tuning modes (`virDomainNumatuneMemMode`). -/
inductive NumatuneMode where
  | strict
  | preferred
  | interleave
  | restrictive
deriving DecidableEq, Repr

/-- Legacy policy names (`qemuNumaPolicyTypeToString`: strict renders as
`bind`). -/
def NumatuneMode.toStr : NumatuneMode → String
  | .strict => "bind"
  | .preferred => "preferred"
  | .interleave => "interleave"
  | .restrictive => "restrictive"

/-- One `<page/>` hugepage setting (`virDomainHugePage`): size in KiB and
an optional guest-node mask. -/
structure DomainHugePage where
  size : Nat := 0
  nodemask : Option (List Bool) := Option.none
deriving DecidableEq, Repr

/-- Domain-wide memory tuning (`def->mem`). -/
structure DomainMem where
  source : MemorySource := .noneSource
  allocation : MemAllocation := .noneAlloc
  access : MemAccess := .defaultAccess
  discard : VirTristateBool := .absent
  hugepages : List DomainHugePage := []
deriving DecidableEq, Repr

/-- One memory cell / memory device (`virDomainMemoryDef`), sizes in
KiB. -/
structure MemoryDef where
  size : Nat := 0
  targetNode : Int := -1
  access : MemAccess := .defaultAccess
  discard : VirTristateBool := .absent
  pagesize : Nat := 0
  nvdimmPath : Option String := Option.none
  nvdimmPmem : Bool := false
  model : MemoryModel := .noneModel
  alignsize : Nat := 0
  sourceNodes : Option (List Nat) := Option.none
  infoAlias : String := ""
deriving DecidableEq, Repr

/-- External collaborators of `qemuBuildMemoryBackendProps`, passed as an
oracle record: the host page size (`virGetSystemPageSizeKB`), the driver
config's default hugepage size (`qemuBuildMemoryGetDefaultPagesize`), the
hugepage and memory-backing path builders (`qemuGetDomainHupageMemPath`,
`qemuGetMemoryBackingPath`), host nodeset availability
(`virNumaNodesetIsAvailable`), the NUMA queries on `def->numa`
(`virDomainNuma*`), and `priv->memPrealloc`. -/
structure MemEnv where
  systemPageSize : Nat := 4
  defaultHugepageSize : Option Nat := Option.none
  hugepageMemPath : Nat → Option String := fun _ => Option.none
  memoryBackingPath : String → Option String := fun _ => Option.none
  nodesetAvailable : List Nat → Bool := fun _ => true
  numaNodeCount : Nat := 0
  numaNodeMemoryAccessMode : Nat → MemAccess := fun _ => .defaultAccess
  numaNodeDiscard : Nat → VirTristateBool := fun _ => .absent
  numatuneModeForNode : Int → Option NumatuneMode := fun _ => Option.none
  numatuneNodeSpecified : Int → Bool := fun _ => false
  numatuneMaybeNodeset : Int → Option (List Nat) := fun _ => Option.none
  memPrealloc : Bool := false

/-- Embedded from `qemuBuildMemoryBackendPropsShare`
(qemu_command.c:2861-2879). -/
def qemuBuildMemoryBackendPropsShare (props : JObject) (memAccess : MemAccess) :
    JObject :=
  match memAccess with
  | .shared => props ++ [("share", JValue.bool true)]
  | .privateAccess => props ++ [("share", JValue.bool false)]
  | .defaultAccess => props

/-- The hugepage-selection loop of `qemuBuildMemoryBackendProps`
(qemu_command.c:2999-3031): returns the chosen page (the first page whose
nodemask covers the target node, otherwise the mask-less master page) and
whether the loop broke out (which also raises `needHugepage`).  A mask bit
out of range is ignored, as the C comment prescribes. -/
def hugepageFind : List DomainHugePage → Int → Option DomainHugePage →
    (Option DomainHugePage × Bool)
  | [], _, master => (master, false)
  | hp :: rest, targetNode, master =>
      match hp.nodemask with
      | Option.none => hugepageFind rest targetNode (some hp)
      | some mask =>
          if 0 ≤ targetNode && targetNode.toNat < mask.length
              && mask.getD targetNode.toNat false then
            (some hp, true)
          else
            hugepageFind rest targetNode master

/-- The page-size / hugepage resolution step of
`qemuBuildMemoryBackendProps` (qemu_command.c:2995-3051): returns the
resolved page size and the `needHugepage` / `useHugepage` flags. -/
def memBackendResolvePagesize (env : MemEnv) (dmem : DomainMem)
    (mem : MemoryDef) : Except QemuError (Nat × Bool × Bool) := do
  let pagesize := mem.pagesize
  let needHugepage := pagesize != 0
  let useHugepage := pagesize != 0
  let (pagesize, needHugepage, useHugepage) :=
    if pagesize == 0 then
      let (hugepage, broke) := hugepageFind dmem.hugepages mem.targetNode Option.none
      match hugepage with
      | some hp => (hp.size, needHugepage || broke, true)
      | Option.none => (pagesize, needHugepage || broke, useHugepage)
    else (pagesize, needHugepage, useHugepage)
  if pagesize == env.systemPageSize then
    pure (0, false, false)
  else if useHugepage && pagesize == 0 then
    match env.defaultHugepageSize with
    | some p => pure (p, needHugepage, useHugepage)
    | Option.none =>
        throw (.other .internalError "hugetlbfs filesystem is not mounted")
  else
    pure (pagesize, needHugepage, useHugepage)

/-- The backend-type selection step of `qemuBuildMemoryBackendProps`
(qemu_command.c:3053-3125): pick memfd / file / ram and the
backend-specific leading properties; returns the backend type, those
properties, and the updated `prealloc` / `disableCanonicalPath` flags. -/
def memBackendSelect (env : MemEnv) (dmem : DomainMem) (mem : MemoryDef)
    (qemuCaps : QemuCaps) (memAccess : MemAccess) (discard : VirTristateBool)
    (prealloc useHugepage : Bool) (pagesize : Nat) (systemMemory : Bool) :
    Except QemuError (String × JObject × Bool × Bool) := do
  if mem.nvdimmPath == Option.none && dmem.source == MemorySource.memfd then do
    let props : JObject := []
    let (props, prealloc) :=
      if useHugepage then
        (props ++ [("hugetlb", JValue.bool true),
                   ("hugetlbsize", JValue.num ((pagesize <<< 10) % 2 ^ 64))],
         true)
      else (props, prealloc)
    let props := qemuBuildMemoryBackendPropsShare props memAccess
    pure ("memory-backend-memfd", props, prealloc, systemMemory)
  else if useHugepage || mem.nvdimmPath ≠ Option.none
      || memAccess ≠ MemAccess.defaultAccess
      || dmem.source == MemorySource.fileSource then do
    let (memPath, prealloc) ←
      match mem.nvdimmPath with
      | some p =>
          pure (p, prealloc
            || (!mem.nvdimmPmem && mem.model ≠ MemoryModel.virtioPmem))
      | Option.none =>
          if useHugepage then
            match env.hugepageMemPath pagesize with
            | some p => pure (p, true)
            | Option.none =>
                throw (.other .internalError "hugepage path unavailable")
          else
            match env.memoryBackingPath mem.infoAlias with
            | some p => pure (p, prealloc)
            | Option.none =>
                throw (.other .internalError "memory backing path unavailable")
    let props : JObject := [("mem-path", JValue.str memPath)]
    let props ←
      if mem.nvdimmPath == Option.none && discard == VirTristateBool.yes then
        if !qemuCaps.objectMemoryFileDiscard then
          throw (.other .configUnsupported "this QEMU doesn't support memory discard")
        else
          pure (props ++ [("discard-data", JValue.bool true)])
      else
        pure props
    let props := qemuBuildMemoryBackendPropsShare props memAccess
    pure ("memory-backend-file", props, prealloc, systemMemory)
  else
    pure ("memory-backend-ram", ([] : JObject), prealloc, false)

/-- The trailing-property step of `qemuBuildMemoryBackendProps`
(qemu_command.c:3127-3188): canonical-path tuning, `prealloc`, the
byte-valued `size` (KiB × 1024, unsigned-long-long wraparound), `align`,
`pmem`, and the host-nodes / policy pair. -/
def memBackendTailProps (env : MemEnv) (mem : MemoryDef) (qemuCaps : QemuCaps)
    (mode : NumatuneMode) (props : JObject)
    (prealloc disableCanonicalPath : Bool) : Except QemuError JObject := do
  let props :=
    if disableCanonicalPath && qemuCaps.xUseCanonicalPathForRamblockId then
      props ++ [("x-use-canonical-path-for-ramblock-id", JValue.bool false)]
    else props
  let props :=
    if !env.memPrealloc && prealloc then
      props ++ [("prealloc", JValue.bool true)]
    else props
  let props := props ++ [("size", JValue.num ((mem.size * 1024) % 2 ^ 64))]
  let props ←
    if mem.alignsize ≠ 0 then
      if !qemuCaps.objectMemoryFileAlign then
        throw (.other .configUnsupported "nvdimm align property is not available")
      else
        pure (props ++ [("align", JValue.num ((mem.alignsize * 1024) % 2 ^ 64))])
    else
      pure props
  let props ←
    if mem.nvdimmPmem then
      if !qemuCaps.objectMemoryFilePmem then
        throw (.other .configUnsupported "nvdimm pmem property is not available")
      else
        pure (props ++ [("pmem", JValue.bool true)])
    else
      pure props
  let nodemask :=
    match mem.sourceNodes with
    | some ns => some ns
    | Option.none => env.numatuneMaybeNodeset mem.targetNode
  match nodemask with
  | some ns =>
      if mode ≠ NumatuneMode.restrictive then
        if !env.nodesetAvailable ns then
          throw (.other .internalError "NUMA node set is not available")
        else
          pure (props
            ++ [("host-nodes", JValue.arr (ns.map JValue.num)),
                ("policy", JValue.str mode.toStr)])
      else
        pure props
  | Option.none => pure props

/-- Embedded from `qemuBuildMemoryBackendProps` (qemu_command.c:2927-3233):
build the property tree of the memory backend object of one guest NUMA
cell / memory device, composed from the staged helpers above exactly in
source order.  Returns the C function's return code (1 when no backend
object is necessary, 0 otherwise) together with the tree.  All sizes
arrive in KiB; the emitted `size` and `align` fields are in bytes. -/
def qemuBuildMemoryBackendProps (aliasName : String) (env : MemEnv)
    (dmem : DomainMem) (mem : MemoryDef) (qemuCaps : QemuCaps)
    (force systemMemory : Bool) : Except QemuError (Nat × JObject) := do
  let nodeSpecified := env.numatuneNodeSpecified mem.targetNode
  if 0 ≤ mem.targetNode && (env.numaNodeCount : Int) ≤ mem.targetNode then
    throw (.other .configUnsupported "guest NUMA node out of range")
  let memAccess :=
    if 0 ≤ mem.targetNode && mem.access == MemAccess.defaultAccess then
      env.numaNodeMemoryAccessMode mem.targetNode.toNat
    else mem.access
  let discard :=
    if 0 ≤ mem.targetNode && mem.discard == VirTristateBool.absent then
      env.numaNodeDiscard mem.targetNode.toNat
    else mem.discard
  let memAccess :=
    if memAccess == MemAccess.defaultAccess then dmem.access else memAccess
  let discard :=
    if discard == VirTristateBool.absent then dmem.discard else discard
  let prealloc := dmem.allocation == MemAllocation.immediate
  let mode :=
    match env.numatuneModeForNode mem.targetNode with
    | some m => m
    | Option.none =>
        match env.numatuneModeForNode (-1) with
        | some m => m
        | Option.none => NumatuneMode.strict
  let (pagesize, needHugepage, useHugepage) ←
    memBackendResolvePagesize env dmem mem
  let (backendType, props, prealloc, disableCanonicalPath) ←
    memBackendSelect env dmem mem qemuCaps memAccess discard prealloc
      useHugepage pagesize systemMemory
  let props ←
    memBackendTailProps env mem qemuCaps mode props prealloc
      disableCanonicalPath
  let rc ←
    if !needHugepage && mem.sourceNodes == Option.none && !nodeSpecified
        && mem.nvdimmPath == Option.none
        && memAccess == MemAccess.defaultAccess
        && dmem.source ≠ MemorySource.fileSource
        && dmem.source ≠ MemorySource.memfd
        && !force then
      pure 1
    else
      if backendType == "memory-backend-file" && !qemuCaps.objectMemoryFile then
        throw (.other .configUnsupported "this qemu doesn't support the memory-backend-file object")
      else if backendType == "memory-backend-ram" && !qemuCaps.objectMemoryRam then
        throw (.other .configUnsupported "this qemu doesn't support the memory-backend-ram object")
      else if backendType == "memory-backend-memfd" && !qemuCaps.objectMemoryMemfd then
        throw (.other .configUnsupported "this qemu doesn't support the memory-backend-memfd object")
      else
        pure 0
  let props := ("qom-type", JValue.str backendType) :: ("id", JValue.str aliasName) :: props
  pure (rc, props)

end QemuCmd

namespace QemuCmd

/-! ## Video devices -/

/-- Video adapter types (`virDomainVideoType`). -/
inductive VideoType where
  | defaultType
  | vga
  | cirrus
  | vmvga
  | xen
  | vbox
  | qxl
  | parallels
  | virtio
  | gop
  | noneType
  | bochs
  | ramfb
deriving DecidableEq, Repr

/-- Name of a video type (`virDomainVideoTypeToString`), for error text. -/
def VideoType.toStr : VideoType → String
  | .defaultType => "default"
  | .vga => "vga"
  | .cirrus => "cirrus"
  | .vmvga => "vmvga"
  | .xen => "xen"
  | .vbox => "vbox"
  | .qxl => "qxl"
  | .parallels => "parallels"
  | .virtio => "virtio"
  | .gop => "gop"
  | .noneType => "none"
  | .bochs => "bochs"
  | .ramfb => "ramfb"

/-- Video backend kinds (`virDomainVideoBackendType`). -/
inductive VideoBackend where
  | defaultBackend
  | qemuBackend
  | vhostuser
deriving DecidableEq, Repr

/-- Video definition (`virDomainVideoDef`) restricted to the fields the
embedded builders read; sizes (`ram`, `vram`, `vram64`, `vgamem`) in KiB.
`supportsVga` carries the external predicate
`qemuDomainSupportsVideoVga`. -/
structure VideoDef where
  vtype : VideoType
  backend : VideoBackend := .defaultBackend
  accel3d : VirTristateSwitch := .absent
  hasAccel : Bool := false
  primary : Bool := false
  supportsVga : Bool := false
  ram : Nat := 0
  vram : Nat := 0
  vram64 : Nat := 0
  vgamem : Nat := 0
  heads : Nat := 0
  resX : Nat := 0
  resY : Nat := 0
  info : DeviceInfo := {}
  virtioOpts : Option VirtioOptions := Option.none
deriving DecidableEq, Repr

/-- Embedded from `qemuDeviceVideoGetModel` (qemu_command.c:4163-4266):
resolve the `-device` model name of a video adapter, preferring the
VGA-compatible model for the primary device; the second component reports
whether the model takes the virtio naming path. -/
def qemuDeviceVideoGetModel (qemuCaps : QemuCaps) (video : VideoDef) :
    Except QemuError (String × Bool) :=
  let accel3d := if video.hasAccel then video.accel3d else .absent
  let primaryVga := video.primary && video.supportsVga
  let result : Option String × Bool :=
    if video.backend == VideoBackend.vhostuser then
      if primaryVga then (some "vhost-user-vga", false)
      else (some "vhost-user-gpu", true)
    else if primaryVga then
      match video.vtype with
      | .vga => (some "VGA", false)
      | .cirrus => (some "cirrus-vga", false)
      | .vmvga => (some "vmware-svga", false)
      | .qxl => (some "qxl-vga", false)
      | .virtio =>
          if qemuCaps.virtioVgaGl && accel3d == .on then
            (some "virtio-vga-gl", false)
          else (some "virtio-vga", false)
      | .bochs => (some "bochs-display", false)
      | .ramfb => (some "ramfb", false)
      | _ => (Option.none, false)
    else
      match video.vtype with
      | .qxl => (some "qxl", false)
      | .virtio =>
          if qemuCaps.virtioGpuGlPci && accel3d == .on then
            (some "virtio-gpu-gl", true)
          else (some "virtio-gpu", true)
      | _ => (Option.none, false)
  match result with
  | (some m, vir) =>
      if m == "" then
        .error (.other .internalError ("invalid model for video type " ++ video.vtype.toStr))
      else
        .ok (m, vir)
  | (Option.none, _) =>
      .error (.other .internalError ("invalid model for video type " ++ video.vtype.toStr))

/-- Embedded from `qemuBuildDeviceVideoStr` (qemu_command.c:4269-4365):
the `-device` argument of a video adapter.  QXL sizes are converted KiB →
bytes by multiplying by 1024 (with 32-bit unsigned wraparound: the fields
are `unsigned int`), VGA-class `vgamem_mb` values KiB → MiB by dividing by
1024. -/
def qemuBuildDeviceVideoStr (domainDef : DomainDef) (video : VideoDef)
    (qemuCaps : QemuCaps) : Except QemuError String := do
  let accel3d := if video.hasAccel then video.accel3d else VirTristateSwitch.absent
  let (model, vir) ← qemuDeviceVideoGetModel qemuCaps video
  let namePart ←
    if vir then
      qemuBuildVirtioDevStrCore model qemuCaps video.info.addr false false
    else
      pure model
  let idPart := ",id=" ++ video.info.aliasStr
  let virglPart :=
    if video.backend ≠ VideoBackend.vhostuser
        && video.vtype == VideoType.virtio then
      if video.hasAccel && qemuCaps.virtioGpuVirgl
          && (accel3d == .on || accel3d == .off) then
        ",virgl=" ++ accel3d.toStr
      else ""
    else ""
  let sizePart :=
    if video.vtype == VideoType.qxl then
      (if video.ram ≠ 0 then
        ",ram_size=" ++ toString ((video.ram * 1024) % 2 ^ 32)
      else "")
        ++ (if video.vram ≠ 0 then
              ",vram_size=" ++ toString ((video.vram * 1024) % 2 ^ 32)
            else "")
        ++ (if qemuCaps.qxlVram64 then
              ",vram64_size_mb=" ++ toString (video.vram64 / 1024)
            else "")
        ++ (if qemuCaps.qxlVgamem then
              ",vgamem_mb=" ++ toString (video.vgamem / 1024)
            else "")
        ++ (if qemuCaps.qxlMaxOutputs then
              (if video.heads ≠ 0 then ",max_outputs=" ++ toString video.heads
               else "")
            else "")
    else if video.backend == VideoBackend.vhostuser then
      (if video.heads ≠ 0 then ",max_outputs=" ++ toString video.heads else "")
        ++ ",chardev=" ++ qemuDomainGetVhostUserChrAlias video.info.aliasStr
    else if video.vtype == VideoType.virtio then
      if qemuCaps.virtioGpuMaxOutputs then
        (if video.heads ≠ 0 then ",max_outputs=" ++ toString video.heads else "")
      else ""
    else if (video.vtype == VideoType.vga && qemuCaps.vgaVgamem)
        || (video.vtype == VideoType.vmvga && qemuCaps.vmwareSvgaVgamem) then
      (if video.vram ≠ 0 then ",vgamem_mb=" ++ toString (video.vram / 1024)
       else "")
    else if video.vtype == VideoType.bochs then
      (if video.vram ≠ 0 then ",vgamem=" ++ toString video.vram ++ "k" else "")
    else ""
  let resPart :=
    if video.resX ≠ 0 && video.resY ≠ 0 then
      ",xres=" ++ toString video.resX ++ ",yres=" ++ toString video.resY
    else ""
  let addrPart ← qemuBuildDeviceAddressStr domainDef video.info
  pure (namePart ++ idPart ++ virglPart ++ sizePart ++ resPart ++ addrPart
    ++ qemuBuildVirtioOptionsStr video.virtioOpts)

end QemuCmd

namespace QemuCmd

/-! ## The command assembler -/

/-- One assembler step: a builder invocation that threads the command
being accumulated and either extends it or fails (`NULL` return in C,
`Option.none` here). -/
abbrev AssemblyStep := VirCommand → Option VirCommand

/-- The fragment builders `qemuBuildCommandLine` invokes, abstracted as an
oracle record: one field per `qemuBuild*CommandLine` call, in the order of
qemu_command.c:10426-10701.  Infallible interludes (`-S`, `-uuid`,
`-no-user-config`, `-msg timestamp=on`, the compat and TSEG helpers, and
the conditional `-incoming` / `-loadvm` / namespace arguments) extend the
command but cannot fail; they are absorbed into the adjacent steps of this
abstraction. -/
structure CommandBuilders where
  name : AssemblyStep := some
  masterKey : AssemblyStep := some
  dbusVMState : AssemblyStep := some
  managedPR : AssemblyStep := some
  pflash : AssemblyStep := some
  machine : AssemblyStep := some
  cpu : AssemblyStep := some
  mem : AssemblyStep := some
  smp : AssemblyStep := some
  iothreads : AssemblyStep := some
  numa : AssemblyStep := some
  memoryDevices : AssemblyStep := some
  smbios : AssemblyStep := some
  sysinfo : AssemblyStep := some
  vmGenID : AssemblyStep := some
  sga : AssemblyStep := some
  monitor : AssemblyStep := some
  clock : AssemblyStep := some
  pm : AssemblyStep := some
  boot : AssemblyStep := some
  iommu : AssemblyStep := some
  globalControllers : AssemblyStep := some
  controllers : AssemblyStep := some
  hub : AssemblyStep := some
  ccidControllers : AssemblyStep := some
  disks : AssemblyStep := some
  filesystems : AssemblyStep := some
  net : AssemblyStep := some
  smartcards : AssemblyStep := some
  serials : AssemblyStep := some
  parallels : AssemblyStep := some
  channels : AssemblyStep := some
  consoles : AssemblyStep := some
  tpms : AssemblyStep := some
  inputs : AssemblyStep := some
  audio : AssemblyStep := some
  graphics : AssemblyStep := some
  videos : AssemblyStep := some
  sounds : AssemblyStep := some
  watchdog : AssemblyStep := some
  redirdevs : AssemblyStep := some
  hostdevs : AssemblyStep := some
  memballoon : AssemblyStep := some
  rng : AssemblyStep := some
  nvram : AssemblyStep := some
  vmcoreinfo : AssemblyStep := some
  sec : AssemblyStep := some
  seccompSandbox : AssemblyStep := some
  panics : AssemblyStep := some
  shmems : AssemblyStep := some
  vsock : AssemblyStep := some

/-- The builder invocation sequence of `qemuBuildCommandLine`
(qemu_command.c:10480-10698), in source order. -/
def qemuBuildCommandLineSteps (b : CommandBuilders) : List AssemblyStep :=
  [b.name, b.masterKey, b.dbusVMState, b.managedPR, b.pflash, b.machine,
   b.cpu, b.mem, b.smp, b.iothreads, b.numa, b.memoryDevices, b.smbios,
   b.sysinfo, b.vmGenID, b.sga, b.monitor, b.clock, b.pm, b.boot, b.iommu,
   b.globalControllers, b.controllers, b.hub, b.ccidControllers, b.disks,
   b.filesystems, b.net, b.smartcards, b.serials, b.parallels, b.channels,
   b.consoles, b.tpms, b.inputs, b.audio, b.graphics, b.videos, b.sounds,
   b.watchdog, b.redirdevs, b.hostdevs, b.memballoon, b.rng, b.nvram,
   b.vmcoreinfo, b.sec, b.seccompSandbox, b.panics, b.shmems, b.vsock]

/-- Run a sequence of assembler steps, aborting on the first failure
(every `if (qemuBuildXCommandLine(...) < 0) return NULL;` in the C
function). -/
def runAssembly (steps : List AssemblyStep) (cmd : VirCommand) :
    Option VirCommand :=
  steps.foldl (fun acc s => acc.bind s) (some cmd)

/-- Embedded from `qemuBuildCommandLine` (qemu_command.c:10426-10701),
abstracted over the individual builders: invoke every builder in the
mandated order, returning the completed command, or nothing as soon as
any builder fails. -/
def qemuBuildCommandLine (b : CommandBuilders) (cmd : VirCommand) :
    Option VirCommand :=
  runAssembly (qemuBuildCommandLineSteps b) cmd

end QemuCmd

namespace QemuCmd

/-! ## Alias introduction and reference predicates

The spec's alias-before-use invariant quantifies over textual fragments:
a fragment "introduces" an alias when it carries it as its own id key (in
flat `id=` form or as a blockdev `node-name` / structured `id` field), and
"references" an alias via a `=<alias>` style value of a given key. -/

/-- Fragment `frag` introduces alias `a` as its own id. -/
def introducesAlias (frag a : String) : Prop :=
  ((",id=" ++ a).data <:+: frag.data)
  ∨ (("id=" ++ a).data <+: frag.data)
  ∨ (("\"node-name\":\"" ++ a ++ "\"").data <:+: frag.data)
  ∨ (("\"id\":\"" ++ a ++ "\"").data <:+: frag.data)

/-- Fragment `frag` references alias `a` via a `key=<alias>` value: the
alias is a full comma-delimited value of the key, i.e. it contains no comma
and the occurrence runs to the next comma or to the end of the
fragment. -/
def referencesAliasVia (key frag a : String) : Prop :=
  (∀ c ∈ a.data, c ≠ ',')
  ∧ ((("," ++ key ++ "=" ++ a ++ ",").data <:+: frag.data)
     ∨ (("," ++ key ++ "=" ++ a).data <:+ frag.data))

/-- The alias-before-use property of an argument sequence, exactly as the
spec states it: "forall i, alias referenced at position i => exists j < i,
alias defined at position j", for the `bus=` / `drive=` / `chardev=`
reference forms. -/
def aliasBeforeUse (args : List String) : Prop :=
  ∀ i : Fin args.length, ∀ key ∈ ["bus", "drive", "chardev"], ∀ a : String,
    referencesAliasVia key (args.get i) a →
      ∃ j : Fin args.length, j.val < i.val ∧ introducesAlias (args.get j) a

/-- Alias introduction is decidable (infix / prefix checks on char lists). -/
instance (frag a : String) : Decidable (introducesAlias frag a) := by
  unfold introducesAlias; infer_instance

/-- Alias reference is decidable. -/
instance (key frag a : String) : Decidable (referencesAliasVia key frag a) := by
  unfold referencesAliasVia; infer_instance

/-- The storage-source backing chain listed innermost backing file first
(the order the spec mandates for emission). -/
def chainLayersInnermostFirst : StorageSource → List StorageSource
  | .mk t e sh r nf pr si ei hc tk ht tc ta sp ssp fp vp bs =>
      (match bs with
       | some b => chainLayersInnermostFirst b
       | Option.none => [])
        ++ [StorageSource.mk t e sh r nf pr si ei hc tk ht tc ta sp ssp fp vp bs]

/-- The `-object` fragment of one optional backend property tree, as the
spec words it: serialize the tree and pair it with its flag, or nothing
when the tree is absent. -/
def specObjectArgs (qemuCaps : QemuCaps) (o : Option JObject) :
    Except QemuError (List String) :=
  match o with
  | Option.none => .ok []
  | some p => do
      let s ← qemuBuildObjectCommandlineFromJSON p qemuCaps
      .ok ["-object", s]

/-- The `-blockdev` fragment of one optional backend node tree. -/
def specBlockdevArgs (o : Option JObject) : List String :=
  match o with
  | some p => ["-blockdev", jsonToString (.obj p)]
  | Option.none => []

/-- Second definition, written from the spec's words (§4.3): the argument
fragments of one storage attachment in the fixed dependency order
"reservation-manager object → auth-secret object → encryption-secret
object → cookie-secret object → TLS-key-secret object → TLS-credentials
object → the primary backend object(s)". -/
def specStorageAttachOrderArgs (data : BlockStorageSourceAttachData)
    (qemuCaps : QemuCaps) : Except QemuError (List String) := do
  let a1 ← specObjectArgs qemuCaps data.prmgrProps
  let a2 ← specObjectArgs qemuCaps data.authsecretProps
  let a3 ← specObjectArgs qemuCaps data.encryptsecretProps
  let a4 ← specObjectArgs qemuCaps data.httpcookiesecretProps
  let a5 ← specObjectArgs qemuCaps data.tlsKeySecretProps
  let a6 ← specObjectArgs qemuCaps data.tlsProps
  let d :=
    match data.driveCmd with
    | some s => ["-drive", s]
    | Option.none => []
  let c :=
    match data.chardevCmd with
    | some s => ["-chardev", s]
    | Option.none => []
  pure (a1 ++ a2 ++ a3 ++ a4 ++ a5 ++ a6 ++ d ++ c
    ++ specBlockdevArgs data.storageProps
    ++ specBlockdevArgs data.storageSliceProps
    ++ specBlockdevArgs data.formatProps)

/-- Second definition, written from the spec's words (§4.3): the per-layer
bundles of a storage chain, for layers listed in emission order. -/
def specChainBundles (qemuCaps : QemuCaps) :
    List StorageSource → Except QemuError (List BlockStorageSourceAttachData)
  | [] => .ok []
  | l :: rest => do
      let b ← qemuBuildStorageSourceChainAttachPrepareBlockdevOne l qemuCaps
      let bs ← specChainBundles qemuCaps rest
      .ok (b :: bs)

/-! ## Decoders for the two structured-object encodings (claim C8) -/

/-- Scalar key/value content of a flat property tree: the semantic pairs
both encodings must carry. -/
def scalarPairs (props : JObject) : List (String × String) :=
  props.filterMap (fun kv =>
    if kv.2.isScalar then some (kv.1, legacyScalarString kv.2) else Option.none)

/-- Split a character list at every occurrence of a separator. -/
def splitOnChar (sep : Char) : List Char → List (List Char)
  | [] => [[]]
  | c :: rest =>
      match splitOnChar sep rest with
      | [] => [[]]
      | h :: t => if c = sep then [] :: h :: t else (c :: h) :: t

/-- Split a character list at the first `=` (key/value of a flat pair). -/
def splitFirstEq : List Char → (List Char × Option (List Char))
  | [] => ([], Option.none)
  | c :: rest =>
      if c = '=' then ([], some rest)
      else
        let (k, v) := splitFirstEq rest
        (c :: k, v)

/-- Decode the legacy flat encoding back into key/value pairs: the bare
leading token is the `qom-type`, every other comma-separated token is one
`key=value` pair. -/
def legacyDecode (s : String) : List (String × String) :=
  match splitOnChar ',' s.data with
  | [] => []
  | t :: rest =>
      ("qom-type", String.mk t) :: rest.map (fun p =>
        match splitFirstEq p with
        | (k, some v) => (String.mk k, String.mk v)
        | (k, Option.none) => (String.mk k, ""))

/-- Opening and closing braces as characters (written through their code
points). -/
def lbraceChar : Char := Char.ofNat 123

def rbraceChar : Char := Char.ofNat 125

/-- Consume characters up to the next double quote. -/
def takeUntilQuote : List Char → Option (List Char × List Char)
  | [] => Option.none
  | c :: rest =>
      if c = '"' then some ([], rest)
      else
        match takeUntilQuote rest with
        | some (k, r) => some (c :: k, r)
        | Option.none => Option.none

/-- Parse one `"key":value` item of a flat JSON object (string or bare
scalar value, no escapes). -/
def parseJsonItem (item : List Char) : Option (String × String) :=
  match item with
  | '"' :: rest =>
      match takeUntilQuote rest with
      | some (k, ':' :: v) =>
          let vv :=
            match v with
            | '"' :: vr =>
                if vr.getLast? == some '"' then vr.dropLast else vr
            | _ => v
          some (String.mk k, String.mk vv)
      | _ => Option.none
  | _ => Option.none

/-- Decode a flat JSON object text (string / number values, no escapes)
back into key/value pairs. -/
def modernDecodeFlat (s : String) : Option (List (String × String)) :=
  match s.data with
  | [] => Option.none
  | c :: body =>
      if c = lbraceChar && body.getLast? == some rbraceChar then
        let inner := body.dropLast
        if inner = [] then some []
        else
          (splitOnChar ',' inner).foldr
            (fun item acc =>
              match acc with
              | Option.none => Option.none
              | some l =>
                  match parseJsonItem item with
                  | some kv => some (kv :: l)
                  | Option.none => Option.none)
            (some [])
      else Option.none

/-! ## Concrete configurations used by the claim witnesses -/

/-- A local-file storage source whose backend node is named `drive0`, with
minimal blockdev property trees. -/
def exampleSource : StorageSource :=
  .mk StorageType.fileType false false false (some "drive0") Option.none
    Option.none Option.none Option.none Option.none VirTristateBool.absent "" ""
    (some [("driver", JValue.str "file"),
           ("filename", JValue.str "/tmp/disk.qcow2"),
           ("node-name", JValue.str "storage0")])
    Option.none
    (some [("driver", JValue.str "qcow2"),
           ("file", JValue.str "storage0"),
           ("node-name", JValue.str "drive0")])
    Option.none Option.none

/-- The spec's minimal-disk scenario: a virtio-blk disk with no
cache/discard/iothread/throttling settings, PCI slot 5 function 0 on the
controller aliased `pci.0`, device alias `virtio-disk0`, backend alias
`drive0`. -/
def exampleDisk : DiskDef :=
  { bus := DiskBus.virtio
    src := exampleSource
    info := { addr := .pci { bus := 0, slot := 5 },
              aliasName := some "virtio-disk0" } }

/-- A VM definition whose only PCI controller is the implicit pci-root of
index 0, aliased `pci.0`, plus the example disk. -/
def exampleDomain : DomainDef :=
  { controllers := [{ ctype := ControllerType.pci, idx := 0,
                      info := { aliasName := some "pci.0" },
                      pciModel := .pciRoot }]
    disks := [exampleDisk] }

/-- Capability set with the blockdev capability only. -/
def exampleCapsBlockdev : QemuCaps := { blockdev := true }

/-- The argument sequence the synthesis pass emits for the example domain
(two backend `-blockdev` fragments, then the consuming `-device`
fragment). -/
def argsC1 : List String :=
  ["-blockdev",
   "\x7b\"driver\":\"file\",\"filename\":\"/tmp/disk.qcow2\",\"node-name\":\"storage0\"\x7d",
   "-blockdev",
   "\x7b\"driver\":\"qcow2\",\"file\":\"storage0\",\"node-name\":\"drive0\"\x7d",
   "-device",
   "virtio-blk-pci,bus=pci.0,addr=0x5,drive=drive0,id=virtio-disk0"]

/-- A vhost-user storage source exposing its socket path. -/
def exampleVhostSource : StorageSource :=
  .mk StorageType.vhostUser false false false Option.none Option.none
    Option.none Option.none Option.none Option.none VirTristateBool.absent "" ""
    Option.none Option.none Option.none (some "/tmp/vhost-user-blk.sock")
    Option.none

/-- A vhost-user virtio disk on the example PCI controller. -/
def exampleVhostDisk : DiskDef :=
  { bus := DiskBus.virtio
    src := exampleVhostSource
    info := { addr := .pci { bus := 0, slot := 5 },
              aliasName := some "virtio-disk0" } }

/-- A VM definition holding the vhost-user example disk. -/
def exampleVhostDomain : DomainDef :=
  { controllers := [{ ctype := ControllerType.pci, idx := 0,
                      info := { aliasName := some "pci.0" },
                      pciModel := .pciRoot }]
    disks := [exampleVhostDisk] }

/-- The example disk prepared for the legacy `-drive` strategy (its
rendered source locator carried precomputed, comma-terminated). -/
def exampleLegacyDisk : DiskDef :=
  { bus := DiskBus.virtio
    src := exampleSource
    info := { addr := .pci { bus := 0, slot := 5 },
              aliasName := some "virtio-disk0" }
    driveSourceStr := "file=/tmp/disk.qcow2," }

/-- A VM definition holding the legacy example disk. -/
def exampleLegacyDomain : DomainDef :=
  { controllers := [{ ctype := ControllerType.pci, idx := 0,
                      info := { aliasName := some "pci.0" },
                      pciModel := .pciRoot }]
    disks := [exampleLegacyDisk] }

/-- An SD-bus disk (legacy `-drive` only, no consuming device fragment). -/
def exampleSDDisk : DiskDef :=
  { bus := DiskBus.sd
    src := exampleSource
    info := { aliasName := some "sd-disk0" }
    driveSourceStr := "file=/tmp/sd.img," }

/-- Every full comma-delimited value following a `,key=` occurrence in a
fragment — the computable companion of the reference predicate. -/
def valuesOfKey (key frag : String) : List String :=
  frag.data.tails.filterMap (fun t =>
    let p := ("," ++ key ++ "=").data
    if p.isPrefixOf t then
      some (String.mk ((t.drop p.length).takeWhile (fun c => c != ',')))
    else Option.none)

/-- The argument sequence emitted for the vhost-user example domain. -/
def argsVhost : List String :=
  ["-chardev", "socket,id=chr-vu-virtio-disk0,path=/tmp/vhost-user-blk.sock",
   "-device",
   "vhost-user-blk-pci,bus=pci.0,addr=0x5,chardev=chr-vu-virtio-disk0,id=virtio-disk0"]

/-- The argument sequence emitted for the legacy example domain. -/
def argsLegacy : List String :=
  ["-drive", "file=/tmp/disk.qcow2,if=none,id=drive-virtio-disk0",
   "-device",
   "virtio-blk-pci,bus=pci.0,addr=0x5,drive=drive-virtio-disk0,id=virtio-disk0"]

/-- The amended backend half of the alias invariant, as the spec words it:
every fragment referencing an alias via a `drive=` or `chardev=` value is
preceded by a fragment introducing that exact alias as its own id. -/
def backendAliasBeforeUse (args : List String) : Prop :=
  ∀ i : Fin args.length, ∀ key ∈ ["drive", "chardev"], ∀ a : String,
    referencesAliasVia key (args.get i) a →
      ∃ j : Fin args.length, j.val < i.val ∧ introducesAlias (args.get j) a

/-- Executable check of `backendAliasBeforeUse` over the values the
scanner finds. -/
def backendAliasBeforeUseCheck (args : List String) : Bool :=
  (List.range args.length).all fun i =>
    (["drive", "chardev"] : List String).all fun key =>
      (valuesOfKey key (args.getD i "")).all fun a =>
        (List.range i).any fun j =>
          decide (introducesAlias (args.getD j "") a)

/-- Flat memory-backend property tree used to compare the two
structured-object encodings. -/
def exampleBackendProps : JObject :=
  [("qom-type", JValue.str "memory-backend-file"),
   ("id", JValue.str "mem0"),
   ("mem-path", JValue.str "/dev/hugepages/libvirt"),
   ("size", JValue.num 2147483648)]

end QemuCmd

namespace QemuCmd

/-! ## Helper lemmas -/

/-- A pattern placed between two strings is an infix of the
concatenation. -/
theorem infix_data_of_middle (a pat b : String) :
    pat.data <:+: (a ++ pat ++ b).data := by
  refine ⟨a.data, b.data, ?_⟩
  simp [String.data_append]

/-! ## Claim theorems -/

/-- C4: when a device requests the virtio non-transitional model and the
capability set has neither QEMU_CAPS_VIRTIO_PCI_TRANSITIONAL nor
QEMU_CAPS_VIRTIO_PCI_DISABLE_LEGACY, building the device name fails with a
ConfigUnsupported error whose message is "virtio non-transitional model
not supported for this qemu"; a transitional-model request lacking both
capabilities succeeds with the plain suffixed base name (no further
suffix, no error). -/
theorem qemuBuildVirtioDevStr_nontransitional_caps (baseName : String)
    (qemuCaps : QemuCaps) (disk : DiskDef) (a : PCIAddress)
    (haddr : disk.info.addr = .pci a)
    (hT : qemuCaps.virtioPciTransitional = false)
    (hDL : qemuCaps.virtioPciDisableLegacy = false) :
    (disk.model = DiskModel.virtioNonTransitional →
       qemuBuildVirtioDevStrDisk baseName qemuCaps disk
         = .error QemuError.virtioNonTransitionalUnsupported
       ∧ QemuError.code QemuError.virtioNonTransitionalUnsupported
           = VirErrCode.configUnsupported
       ∧ QemuError.message QemuError.virtioNonTransitionalUnsupported
           = "virtio non-transitional model not supported for this qemu")
    ∧ (disk.model = DiskModel.virtioTransitional →
       qemuBuildVirtioDevStrDisk baseName qemuCaps disk
         = .ok (baseName ++ "-pci")) := by
  constructor
  · intro hm
    refine ⟨?_, rfl, rfl⟩
    simp [qemuBuildVirtioDevStrDisk, qemuBuildVirtioDevStrCore, haddr, hm,
      hT, hDL]
  · intro hm
    simp [qemuBuildVirtioDevStrDisk, qemuBuildVirtioDevStrCore, haddr, hm,
      hT, hDL]
    rw [String.append_assoc]
    rfl

/-- Witness for C4 at a concrete disk: the non-transitional request fails
with the named ConfigUnsupported error and the transitional request
yields the plain name. -/
theorem qemuBuildVirtioDevStr_nontransitional_caps_witness :
    (qemuBuildVirtioDevStrDisk "virtio-blk" {}
        { bus := DiskBus.virtio, src := exampleSource,
          model := DiskModel.virtioNonTransitional,
          info := { addr := .pci { slot := 5 } } }
      = .error QemuError.virtioNonTransitionalUnsupported)
    ∧ (qemuBuildVirtioDevStrDisk "virtio-blk" {}
        { bus := DiskBus.virtio, src := exampleSource,
          model := DiskModel.virtioTransitional,
          info := { addr := .pci { slot := 5 } } }
      = .ok "virtio-blk-pci") := by
  refine ⟨?_, ?_⟩
  · exact ((qemuBuildVirtioDevStr_nontransitional_caps "virtio-blk" {}
      { bus := DiskBus.virtio, src := exampleSource,
        model := DiskModel.virtioNonTransitional,
        info := { addr := .pci { slot := 5 } } }
      { slot := 5 } rfl rfl rfl).1 rfl).1
  · exact (qemuBuildVirtioDevStr_nontransitional_caps "virtio-blk" {}
      { bus := DiskBus.virtio, src := exampleSource,
        model := DiskModel.virtioTransitional,
        info := { addr := .pci { slot := 5 } } }
      { slot := 5 } rfl rfl rfl).2 rfl

end QemuCmd

namespace QemuCmd

/-- C5: formatting a PCI device address resolves the owning bus alias by
walking the VM definition's controller list for a PCI controller whose
index equals the address's bus number; when no such controller exists, or
the matching controller has no alias, the builder fails with an
InternalError carrying the missing bus index (no crash, no empty
fragment). -/
theorem qemuBuildDeviceAddressStr_pci_controller_errors
    (dom : DomainDef) (info : DeviceInfo) (a : PCIAddress)
    (haddr : info.addr = .pci a) :
    (dom.controllers.find?
        (fun cont => cont.ctype == ControllerType.pci && cont.idx == a.bus)
        = Option.none →
      qemuBuildDeviceAddressStr dom info
        = .error (.missingPCIController a.bus (virPCIDeviceAddressAsString a))
      ∧ (QemuError.missingPCIController a.bus
          (virPCIDeviceAddressAsString a)).code = VirErrCode.internalError)
    ∧ (∀ cont,
        dom.controllers.find?
          (fun cont => cont.ctype == ControllerType.pci && cont.idx == a.bus)
          = some cont →
        cont.info.aliasName = Option.none →
        qemuBuildDeviceAddressStr dom info
          = .error (.pciControllerNoAlias a.bus (virPCIDeviceAddressAsString a))
        ∧ (QemuError.pciControllerNoAlias a.bus
            (virPCIDeviceAddressAsString a)).code = VirErrCode.internalError) := by
  constructor
  · intro hfind
    refine ⟨?_, rfl⟩
    simp [qemuBuildDeviceAddressStr, haddr, hfind]
  · intro cont hfind halias
    refine ⟨?_, rfl⟩
    simp [qemuBuildDeviceAddressStr, haddr, hfind, halias]

/-- Witness for C5: a PCI device addressed to bus index 3 in a definition
with no PCI controller of index 3 yields the InternalError naming index 3;
with an alias-less controller of index 3 it yields the alias error. -/
theorem qemuBuildDeviceAddressStr_pci_controller_errors_witness :
    (qemuBuildDeviceAddressStr {} { addr := .pci { bus := 3, slot := 1 } }
      = .error (.missingPCIController 3
          (virPCIDeviceAddressAsString { bus := 3, slot := 1 })))
    ∧ (qemuBuildDeviceAddressStr
        { controllers := [{ ctype := ControllerType.pci, idx := 3 }] }
        { addr := .pci { bus := 3, slot := 1 } }
      = .error (.pciControllerNoAlias 3
          (virPCIDeviceAddressAsString { bus := 3, slot := 1 }))) := by
  refine ⟨?_, ?_⟩
  · exact ((qemuBuildDeviceAddressStr_pci_controller_errors {}
      { addr := .pci { bus := 3, slot := 1 } } { bus := 3, slot := 1 }
      rfl).1 rfl).1
  · exact ((qemuBuildDeviceAddressStr_pci_controller_errors
      { controllers := [{ ctype := ControllerType.pci, idx := 3 }] }
      { addr := .pci { bus := 3, slot := 1 } } { bus := 3, slot := 1 }
      rfl).2 { ctype := ControllerType.pci, idx := 3 } rfl rfl).1

end QemuCmd

namespace QemuCmd

/-- C6: the minimal virtio-blk disk scenario — PCI slot 5 function 0 on
the controller aliased `pci.0`, device alias `virtio-disk0`, backend alias
`drive0`, no cache/discard/iothread/throttling settings — yields a device
fragment beginning `virtio-blk-pci,bus=pci.0,addr=0x5` (no `.0x<function>`
suffix since the function is 0) and containing
`,drive=drive0,id=virtio-disk0`, with no throttling or cache keys. -/
theorem qemuBuildDiskDeviceStr_minimal_virtio_disk :
    ∃ s, qemuBuildDiskDeviceStr exampleDomain exampleDisk exampleCapsBlockdev
        = .ok s
      ∧ ("virtio-blk-pci,bus=pci.0,addr=0x5").data <+: s.data
      ∧ (",drive=drive0,id=virtio-disk0").data <:+: s.data
      ∧ ¬ ((",write-cache=").data <:+: s.data)
      ∧ ¬ ((",throttling.").data <:+: s.data)
      ∧ ¬ ((",cache=").data <:+: s.data)
      ∧ ¬ ((".0x").data <:+: s.data) := by
  refine ⟨"virtio-blk-pci,bus=pci.0,addr=0x5,drive=drive0,id=virtio-disk0",
    ?_, ?_, ?_, ?_, ?_, ?_, ?_⟩
  · rfl
  all_goals decide

end QemuCmd

namespace QemuCmd

/-- C9: the structured-object emitter fails with an InternalError — in
modern and legacy mode alike — whenever the property tree lacks its
type-identifying `qom-type` key or its `id` key (it never infers a missing
type), and it produces text exactly when both keys are present. -/
theorem qemuBuildObjectCommandlineFromJSON_requires_type_and_id
    (props : JObject) (qemuCaps : QemuCaps) :
    ((jobjectGetString props "qom-type" = Option.none
        ∨ jobjectGetString props "id" = Option.none) →
      qemuBuildObjectCommandlineFromJSON props qemuCaps
        = .error (.missingQomTypeOrAlias (jobjectGetString props "qom-type")
            (jobjectGetString props "id"))
      ∧ (QemuError.missingQomTypeOrAlias (jobjectGetString props "qom-type")
          (jobjectGetString props "id")).code = VirErrCode.internalError)
    ∧ (∀ t i, jobjectGetString props "qom-type" = some t →
        jobjectGetString props "id" = some i →
        ∃ s, qemuBuildObjectCommandlineFromJSON props qemuCaps = .ok s) := by
  constructor
  · intro h
    refine ⟨?_, rfl⟩
    cases ht : jobjectGetString props "qom-type" with
    | none =>
        cases hi : jobjectGetString props "id" <;>
          simp [qemuBuildObjectCommandlineFromJSON, ht, hi]
    | some t =>
        cases hi : jobjectGetString props "id" with
        | none => simp [qemuBuildObjectCommandlineFromJSON, ht, hi]
        | some i => simp_all
  · intro t i ht hi
    by_cases hq : qemuCaps.objectQapified <;>
      simp [qemuBuildObjectCommandlineFromJSON, ht, hi, hq]

/-- Witness for C9: a tree missing the id key fails with the internal
error; the example backend tree (both keys present) serializes in both
modes. -/
theorem qemuBuildObjectCommandlineFromJSON_requires_type_and_id_witness :
    (qemuBuildObjectCommandlineFromJSON [("qom-type", JValue.str "secret")] {}
      = .error (.missingQomTypeOrAlias (some "secret") Option.none))
    ∧ (∃ s, qemuBuildObjectCommandlineFromJSON exampleBackendProps {} = .ok s) := by
  refine ⟨?_, ?_⟩
  · exact ((qemuBuildObjectCommandlineFromJSON_requires_type_and_id
      [("qom-type", JValue.str "secret")] {}).1 (Or.inr rfl)).1
  · exact (qemuBuildObjectCommandlineFromJSON_requires_type_and_id
      exampleBackendProps {}).2 "memory-backend-file" "mem0" rfl rfl

/-- C8: the structured-object emitter produces two different textual
encodings of the same property tree depending on the one structured-object
capability flag — with it present the tree is serialized directly
preserving key order, with it absent the tree's type is a bare leading
token followed by the remaining keys as comma-joined `key=value` pairs —
and on the memory-backend example the two encodings decode to the same
key/value pairs, the legacy form reading
`memory-backend-file,id=mem0,...` with the qom-type/id keys first. -/
theorem qemuBuildObjectCommandlineFromJSON_modern_legacy_equivalence :
    (∀ props qemuCaps t i, qemuCaps.objectQapified = true →
       jobjectGetString props "qom-type" = some t →
       jobjectGetString props "id" = some i →
       qemuBuildObjectCommandlineFromJSON props qemuCaps
         = .ok (jsonToString (.obj props)))
    ∧ (∀ props qemuCaps t i, qemuCaps.objectQapified = false →
       jobjectGetString props "qom-type" = some t →
       jobjectGetString props "id" = some i →
       qemuBuildObjectCommandlineFromJSON props qemuCaps
         = .ok (t ++ ","
             ++ legacyPairsToString (legacyCommandLinePairs props "qom-type")))
    ∧ (∃ m l,
        qemuBuildObjectCommandlineFromJSON exampleBackendProps
          { objectQapified := true } = .ok m
        ∧ qemuBuildObjectCommandlineFromJSON exampleBackendProps {} = .ok l
        ∧ m ≠ l
        ∧ modernDecodeFlat m = some (scalarPairs exampleBackendProps)
        ∧ legacyDecode l = scalarPairs exampleBackendProps
        ∧ ("memory-backend-file,id=mem0").data <+: l.data) := by
  refine ⟨?_, ?_, ?_⟩
  · intro props qemuCaps t i hq ht hi
    simp [qemuBuildObjectCommandlineFromJSON, ht, hi, hq]
  · intro props qemuCaps t i hq ht hi
    simp [qemuBuildObjectCommandlineFromJSON, ht, hi, hq]
  · refine ⟨_, _, rfl, rfl, ?_, ?_, ?_⟩ <;> decide

/-- Witness for C8 (the general parts carry hypotheses): both modes on the
example backend tree, with the two concrete encodings. -/
theorem qemuBuildObjectCommandlineFromJSON_modern_legacy_equivalence_witness :
    qemuBuildObjectCommandlineFromJSON exampleBackendProps
        { objectQapified := true }
      = .ok (jsonToString (.obj exampleBackendProps))
    ∧ qemuBuildObjectCommandlineFromJSON exampleBackendProps {}
      = .ok ("memory-backend-file" ++ ","
          ++ legacyPairsToString
              (legacyCommandLinePairs exampleBackendProps "qom-type")) := by
  refine ⟨?_, ?_⟩
  · exact qemuBuildObjectCommandlineFromJSON_modern_legacy_equivalence.1
      exampleBackendProps { objectQapified := true } "memory-backend-file"
      "mem0" rfl rfl rfl
  · exact (qemuBuildObjectCommandlineFromJSON_modern_legacy_equivalence.2).1
      exampleBackendProps {} "memory-backend-file" "mem0" rfl rfl rfl

end QemuCmd


namespace QemuCmd

/-- Helper: the `pvpanic,ioport=N` argument is never itself the `-device`
flag, so each emitted pair contributes exactly one `-device` token. -/
theorem pvpanic_ioport_ne_device (t : String) :
    ("pvpanic,ioport=" ++ t) ≠ "-device" := by
  intro he
  have hl := congrArg String.length he
  rw [String.length_append] at hl
  have h15 : ("pvpanic,ioport=").length = 15 := rfl
  have h7 : ("-device").length = 7 := rfl
  rw [h15, h7] at hl
  omega

/-- Helper: counting lemma for the panic-device emission fold. -/
theorem panicFold_counts (panics : List PanicDef) (cmd : VirCommand)
    (h : ∀ p ∈ panics, p.model = PanicModel.isa →
        (∃ io irq, p.info.addr = DeviceAddress.isa io irq)
        ∨ p.info.addr = DeviceAddress.none) :
    ((panics.foldl
        (fun cmd p =>
          match p.model with
          | .isa =>
              (match p.info.addr with
               | .isa iobase _ =>
                   cmd.addArgList ["-device", "pvpanic,ioport=" ++ toString iobase]
               | .none => cmd.addArgList ["-device", "pvpanic"]
               | _ => cmd)
          | _ => cmd)
        cmd).args.count "-device"
      = cmd.args.count "-device"
        + panics.countP (fun p => p.model == PanicModel.isa))
    ∧ ((panics.foldl
        (fun cmd p =>
          match p.model with
          | .isa =>
              (match p.info.addr with
               | .isa iobase _ =>
                   cmd.addArgList ["-device", "pvpanic,ioport=" ++ toString iobase]
               | .none => cmd.addArgList ["-device", "pvpanic"]
               | _ => cmd)
          | _ => cmd)
        cmd).args.length
      = cmd.args.length
        + 2 * panics.countP (fun p => p.model == PanicModel.isa)) := by
  induction panics generalizing cmd with
  | nil => simp
  | cons p rest ih =>
      have hp := h p (by simp)
      have hrest : ∀ q ∈ rest, q.model = PanicModel.isa →
          (∃ io irq, q.info.addr = DeviceAddress.isa io irq)
          ∨ q.info.addr = DeviceAddress.none := by
        intro q hq
        exact h q (by simp [hq])
      rw [List.foldl_cons]
      cases hm : p.model with
      | isa =>
          rcases hp hm with ⟨io, irq, haddr⟩ | haddr
          · have ihx := ih (cmd.addArgList
              ["-device", "pvpanic,ioport=" ++ toString io]) hrest
            simp only [hm, haddr]
            rw [ihx.1, ihx.2]
            constructor
            · simp [VirCommand.addArgList, List.count_append,
                List.countP_cons, List.count_cons, hm,
                pvpanic_ioport_ne_device (toString io)]
              omega
            · simp [VirCommand.addArgList, List.countP_cons, hm]
              omega
          · have ihx := ih (cmd.addArgList ["-device", "pvpanic"]) hrest
            simp only [hm, haddr]
            rw [ihx.1, ihx.2]
            constructor
            · simp [VirCommand.addArgList, List.count_append,
                List.countP_cons, List.count_cons, hm]
              omega
            · simp [VirCommand.addArgList, List.countP_cons, hm]
              omega
      | defaultModel =>
          have ihx := ih cmd hrest
          simp only [hm]
          rw [ihx.1, ihx.2]
          constructor <;> simp [List.countP_cons, hm]
      | pseries =>
          have ihx := ih cmd hrest
          simp only [hm]
          rw [ihx.1, ihx.2]
          constructor <;> simp [List.countP_cons, hm]
      | hyperv =>
          have ihx := ih cmd hrest
          simp only [hm]
          rw [ihx.1, ihx.2]
          constructor <;> simp [List.countP_cons, hm]
      | s390 =>
          have ihx := ih cmd hrest
          simp only [hm]
          rw [ihx.1, ihx.2]
          constructor <;> simp [List.countP_cons, hm]

/-- C10: the panic-device builder always succeeds and emits exactly one
`-device` argument pair per ISA-model panic device (`pvpanic,ioport=N`
for an ISA address, plain `pvpanic` for no address) and nothing for any
other model: the missing `break` after the inner address switch falls
through only into empty arms, so no argument is emitted twice. -/
theorem qemuBuildPanicCommandLine_one_pair_per_isa (cmd : VirCommand)
    (dom : DomainDef) :
    (∃ cmd', qemuBuildPanicCommandLine cmd dom = .ok cmd')
    ∧ ((∀ p ∈ dom.panics, p.model = PanicModel.isa →
          (∃ io irq, p.info.addr = DeviceAddress.isa io irq)
          ∨ p.info.addr = DeviceAddress.none) →
        ∃ cmd', qemuBuildPanicCommandLine cmd dom = .ok cmd'
          ∧ cmd'.args.count "-device"
              = cmd.args.count "-device"
                + dom.panics.countP (fun p => p.model == PanicModel.isa)
          ∧ cmd'.args.length
              = cmd.args.length
                + 2 * dom.panics.countP (fun p => p.model == PanicModel.isa)) := by
  constructor
  · exact ⟨_, rfl⟩
  · intro h
    exact ⟨_, rfl, (panicFold_counts dom.panics cmd h).1,
      (panicFold_counts dom.panics cmd h).2⟩

/-- Witness for C10: two ISA-model panic devices (one ISA-addressed, one
address-less) and one s390-model device yield exactly two `-device`
pairs. -/
theorem qemuBuildPanicCommandLine_one_pair_per_isa_witness :
    ∃ cmd', qemuBuildPanicCommandLine {}
        { panics := [{ model := PanicModel.isa,
                       info := { addr := DeviceAddress.isa 1285 0 } },
                     { model := PanicModel.isa },
                     { model := PanicModel.s390,
                       info := { addr := DeviceAddress.isa 7 0 } }] }
      = .ok cmd'
      ∧ cmd'.args.count "-device" = 2
      ∧ cmd'.args.length = 4 := by
  obtain ⟨cmd', hok, hc, hl⟩ :=
    (qemuBuildPanicCommandLine_one_pair_per_isa {}
      { panics := [{ model := PanicModel.isa,
                     info := { addr := DeviceAddress.isa 1285 0 } },
                   { model := PanicModel.isa },
                   { model := PanicModel.s390,
                     info := { addr := DeviceAddress.isa 7 0 } }] }).2
      (by
        intro p hp hm
        fin_cases hp
        · exact Or.inl ⟨1285, 0, rfl⟩
        · exact Or.inr rfl
        · exact absurd hm (by decide))
  refine ⟨cmd', hok, ?_, ?_⟩
  · rw [hc]
    rfl
  · rw [hl]
    rfl

end QemuCmd

namespace QemuCmd

/-- Helper: a property-tree stage of the memory backend builder never
emits a `size` key of its own. -/
theorem memBackendSelect_no_size (env : MemEnv) (dmem : DomainMem)
    (mem : MemoryDef) (qemuCaps : QemuCaps) (memAccess : MemAccess)
    (discard : VirTristateBool) (prealloc useHugepage : Bool) (pagesize : Nat)
    (systemMemory : Bool) (bt : String) (props : JObject) (p d : Bool)
    (h : memBackendSelect env dmem mem qemuCaps memAccess discard prealloc
        useHugepage pagesize systemMemory = .ok (bt, props, p, d)) :
    props.find? (fun kv => kv.1 == "size") = Option.none := by
  unfold memBackendSelect at h
  simp only [bind, Except.bind, pure, Except.pure,
    qemuBuildMemoryBackendPropsShare] at h
  repeat' split at h
  all_goals cases h
  all_goals rfl

set_option maxHeartbeats 1600000 in
/-- Helper: the trailing-property stage appends the byte-valued `size`
field after keys that are never `size`, so the first `size` entry of its
output carries KiB × 1024. -/
theorem memBackendTailProps_size (env : MemEnv) (mem : MemoryDef)
    (qemuCaps : QemuCaps) (mode : NumatuneMode) (props : JObject)
    (prealloc dcp : Bool) (props' : JObject)
    (h : memBackendTailProps env mem qemuCaps mode props prealloc dcp
        = .ok props')
    (hn : props.find? (fun kv => kv.1 == "size") = Option.none) :
    props'.find? (fun kv => kv.1 == "size")
      = some ("size", JValue.num ((mem.size * 1024) % 2 ^ 64)) := by
  have e1 : List.find? (fun kv => kv.1 == "size")
      [(("x-use-canonical-path-for-ramblock-id" : String), JValue.bool false)]
      = Option.none := rfl
  have e2 : List.find? (fun kv => kv.1 == "size")
      [(("prealloc" : String), JValue.bool true)] = Option.none := rfl
  have e3 : ∀ v : JValue, List.find? (fun kv => kv.1 == "size")
      [(("size" : String), v)] = some ("size", v) := fun _ => rfl
  unfold memBackendTailProps at h
  simp only [bind, Except.bind, pure, Except.pure] at h
  repeat' split at h
  all_goals cases h
  all_goals simp [List.find?_append, hn, e1, e2, e3]

set_option maxHeartbeats 1600000 in
/-- Helper: the memory backend property tree always carries
`size = mem.size × 1024 (mod 2^64)`. -/
theorem qemuBuildMemoryBackendProps_size_field (aliasName : String)
    (env : MemEnv) (dmem : DomainMem) (mem : MemoryDef) (qemuCaps : QemuCaps)
    (force systemMemory : Bool) (rc : Nat) (props : JObject)
    (h : qemuBuildMemoryBackendProps aliasName env dmem mem qemuCaps
        force systemMemory = .ok (rc, props)) :
    props.find? (fun kv => kv.1 == "size")
      = some ("size", JValue.num ((mem.size * 1024) % 2 ^ 64)) := by
  have k1 : (("qom-type" : String) == "size") = false := rfl
  have k2 : (("id" : String) == "size") = false := rfl
  unfold qemuBuildMemoryBackendProps at h
  simp only [bind, Except.bind, pure, Except.pure] at h
  split at h
  · cases h
  · split at h
    · cases h
    · rename_i trip heq1
      obtain ⟨pagesize, needH, useH⟩ := trip
      split at h
      · cases h
      · rename_i quad heq2
        obtain ⟨bt, sprops, pre, dcp⟩ := quad
        split at h
        · cases h
        · rename_i tl heq3
          have hsel := memBackendSelect_no_size env dmem mem qemuCaps _ _ _ _ _
            systemMemory _ _ _ _ heq2
          have htl := memBackendTailProps_size env mem qemuCaps _ _ _ _ _
            heq3 hsel
          repeat' split at h
          all_goals cases h
          all_goals simp [List.find?, k1, k2, htl]

/-- Helper: a component placed fourth in a seven-part concatenation is an
infix of the result. -/
theorem infix_data_pos4 (x1 x2 x3 p x5 x6 x7 : String) :
    p.data <:+: (x1 ++ x2 ++ x3 ++ p ++ x5 ++ x6 ++ x7).data := by
  refine ⟨(x1 ++ x2 ++ x3).data, (x5 ++ x6 ++ x7).data, ?_⟩
  simp [String.data_append]

set_option maxHeartbeats 1600000 in
/-- Helper: a VGA-type video device with the vgamem capability carries
`vgamem_mb = vram / 1024` in its device fragment. -/
theorem qemuBuildDeviceVideoStr_vga_vgamem (dom : DomainDef)
    (video : VideoDef) (qemuCaps : QemuCaps) (s : String)
    (htype : video.vtype = VideoType.vga)
    (hcap : qemuCaps.vgaVgamem = true)
    (hvram : video.vram ≠ 0)
    (hb : video.backend ≠ VideoBackend.vhostuser)
    (h : qemuBuildDeviceVideoStr dom video qemuCaps = .ok s) :
    (",vgamem_mb=" ++ toString (video.vram / 1024)).data <:+: s.data := by
  have d1 : (VideoType.vga == VideoType.qxl) = false := rfl
  have d2 : (VideoType.vga == VideoType.virtio) = false := rfl
  have d3 : (VideoType.vga == VideoType.vga) = true := rfl
  have dvh : (video.backend == VideoBackend.vhostuser) = false := by
    simp [hb]
  have bft : ((false : Bool) = true) = False := by simp
  have btt : ((true : Bool) = true) = True := by simp
  have hv : (if video.vram ≠ 0 then
      (",vgamem_mb=" ++ toString (video.vram / 1024)) else "")
      = ",vgamem_mb=" ++ toString (video.vram / 1024) := if_pos hvram
  unfold qemuBuildDeviceVideoStr at h
  simp only [bind, Except.bind, pure, Except.pure, htype, hcap, d1, d2, d3,
    dvh, bft, btt, Bool.true_and, Bool.false_and, Bool.and_false,
    Bool.true_or, Bool.false_or, Bool.and_true, if_true, if_false, hv] at h
  repeat' split at h
  all_goals try (cases h)
  all_goals apply infix_data_pos4

/-- C7: unit conversions are exact — the byte-valued `size` field of a
memory backend object is the KiB input multiplied by exactly 1024 (for
inputs below the unsigned-long-long wraparound), and the MiB-valued
`vgamem_mb` field of a VGA video device is the KiB `vram` value divided by
exactly 1024. -/
theorem unitConversions_exact :
    (∀ (aliasName : String) (env : MemEnv) (dmem : DomainMem)
       (mem : MemoryDef) (qemuCaps : QemuCaps) (force systemMemory : Bool)
       (rc : Nat) (props : JObject),
       qemuBuildMemoryBackendProps aliasName env dmem mem qemuCaps force
           systemMemory = .ok (rc, props) →
       mem.size * 1024 < 2 ^ 64 →
       props.find? (fun kv => kv.1 == "size")
         = some ("size", JValue.num (mem.size * 1024)))
    ∧ (∀ (dom : DomainDef) (video : VideoDef) (qemuCaps : QemuCaps)
         (s : String),
       video.vtype = VideoType.vga → qemuCaps.vgaVgamem = true →
       video.vram ≠ 0 → video.backend ≠ VideoBackend.vhostuser →
       qemuBuildDeviceVideoStr dom video qemuCaps = .ok s →
       (",vgamem_mb=" ++ toString (video.vram / 1024)).data <:+: s.data) := by
  constructor
  · intro aliasName env dmem mem qemuCaps force systemMemory rc props h hlt
    have hsz := qemuBuildMemoryBackendProps_size_field aliasName env dmem mem
      qemuCaps force systemMemory rc props h
    rwa [Nat.mod_eq_of_lt hlt] at hsz
  · intro dom video qemuCaps s h1 h2 h3 h4 h5
    exact qemuBuildDeviceVideoStr_vga_vgamem dom video qemuCaps s h1 h2 h3 h4 h5

/-- Witness for C7: 2097152 KiB yields a `size` of exactly 2147483648
bytes, and a 65536 KiB vram yields `vgamem_mb=64`. -/
theorem unitConversions_exact_witness :
    ((qemuBuildMemoryBackendProps "mem0" {} {} { size := 2097152 } {} false
        false).toOption.map
      (fun r => r.2.find? (fun kv => kv.1 == "size"))
      = some (some ("size", JValue.num 2147483648)))
    ∧ ((qemuBuildDeviceVideoStr {}
        { vtype := VideoType.vga, vram := 65536, primary := true,
          supportsVga := true,
          info := { aliasName := some "video0" } }
        { vgaVgamem := true }).toOption.map
      (fun s => decide ((",vgamem_mb=64").data <:+: s.data)) = some true) := by
  constructor
  · have h := unitConversions_exact.1 "mem0" {} {} { size := 2097152 } {}
      false false 1
      [("qom-type", JValue.str "memory-backend-ram"),
       ("id", JValue.str "mem0"),
       ("size", JValue.num 2147483648)] rfl (by norm_num)
    simp only [Except.toOption]
    rw [show (qemuBuildMemoryBackendProps "mem0" {} {} { size := 2097152 } {}
        false false)
      = .ok (1, [("qom-type", JValue.str "memory-backend-ram"),
                 ("id", JValue.str "mem0"),
                 ("size", JValue.num 2147483648)]) from rfl]
    simp only [Option.map]
    rw [h]
    rfl
  · have h := unitConversions_exact.2 {}
      { vtype := VideoType.vga, vram := 65536, primary := true,
        supportsVga := true,
        info := { aliasName := some "video0" } }
      { vgaVgamem := true } "VGA,id=video0,vgamem_mb=64" rfl rfl
      (by norm_num) (by decide) rfl
    rw [show (qemuBuildDeviceVideoStr {}
        { vtype := VideoType.vga, vram := 65536, primary := true,
          supportsVga := true,
          info := { aliasName := some "video0" } }
        { vgaVgamem := true }) = .ok "VGA,id=video0,vgamem_mb=64" from rfl]
    simp only [Except.toOption, Option.map]
    exact congrArg some (decide_eq_true h)

end QemuCmd

namespace QemuCmd

/-- Helper: once the accumulator is failed, no later step revives it. -/
theorem runAssembly_from_none (ys : List AssemblyStep) :
    ys.foldl (fun acc s => acc.bind s) Option.none = Option.none := by
  induction ys with
  | nil => rfl
  | cons y ys ih => simpa using ih

/-- Helper: splitting an assembly run at a list decomposition. -/
theorem runAssembly_append (xs ys : List AssemblyStep) (c : VirCommand) :
    runAssembly (xs ++ ys) c
      = match runAssembly xs c with
        | some cx => runAssembly ys cx
        | Option.none => Option.none := by
  unfold runAssembly
  rw [List.foldl_append]
  cases hx : List.foldl (fun acc s => acc.bind s) (some c) xs with
  | none => exact runAssembly_from_none ys
  | some cx => rfl

/-- C3: command assembly is all-or-nothing — if any fragment builder
invoked during the pass fails, the whole pass returns no command at all;
and whenever a command is returned, every builder in the sequence was
invoked and succeeded, so the caller receives either a complete argument
sequence or a single error, never a partial sequence. -/
theorem qemuBuildCommandLine_all_or_nothing (b : CommandBuilders)
    (init : VirCommand) :
    (∀ pre f post, qemuBuildCommandLineSteps b = pre ++ f :: post →
       ∀ c, runAssembly pre init = some c → f c = Option.none →
       qemuBuildCommandLine b init = Option.none)
    ∧ (∀ out, qemuBuildCommandLine b init = some out →
       ∀ pre f post, qemuBuildCommandLineSteps b = pre ++ f :: post →
       ∃ c cnext, runAssembly pre init = some c ∧ f c = some cnext) := by
  constructor
  · intro pre f post hsteps c hpre hf
    unfold qemuBuildCommandLine
    rw [hsteps, runAssembly_append, hpre]
    show runAssembly (f :: post) c = Option.none
    unfold runAssembly
    rw [List.foldl_cons]
    show List.foldl (fun acc s => acc.bind s) ((some c).bind f) post
      = Option.none
    rw [Option.some_bind, hf]
    exact runAssembly_from_none post
  · intro out hout pre f post hsteps
    unfold qemuBuildCommandLine at hout
    rw [hsteps, runAssembly_append] at hout
    cases hpre : runAssembly pre init with
    | none =>
        rw [hpre] at hout
        have hout' : (Option.none : Option VirCommand) = some out := hout
        cases hout'
    | some c =>
        rw [hpre] at hout
        have hout' : List.foldl (fun acc s => acc.bind s) ((some c).bind f)
            post = some out := hout
        cases hfc : f c with
        | none =>
            rw [Option.some_bind, hfc, runAssembly_from_none post] at hout'
            cases hout'
        | some cnext => exact ⟨c, cnext, rfl, hfc⟩

/-- Witness for C3: a failing first builder yields no command; with every
builder succeeding the first step is invoked and succeeds. -/
theorem qemuBuildCommandLine_all_or_nothing_witness :
    (qemuBuildCommandLine { name := fun _ => Option.none } {} = Option.none)
    ∧ (∃ c cnext, runAssembly [] {} = some c
        ∧ ({} : CommandBuilders).name c = some cnext) := by
  constructor
  · exact (qemuBuildCommandLine_all_or_nothing
      { name := fun _ => Option.none } {}).1
      [] (fun _ => Option.none)
      (qemuBuildCommandLineSteps { name := fun _ => Option.none }).tail
      rfl {} rfl rfl
  · exact (qemuBuildCommandLine_all_or_nothing {} {}).2 {} rfl
      [] ({} : CommandBuilders).name
      (qemuBuildCommandLineSteps {}).tail rfl

/-- Destructuring lemma for a successful Except bind. -/
theorem except_bind_ok {α β : Type} {e : Except QemuError α}
    {f : α → Except QemuError β} {v : β}
    (h : e.bind f = .ok v) : ∃ a, e = .ok a ∧ f a = .ok v := by
  cases e with
  | error err => simp [Except.bind] at h
  | ok a => exact ⟨a, rfl, h⟩

/-- Appending two argument lists to a command is appending their concatenation. -/
theorem addArgList_append (cmd : VirCommand) (x y : List String) :
    (cmd.addArgList x).addArgList y = cmd.addArgList (x ++ y) := by
  simp [VirCommand.addArgList]

/-- A successful qemuBuildObjectCommandline call appends exactly the
specObjectArgs fragment for the given optional property object. -/
theorem objectCommandline_extends (cmd : VirCommand) (o : Option JObject)
    (qemuCaps : QemuCaps) (cmd2 : VirCommand)
    (h : qemuBuildObjectCommandline cmd o qemuCaps = .ok cmd2) :
    ∃ a, specObjectArgs qemuCaps o = .ok a ∧ cmd2.args = cmd.args ++ a := by
  cases o with
  | none =>
      simp [qemuBuildObjectCommandline] at h
      exact ⟨[], rfl, by simp [← h]⟩
  | some p =>
      simp only [qemuBuildObjectCommandline, bind, Except.bind] at h
      cases hj : qemuBuildObjectCommandlineFromJSON p qemuCaps with
      | error e => rw [hj] at h; cases h
      | ok s =>
          rw [hj] at h
          cases h
          exact ⟨["-object", s], by simp [specObjectArgs, hj, bind, Except.bind],
            by simp [VirCommand.addArgList]⟩

/-- The per-layer emission realizes the fixed dependency order of
specStorageAttachOrderArgs: reservation manager, auth secret, encryption
secret, cookie secret, TLS key secret, TLS credentials, then the primary
backend arguments. -/
theorem attachData_realizes_spec_order (cmd : VirCommand)
    (data : BlockStorageSourceAttachData) (qemuCaps : QemuCaps)
    (cmd2 : VirCommand)
    (h : qemuBuildBlockStorageSourceAttachDataCommandline cmd data qemuCaps
        = .ok cmd2) :
    ∃ args, specStorageAttachOrderArgs data qemuCaps = .ok args
      ∧ cmd2.args = cmd.args ++ args := by
  unfold qemuBuildBlockStorageSourceAttachDataCommandline at h
  simp only [bind, Except.bind] at h
  obtain ⟨c1, h1, h⟩ := except_bind_ok h
  obtain ⟨c2, h2, h⟩ := except_bind_ok h
  obtain ⟨c3, h3, h⟩ := except_bind_ok h
  obtain ⟨c4, h4, h⟩ := except_bind_ok h
  obtain ⟨c5, h5, h⟩ := except_bind_ok h
  obtain ⟨c6, h6, h⟩ := except_bind_ok h
  obtain ⟨a1, hs1, he1⟩ := objectCommandline_extends _ _ _ _ h1
  obtain ⟨a2, hs2, he2⟩ := objectCommandline_extends _ _ _ _ h2
  obtain ⟨a3, hs3, he3⟩ := objectCommandline_extends _ _ _ _ h3
  obtain ⟨a4, hs4, he4⟩ := objectCommandline_extends _ _ _ _ h4
  obtain ⟨a5, hs5, he5⟩ := objectCommandline_extends _ _ _ _ h5
  obtain ⟨a6, hs6, he6⟩ := objectCommandline_extends _ _ _ _ h6
  have hpure : cmd2.args = c6.args
      ++ ((match data.driveCmd with
           | some s => ["-drive", s]
           | Option.none => [])
        ++ (match data.chardevCmd with
            | some s => ["-chardev", s]
            | Option.none => [])
        ++ specBlockdevArgs data.storageProps
        ++ specBlockdevArgs data.storageSliceProps
        ++ specBlockdevArgs data.formatProps) := by
    cases h
    cases data.driveCmd <;> cases data.chardevCmd <;>
      cases data.storageProps <;> cases data.storageSliceProps <;>
      cases data.formatProps <;>
      simp [VirCommand.addArgList, specBlockdevArgs]
  refine ⟨a1 ++ a2 ++ a3 ++ a4 ++ a5 ++ a6
    ++ (match data.driveCmd with
        | some s => ["-drive", s]
        | Option.none => [])
    ++ (match data.chardevCmd with
        | some s => ["-chardev", s]
        | Option.none => [])
    ++ specBlockdevArgs data.storageProps
    ++ specBlockdevArgs data.storageSliceProps
    ++ specBlockdevArgs data.formatProps, ?_, ?_⟩
  · unfold specStorageAttachOrderArgs
    simp only [bind, Except.bind, hs1, hs2, hs3, hs4, hs5, hs6, pure,
      Except.pure]
  · rw [hpure, he6, he5, he4, he3, he2, he1]
    simp [List.append_assoc]

/-- Preparing one more layer after a chain extends the spec bundle list. -/
theorem specChainBundles_append_one (qemuCaps : QemuCaps)
    (xs : List StorageSource) (x : StorageSource)
    (bs : List BlockStorageSourceAttachData) (b : BlockStorageSourceAttachData)
    (hxs : specChainBundles qemuCaps xs = .ok bs)
    (hx : qemuBuildStorageSourceChainAttachPrepareBlockdevOne x qemuCaps
        = .ok b) :
    specChainBundles qemuCaps (xs ++ [x]) = .ok (bs ++ [b]) := by
  induction xs generalizing bs with
  | nil =>
      simp only [specChainBundles] at hxs
      cases hxs
      simp [specChainBundles, hx, bind, Except.bind]
  | cons y ys ih =>
      simp only [specChainBundles, bind, Except.bind] at hxs
      cases hy : qemuBuildStorageSourceChainAttachPrepareBlockdevOne y qemuCaps with
      | error e => rw [hy] at hxs; cases hxs
      | ok by0 =>
          rw [hy] at hxs
          cases hys : specChainBundles qemuCaps ys with
          | error e => rw [hys] at hxs; cases hxs
          | ok bys =>
              rw [hys] at hxs
              cases hxs
              have hih := ih bys hys
              simp only [List.cons_append, specChainBundles, bind,
                Except.bind, hy, List.append_eq, hih]

/-- The chain preparation walks from the top image down its backing chain;
its result, once emitted in reverse, is exactly the bundles for the layers
ordered innermost backing file first. -/
theorem chainPrepare_innermost_first :
    ∀ (src : StorageSource) (qemuCaps : QemuCaps)
      (data : List BlockStorageSourceAttachData),
      qemuBuildStorageSourceChainAttachPrepareBlockdev src qemuCaps
        = .ok data →
      specChainBundles qemuCaps (chainLayersInnermostFirst src)
        = .ok data.reverse
  | .mk t e sh r nf pr si ei hc tk ht tc ta sp ssp fp vp bs, qemuCaps,
      data, h => by
      unfold qemuBuildStorageSourceChainAttachPrepareBlockdev at h
      simp only [bind, Except.bind] at h
      cases hone : qemuBuildStorageSourceChainAttachPrepareBlockdevOne
          (StorageSource.mk t e sh r nf pr si ei hc tk ht tc ta sp ssp fp vp bs)
          qemuCaps with
      | error err => rw [hone] at h; cases h
      | ok elem =>
          rw [hone] at h
          cases bs with
          | none =>
              simp only at h
              cases h
              simp [chainLayersInnermostFirst, specChainBundles, hone, bind,
                Except.bind]
          | some b =>
              simp only at h
              cases hrest : qemuBuildStorageSourceChainAttachPrepareBlockdev
                  b qemuCaps with
              | error err => rw [hrest] at h; cases h
              | ok rest =>
                  rw [hrest] at h
                  cases h
                  have hinner := chainPrepare_innermost_first b qemuCaps
                    rest hrest
                  rw [show chainLayersInnermostFirst
                        (StorageSource.mk t e sh r nf pr si ei hc tk ht tc ta
                          sp ssp fp vp (some b))
                      = chainLayersInnermostFirst b
                        ++ [StorageSource.mk t e sh r nf pr si ei hc tk ht tc
                             ta sp ssp fp vp (some b)] from rfl]
                  rw [List.reverse_cons]
                  exact specChainBundles_append_one qemuCaps _ _ _ _ hinner hone

/-- Adding the optional zPCI companion device only appends arguments. -/
theorem extDevice_extends (c : VirCommand) (info : DeviceInfo) :
    ∃ ext, (qemuCommandAddExtDevice c info).args = c.args ++ ext := by
  unfold qemuCommandAddExtDevice
  cases info.addr with
  | pci a =>
      cases hz : a.zpciUid with
      | none => exact ⟨[], by simp [hz]⟩
      | some u =>
          exact ⟨["-device", qemuBuildZPCIDevStr info],
            by simp [hz, VirCommand.addArgList]⟩
  | _ => exact ⟨[], by simp⟩

/-- In the per-disk command line the consuming -device fragment comes last,
after all backend arguments produced by the disk source emitter. -/
theorem diskCommandLine_device_last (cmd : VirCommand) (dom : DomainDef)
    (disk : DiskDef) (qemuCaps : QemuCaps) (cmd2 : VirCommand)
    (hsd : qemuDiskBusIsSD disk.bus = false)
    (hfdc : (disk.bus == DiskBus.fdc && !qemuCaps.blockdev) = false)
    (h : qemuBuildDiskCommandLine cmd dom disk qemuCaps = .ok cmd2) :
    ∃ cmdSrc ext devstr,
      qemuBuildDiskSourceCommandLine cmd disk qemuCaps = .ok cmdSrc
      ∧ qemuBuildDiskDeviceStr dom disk qemuCaps = .ok devstr
      ∧ cmd2.args = cmdSrc.args ++ ext ++ ["-device", devstr] := by
  unfold qemuBuildDiskCommandLine at h
  simp only [bind, Except.bind, hsd, hfdc, Bool.false_eq_true, if_false] at h
  cases hsrc : qemuBuildDiskSourceCommandLine cmd disk qemuCaps with
  | error e => rw [hsrc] at h; cases h
  | ok cmdSrc =>
      rw [hsrc] at h
      cases hdev : qemuBuildDiskDeviceStr dom disk qemuCaps with
      | error e => rw [hdev] at h; cases h
      | ok devstr =>
          rw [hdev] at h
          cases h
          obtain ⟨ext, hext⟩ := extDevice_extends cmdSrc disk.info
          refine ⟨cmdSrc, ext, devstr, rfl, rfl, ?_⟩
          simp [VirCommand.addArg, hext]

/-- C2: for every storage-source attachment the backend objects are emitted
in the fixed order reservation manager, auth secret, encryption secret,
cookie secret, TLS key secret, TLS credentials, then the primary backend
arguments (drive/chardev/blockdev); in the per-disk command line every
backend argument precedes the consuming -device fragment; and for a layered
chain the per-layer bundles come out innermost backing file first (the
prepare walk is top-first and the emission loop reverses it). -/
theorem storageAttachOrder_fixed :
    (∀ (cmd : VirCommand) (data : BlockStorageSourceAttachData)
       (qemuCaps : QemuCaps) (cmd2 : VirCommand),
       qemuBuildBlockStorageSourceAttachDataCommandline cmd data qemuCaps
           = .ok cmd2 →
       ∃ args, specStorageAttachOrderArgs data qemuCaps = .ok args
         ∧ cmd2.args = cmd.args ++ args)
    ∧ (∀ (cmd : VirCommand) (dom : DomainDef) (disk : DiskDef)
         (qemuCaps : QemuCaps) (cmd2 : VirCommand),
       qemuDiskBusIsSD disk.bus = false →
       (disk.bus == DiskBus.fdc && !qemuCaps.blockdev) = false →
       qemuBuildDiskCommandLine cmd dom disk qemuCaps = .ok cmd2 →
       ∃ cmdSrc ext devstr,
         qemuBuildDiskSourceCommandLine cmd disk qemuCaps = .ok cmdSrc
         ∧ qemuBuildDiskDeviceStr dom disk qemuCaps = .ok devstr
         ∧ cmd2.args = cmdSrc.args ++ ext ++ ["-device", devstr])
    ∧ (∀ (src : StorageSource) (qemuCaps : QemuCaps)
         (data : List BlockStorageSourceAttachData),
       qemuBuildStorageSourceChainAttachPrepareBlockdev src qemuCaps
           = .ok data →
       specChainBundles qemuCaps (chainLayersInnermostFirst src)
         = .ok data.reverse) := by
  refine ⟨?_, ?_, ?_⟩
  · intro cmd data qemuCaps cmd2 h
    exact attachData_realizes_spec_order cmd data qemuCaps cmd2 h
  · intro cmd dom disk qemuCaps cmd2 hsd hfdc h
    exact diskCommandLine_device_last cmd dom disk qemuCaps cmd2 hsd hfdc h
  · intro src qemuCaps data h
    exact chainPrepare_innermost_first src qemuCaps data h

/-- Witness for C2 on the example qcow2-over-file disk: the attach data of
the example source emits exactly the two -blockdev fragments in spec order;
the per-disk command line appends the -device fragment after them; and the
two-layer chain is prepared so that its reverse is innermost first. -/
theorem storageAttachOrder_fixed_witness :
    (∃ args,
        specStorageAttachOrderArgs
          (qemuBlockStorageSourceAttachPrepareBlockdev exampleSource)
          exampleCapsBlockdev = .ok args
        ∧ (VirCommand.mk
            ["-blockdev",
             "\x7b\"driver\":\"file\",\"filename\":\"/tmp/disk.qcow2\",\"node-name\":\"storage0\"\x7d",
             "-blockdev",
             "\x7b\"driver\":\"qcow2\",\"file\":\"storage0\",\"node-name\":\"drive0\"\x7d"]).args
          = ({} : VirCommand).args ++ args)
    ∧ (∃ cmdSrc ext devstr,
        qemuBuildDiskSourceCommandLine {} exampleDisk exampleCapsBlockdev
          = .ok cmdSrc
        ∧ qemuBuildDiskDeviceStr exampleDomain exampleDisk exampleCapsBlockdev
          = .ok devstr
        ∧ (VirCommand.mk
            ["-blockdev",
             "\x7b\"driver\":\"file\",\"filename\":\"/tmp/disk.qcow2\",\"node-name\":\"storage0\"\x7d",
             "-blockdev",
             "\x7b\"driver\":\"qcow2\",\"file\":\"storage0\",\"node-name\":\"drive0\"\x7d",
             "-device",
             "virtio-blk-pci,bus=pci.0,addr=0x5,drive=drive0,id=virtio-disk0"]).args
          = cmdSrc.args ++ ext ++ ["-device", devstr])
    ∧ (∃ data,
        qemuBuildStorageSourceChainAttachPrepareBlockdev exampleSource
          exampleCapsBlockdev = .ok data
        ∧ specChainBundles exampleCapsBlockdev
            (chainLayersInnermostFirst exampleSource) = .ok data.reverse) := by
  refine ⟨?_, ?_, ?_⟩
  · obtain ⟨args, hs, he⟩ := storageAttachOrder_fixed.1 {}
      (qemuBlockStorageSourceAttachPrepareBlockdev exampleSource)
      exampleCapsBlockdev
      (VirCommand.mk
        ["-blockdev",
         "\x7b\"driver\":\"file\",\"filename\":\"/tmp/disk.qcow2\",\"node-name\":\"storage0\"\x7d",
         "-blockdev",
         "\x7b\"driver\":\"qcow2\",\"file\":\"storage0\",\"node-name\":\"drive0\"\x7d"])
      rfl
    exact ⟨args, hs, he⟩
  · obtain ⟨cmdSrc, ext, devstr, hsrc, hdev, hargs⟩ :=
      (storageAttachOrder_fixed.2.1) {} exampleDomain exampleDisk
      exampleCapsBlockdev
      (VirCommand.mk
        ["-blockdev",
         "\x7b\"driver\":\"file\",\"filename\":\"/tmp/disk.qcow2\",\"node-name\":\"storage0\"\x7d",
         "-blockdev",
         "\x7b\"driver\":\"qcow2\",\"file\":\"storage0\",\"node-name\":\"drive0\"\x7d",
         "-device",
         "virtio-blk-pci,bus=pci.0,addr=0x5,drive=drive0,id=virtio-disk0"])
      rfl rfl rfl
    exact ⟨cmdSrc, ext, devstr, hsrc, hdev, hargs⟩
  · exact ⟨[qemuBlockStorageSourceAttachPrepareBlockdev exampleSource], rfl,
      storageAttachOrder_fixed.2.2 exampleSource exampleCapsBlockdev
        [qemuBlockStorageSourceAttachPrepareBlockdev exampleSource] rfl⟩

/-- An infix of a list is an infix of any left-extension. -/
theorem infix_append_left_of {α : Type} (h : List α) {l m : List α}
    (hl : l <:+: m) : l <:+: h ++ m := by
  obtain ⟨s, t, rfl⟩ := hl
  exact ⟨h ++ s, t, by simp⟩

/-- An infix of a string stays an infix when the string is wrapped. -/
theorem infix_data_of_wrap (a b : String) {l : List Char} {m : String}
    (hl : l <:+: m.data) : l <:+: (a ++ m ++ b).data := by
  obtain ⟨s, t, ht⟩ := hl
  refine ⟨a.data ++ s, t ++ b.data, ?_⟩
  simp [String.data_append, ← ht]

/-- Merging the colon-quote literal split of a JSON pair rendering. -/
theorem append_quote_colon (Z : String) :
    ("\":" : String) ++ ("\"" ++ Z) = "\":\"" ++ Z := by
  rw [← String.append_assoc]
  congr 1

/-- A string-valued field of an object renders as a contiguous
`"key":"value"` portion of the comma-joined field rendering (when neither
key nor value needs escaping). -/
theorem jsonFields_member_render :
    ∀ (fs : List (String × JValue)) (k v : String),
      (k, JValue.str v) ∈ fs →
      jsonEscape k = k → jsonEscape v = v →
      ("\"" ++ k ++ "\":\"" ++ v ++ "\"").data <:+: (jsonFieldsToString fs).data
  | [], k, v, hm, _, _ => absurd hm (List.not_mem_nil _)
  | [kv], k, v, hm, hk, hv => by
      rw [List.mem_singleton] at hm
      subst hm
      simp only [jsonFieldsToString, jsonToString, hk, hv, String.append_assoc]
      rw [append_quote_colon]
  | kv :: r :: rs, k, v, hm, hk, hv => by
      rcases List.mem_cons.mp hm with heq | hm2
      · subst heq
        simp only [jsonFieldsToString, jsonToString, hk, hv]
        have he : ("\"" ++ k ++ "\":" ++ ("\"" ++ v ++ "\"") ++ ","
            ++ jsonFieldsToString (r :: rs) : String)
            = ("\"" ++ k ++ "\":\"" ++ v ++ "\"")
              ++ ("," ++ jsonFieldsToString (r :: rs)) := by
          simp only [String.append_assoc]
          rw [append_quote_colon]
        rw [he, String.data_append]
        exact List.IsPrefix.isInfix (List.prefix_append _ _)
      · have ih := jsonFields_member_render (r :: rs) k v hm2 hk hv
        simp only [jsonFieldsToString]
        rw [String.data_append]
        exact infix_append_left_of _ ih

/-- A string-valued field of an object renders as a contiguous
`"key":"value"` portion of the serialized object. -/
theorem json_member_render (fs : List (String × JValue)) (k v : String)
    (hm : (k, JValue.str v) ∈ fs)
    (hk : jsonEscape k = k) (hv : jsonEscape v = v) :
    ("\"" ++ k ++ "\":\"" ++ v ++ "\"").data <:+: (jsonToString (.obj fs)).data := by
  simp only [jsonToString]
  exact infix_data_of_wrap _ _ (jsonFields_member_render fs k v hm hk hv)

/-- Attaching the common backend objects never touches the format-node
property tree of a bundle. -/
theorem common_preserves_formatProps (src : StorageSource)
    (d : BlockStorageSourceAttachData) (qemuCaps : QemuCaps)
    (e : BlockStorageSourceAttachData)
    (h : qemuBuildStorageSourceAttachPrepareCommon src d qemuCaps = .ok e) :
    e.formatProps = d.formatProps := by
  unfold qemuBuildStorageSourceAttachPrepareCommon at h
  simp only [bind, Except.bind, pure, Except.pure] at h
  repeat' split at h
  all_goals first
    | (cases h; rfl)
    | cases h

/-- The serialized format node is among the spec-order arguments of its
bundle. -/
theorem specOrder_formatProps_mem (data : BlockStorageSourceAttachData)
    (qemuCaps : QemuCaps) (args : List String) (fp : JObject)
    (hfp : data.formatProps = some fp)
    (h : specStorageAttachOrderArgs data qemuCaps = .ok args) :
    jsonToString (.obj fp) ∈ args := by
  unfold specStorageAttachOrderArgs at h
  simp only [bind, Except.bind, pure, Except.pure] at h
  obtain ⟨a1, h1, h⟩ := except_bind_ok h
  obtain ⟨a2, h2, h⟩ := except_bind_ok h
  obtain ⟨a3, h3, h⟩ := except_bind_ok h
  obtain ⟨a4, h4, h⟩ := except_bind_ok h
  obtain ⟨a5, h5, h⟩ := except_bind_ok h
  obtain ⟨a6, h6, h⟩ := except_bind_ok h
  cases h
  rw [hfp]
  simp [specBlockdevArgs]

/-- The chain preparation puts the bundle of the top image first. -/
theorem chainPrepare_cons (src : StorageSource) (qemuCaps : QemuCaps)
    (data : List BlockStorageSourceAttachData)
    (h : qemuBuildStorageSourceChainAttachPrepareBlockdev src qemuCaps
        = .ok data) :
    ∃ elem rest, data = elem :: rest
      ∧ qemuBuildStorageSourceChainAttachPrepareBlockdevOne src qemuCaps
          = .ok elem := by
  cases src with
  | mk t e sh r nf pr si ei hc tk ht tc ta sp ssp fp vp bs =>
    unfold qemuBuildStorageSourceChainAttachPrepareBlockdev at h
    simp only [bind, Except.bind] at h
    cases hone : qemuBuildStorageSourceChainAttachPrepareBlockdevOne
        (StorageSource.mk t e sh r nf pr si ei hc tk ht tc ta sp ssp fp vp bs)
        qemuCaps with
    | error err => rw [hone] at h; cases h
    | ok elem =>
        rw [hone] at h
        cases bs with
        | none =>
            simp only at h
            cases h
            exact ⟨elem, [], rfl, rfl⟩
        | some b =>
            simp only at h
            cases hrest : qemuBuildStorageSourceChainAttachPrepareBlockdev
                b qemuCaps with
            | error err => rw [hrest] at h; cases h
            | ok rest =>
                rw [hrest] at h
                cases h
                exact ⟨elem, rest, rfl, rfl⟩

/-- The reversed emission loop emits the head bundle of the chain data
last. -/
theorem emit_last_step (cmd : VirCommand) (elem : BlockStorageSourceAttachData)
    (rest : List BlockStorageSourceAttachData) (qemuCaps : QemuCaps)
    (out : VirCommand)
    (h : emitChainDataReversed cmd (elem :: rest) qemuCaps = .ok out) :
    ∃ mid, qemuBuildBlockStorageSourceAttachDataCommandline mid elem qemuCaps
      = .ok out := by
  unfold emitChainDataReversed at h
  rw [List.reverse_cons, List.foldlM_append] at h
  simp only [List.foldlM_cons, List.foldlM_nil, bind, Except.bind, pure,
    Except.pure] at h
  obtain ⟨mid, hmid, h⟩ := except_bind_ok h
  obtain ⟨out2, hout2, h⟩ := except_bind_ok h
  cases h
  exact ⟨mid, hout2⟩

/-- Literal-merge fact for the id key. -/
theorem comma_id_eq : ("," : String) ++ "id=" = ",id=" := by decide

/-- Regrouping of the device-fragment concatenation around the comma-bounded
`drive=` value. -/
theorem regroup_drive (h s n al r1 r2 r3 r4 r5 r6 r7 r8 r9 r10 : String) :
    h ++ s ++ (",drive=" ++ n) ++ (",id=" ++ al) ++ r1 ++ r2 ++ r3 ++ r4
        ++ r5 ++ r6 ++ r7 ++ r8 ++ r9 ++ r10
      = (h ++ s) ++ ("," ++ "drive" ++ "=" ++ n ++ ",")
        ++ ("id=" ++ al ++ r1 ++ r2 ++ r3 ++ r4 ++ r5 ++ r6 ++ r7 ++ r8
            ++ r9 ++ r10) := by
  rw [← comma_id_eq]
  have hd : ("," : String) ++ "drive" ++ "=" = ",drive=" := by decide
  rw [← hd]
  simp only [String.append_assoc]

set_option maxRecDepth 16384 in
/-- Counterexample to C1 as stated: the successful synthesis pass over the
example domain emits `bus=pci.0` inside the consuming device fragment, yet
no fragment of the sequence introduces the alias `pci.0` as its own id —
the implicit pci-root bus is provided by qemu itself, not by any emitted
fragment. -/
theorem aliasBeforeUse_counterexample :
    qemuBuildDisksCommandLine {} exampleDomain exampleCapsBlockdev
      = .ok (VirCommand.mk argsC1)
    ∧ ¬ aliasBeforeUse argsC1 := by
  refine ⟨rfl, ?_⟩
  intro h
  have hmem : "bus" ∈ ["bus", "drive", "chardev"] := by decide
  have href : referencesAliasVia "bus"
      (argsC1.get ⟨5, by decide⟩) "pci.0" := by decide
  obtain ⟨j, hlt, hintro⟩ := h ⟨5, by decide⟩ "bus" hmem "pci.0" href
  fin_cases j
  · exact absurd hintro (by decide)
  · exact absurd hintro (by decide)
  · exact absurd hintro (by decide)
  · exact absurd hintro (by decide)
  · exact absurd hintro (by decide)
  · exact absurd hlt (by decide)

/-- Taking up to the first comma of a comma-free list followed by a comma
yields that list. -/
theorem takeWhile_comma_bounded (a : List Char) (r : List Char)
    (hcf : ∀ c ∈ a, c ≠ ',') :
    (a ++ ',' :: r).takeWhile (fun c => c != ',') = a := by
  induction a with
  | nil => simp [List.takeWhile]
  | cons c cs ih =>
      have hc : (c != ',') = true := by
        simpa using hcf c (List.mem_cons_self _ _)
      simp only [List.cons_append, List.takeWhile, hc, List.append_eq]
      rw [ih (fun x hx => hcf x (List.mem_cons_of_mem _ hx))]

/-- Taking up to the first comma of a comma-free list yields the list. -/
theorem takeWhile_comma_free (a : List Char) (hcf : ∀ c ∈ a, c ≠ ',') :
    a.takeWhile (fun c => c != ',') = a := by
  induction a with
  | nil => rfl
  | cons c cs ih =>
      have hc : (c != ',') = true := by
        simpa using hcf c (List.mem_cons_self _ _)
      simp only [List.takeWhile, hc]
      rw [ih (fun x hx => hcf x (List.mem_cons_of_mem _ hx))]

/-- Soundness of the value scanner: every alias a fragment references via a
key is among the comma-delimited values the scanner finds for that key. -/
theorem refs_sound (key frag a : String)
    (h : referencesAliasVia key frag a) : a ∈ valuesOfKey key frag := by
  obtain ⟨hcf, hocc⟩ := h
  have hcomma : ("," : String).data = [','] := rfl
  unfold valuesOfKey
  rcases hocc with hinf | hsuf
  · obtain ⟨s, r, hsr⟩ := hinf
    refine List.mem_filterMap.mpr
      ⟨("," ++ key ++ "=").data ++ (a.data ++ ',' :: r), ?_, ?_⟩
    · rw [List.mem_tails]
      refine ⟨s, ?_⟩
      rw [← hsr]
      simp [String.data_append, List.append_assoc, hcomma]
    · have hpre : (("," ++ key ++ "=").data).isPrefixOf
          (("," ++ key ++ "=").data ++ (a.data ++ ',' :: r)) = true :=
        List.isPrefixOf_iff_prefix.mpr (List.prefix_append _ _)
      simp only [hpre, eq_self_iff_true, if_true, List.drop_left]
      rw [takeWhile_comma_bounded a.data r hcf]
  · obtain ⟨s, hsr⟩ := hsuf
    refine List.mem_filterMap.mpr
      ⟨("," ++ key ++ "=").data ++ a.data, ?_, ?_⟩
    · rw [List.mem_tails]
      refine ⟨s, ?_⟩
      rw [← hsr]
      simp [String.data_append, List.append_assoc]
    · have hpre : (("," ++ key ++ "=").data).isPrefixOf
          (("," ++ key ++ "=").data ++ a.data) = true :=
        List.isPrefixOf_iff_prefix.mpr (List.prefix_append _ _)
      simp only [hpre, eq_self_iff_true, if_true, List.drop_left]
      rw [takeWhile_comma_free a.data hcf]

/-- A passing executable check establishes the universal backend
alias-before-use property of an argument sequence. -/
theorem backendAliasBeforeUse_of_check (args : List String)
    (h : backendAliasBeforeUseCheck args = true) :
    backendAliasBeforeUse args := by
  intro i key hk a href
  have hv := refs_sound key (args.get i) a href
  unfold backendAliasBeforeUseCheck at h
  rw [List.all_eq_true] at h
  have hi := h i.val (List.mem_range.mpr i.isLt)
  rw [List.all_eq_true] at hi
  have hkey := hi key hk
  rw [List.all_eq_true] at hkey
  have hgd : args.getD i.val "" = args.get i := by
    rw [List.getD_eq_getElem args "" i.isLt]
    rw [List.get_eq_getElem]
  rw [hgd] at hkey
  have hval := hkey a hv
  rw [List.any_eq_true] at hval
  obtain ⟨j, hjr, hj⟩ := hval
  rw [List.mem_range] at hjr
  refine ⟨⟨j, Nat.lt_trans hjr i.isLt⟩, hjr, ?_⟩
  have hj' := of_decide_eq_true hj
  have hgd' : args.getD j "" = args.get ⟨j, Nat.lt_trans hjr i.isLt⟩ := by
    rw [List.getD_eq_getElem args "" (Nat.lt_trans hjr i.isLt)]
    rw [List.get_eq_getElem]
  rwa [hgd'] at hj'

set_option maxRecDepth 32768 in
/-- The blockdev example sequence passes the backend alias check. -/
theorem backendCheck_argsC1 : backendAliasBeforeUseCheck argsC1 = true := by
  decide

set_option maxRecDepth 32768 in
/-- The vhost-user example sequence passes the backend alias check. -/
theorem backendCheck_argsVhost : backendAliasBeforeUseCheck argsVhost = true := by
  decide

set_option maxRecDepth 32768 in
/-- The legacy example sequence passes the backend alias check. -/
theorem backendCheck_argsLegacy : backendAliasBeforeUseCheck argsLegacy = true := by
  decide

/-- Regrouping of the device-fragment concatenation around the
comma-bounded `chardev=` value. -/
theorem regroup_chardev (h s n al r1 r2 r3 r4 r5 r6 r7 r8 r9 r10 : String) :
    h ++ s ++ (",chardev=" ++ n) ++ (",id=" ++ al) ++ r1 ++ r2 ++ r3 ++ r4
        ++ r5 ++ r6 ++ r7 ++ r8 ++ r9 ++ r10
      = (h ++ s) ++ ("," ++ "chardev" ++ "=" ++ n ++ ",")
        ++ ("id=" ++ al ++ r1 ++ r2 ++ r3 ++ r4 ++ r5 ++ r6 ++ r7 ++ r8
            ++ r9 ++ r10) := by
  rw [← comma_id_eq]
  have hd : ("," : String) ++ "chardev" ++ "=" = ",chardev=" := by decide
  rw [← hd]
  simp only [String.append_assoc]

set_option maxHeartbeats 1600000 in
/-- The device fragment of a vhost-user disk contains the chardev alias as
the full comma-delimited value of its `chardev=` key. -/
theorem diskDeviceStr_chardev_ref (dom : DomainDef) (disk : DiskDef)
    (qemuCaps : QemuCaps) (devstr : String)
    (hvu : (virStorageSourceGetActualType disk.src == StorageType.vhostUser)
        = true)
    (hdev : qemuBuildDiskDeviceStr dom disk qemuCaps = .ok devstr) :
    ∃ pre post, devstr = pre
      ++ ("," ++ "chardev" ++ "="
          ++ qemuDomainGetVhostUserChrAlias disk.info.aliasStr ++ ",")
      ++ post := by
  unfold qemuBuildDiskDeviceStr at hdev
  simp only [hvu, eq_self_iff_true, if_true,
    bind, Except.bind, pure, Except.pure] at hdev
  obtain ⟨head, hh, hdev⟩ := except_bind_ok hdev
  cases hdev
  exact ⟨_, _, regroup_chardev _ _ _ _ _ _ _ _ _ _ _ _ _ _⟩

/-- The vhost-user source command line appends exactly the `-chardev`
socket fragment carrying the chardev alias as its id. -/
theorem diskSource_vhost_chardev (cmd : VirCommand) (disk : DiskDef)
    (qemuCaps : QemuCaps) (cmdSrc : VirCommand)
    (hvu : (virStorageSourceGetActualType disk.src == StorageType.vhostUser)
        = true)
    (hsrc : qemuBuildDiskSourceCommandLine cmd disk qemuCaps = .ok cmdSrc) :
    cmdSrc.args = cmd.args
      ++ ["-chardev",
          "socket" ++ ",id=" ++ qemuDomainGetVhostUserChrAlias disk.info.aliasStr
            ++ ",path="
            ++ virQEMUBuildBufferEscapeComma ((disk.src.vhostuserPath).getD "")] := by
  unfold qemuBuildDiskSourceCommandLine at hsrc
  simp only [hvu, eq_self_iff_true, if_true,
    qemuBuildStorageSourceChainAttachPrepareChardev,
    qemuBuildStorageSourceAttachPrepareChardev,
    emitChainDataReversed, List.reverse_cons, List.reverse_nil,
    List.nil_append, List.foldlM,
    qemuBuildBlockStorageSourceAttachDataCommandline,
    qemuBuildObjectCommandline,
    bind, Except.bind, pure, Except.pure] at hsrc
  cases hsrc
  simp [VirCommand.addArgList]

/-- The socket chardev fragment introduces its alias via `,id=`. -/
theorem socket_introduces (al E : String) :
    introducesAlias ("socket" ++ ",id=" ++ al ++ ",path=" ++ E) al := by
  left
  have he : ("socket" ++ ",id=" ++ al ++ ",path=" ++ E : String)
      = "socket" ++ (",id=" ++ al) ++ (",path=" ++ E) := by
    simp only [String.append_assoc]
  rw [he]
  exact infix_data_of_middle "socket" (",id=" ++ al) (",path=" ++ E)

/-- For a vhost-user disk the `-chardev` fragment introducing the chardev
alias precedes the consuming device fragment referencing it. -/
theorem diskCommandLine_vhost_introduced (cmd : VirCommand) (dom : DomainDef)
    (disk : DiskDef) (qemuCaps : QemuCaps) (cmd2 : VirCommand)
    (hvu : (virStorageSourceGetActualType disk.src == StorageType.vhostUser)
        = true)
    (hsd : qemuDiskBusIsSD disk.bus = false)
    (hfdc : (disk.bus == DiskBus.fdc && !qemuCaps.blockdev) = false)
    (hcf : ∀ c ∈ disk.info.aliasStr.data, c ≠ ',')
    (h : qemuBuildDiskCommandLine cmd dom disk qemuCaps = .ok cmd2) :
    ∃ l1 l2 f g, cmd2.args = l1 ++ l2 ∧ f ∈ l1 ∧ g ∈ l2
      ∧ introducesAlias f (qemuDomainGetVhostUserChrAlias disk.info.aliasStr)
      ∧ referencesAliasVia "chardev" g
          (qemuDomainGetVhostUserChrAlias disk.info.aliasStr) := by
  obtain ⟨cmdSrc, ext, devstr, hsrc, hdev, hargs⟩ :=
    diskCommandLine_device_last cmd dom disk qemuCaps cmd2 hsd hfdc h
  have hS := diskSource_vhost_chardev cmd disk qemuCaps cmdSrc hvu hsrc
  obtain ⟨pre, post, hdecomp⟩ := diskDeviceStr_chardev_ref dom disk qemuCaps
    devstr hvu hdev
  refine ⟨cmdSrc.args, ext ++ ["-device", devstr],
    "socket" ++ ",id=" ++ qemuDomainGetVhostUserChrAlias disk.info.aliasStr
      ++ ",path=" ++ virQEMUBuildBufferEscapeComma ((disk.src.vhostuserPath).getD ""),
    devstr, ?_, ?_, ?_, ?_, ?_⟩
  · rw [hargs]; simp [List.append_assoc]
  · rw [hS]; simp
  · simp
  · exact socket_introduces _ _
  · have hcf' : ∀ c ∈ (qemuDomainGetVhostUserChrAlias disk.info.aliasStr).data,
        c ≠ ',' := by
      unfold qemuDomainGetVhostUserChrAlias
      intro c hc
      rw [String.data_append] at hc
      rcases List.mem_append.mp hc with h1 | h2
      · have hlit : ∀ x ∈ ("chr-vu-" : String).data, x ≠ ',' := by decide
        exact hlit c h1
      · exact hcf c h2
    exact ⟨hcf', Or.inl (by
      rw [hdecomp]
      exact infix_data_of_middle pre _ post)⟩

/-- Attaching the common backend objects never touches the `-drive` text of
a bundle. -/
theorem common_preserves_driveCmd (src : StorageSource)
    (d : BlockStorageSourceAttachData) (qemuCaps : QemuCaps)
    (e : BlockStorageSourceAttachData)
    (h : qemuBuildStorageSourceAttachPrepareCommon src d qemuCaps = .ok e) :
    e.driveCmd = d.driveCmd := by
  unfold qemuBuildStorageSourceAttachPrepareCommon at h
  simp only [bind, Except.bind, pure, Except.pure] at h
  repeat' split at h
  all_goals first
    | (cases h; rfl)
    | cases h

/-- The `-drive` fragment text is among the spec-order arguments of its
bundle. -/
theorem specOrder_driveCmd_mem (data : BlockStorageSourceAttachData)
    (qemuCaps : QemuCaps) (args : List String) (s : String)
    (hdc : data.driveCmd = some s)
    (h : specStorageAttachOrderArgs data qemuCaps = .ok args) :
    s ∈ args := by
  unfold specStorageAttachOrderArgs at h
  simp only [bind, Except.bind, pure, Except.pure] at h
  obtain ⟨a1, h1, h⟩ := except_bind_ok h
  obtain ⟨a2, h2, h⟩ := except_bind_ok h
  obtain ⟨a3, h3, h⟩ := except_bind_ok h
  obtain ⟨a4, h4, h⟩ := except_bind_ok h
  obtain ⟨a5, h5, h⟩ := except_bind_ok h
  obtain ⟨a6, h6, h⟩ := except_bind_ok h
  cases h
  rw [hdc]
  simp

/-- Regrouping of the legacy drive fragment around its `,id=` introduction. -/
theorem regroup_driveid (sp n w r m t : String) :
    sp ++ ("if=none" ++ ",id=" ++ n) ++ w ++ r ++ m ++ t
      = (sp ++ "if=none") ++ (",id=" ++ n) ++ (w ++ (r ++ (m ++ t))) := by
  simp only [String.append_assoc]

/-- The legacy `-drive` fragment introduces the drive alias via `,id=`. -/
theorem driveStr_introduces (disk : DiskDef) (qemuCaps : QemuCaps) (s al : String)
    (hsd : qemuDiskBusIsSD disk.bus = false)
    (halias : disk.info.aliasName = some al)
    (hdrv : qemuBuildDriveStr disk qemuCaps = .ok s) :
    introducesAlias s ("drive-" ++ al) := by
  unfold qemuBuildDriveStr at hdrv
  simp only [hsd, qemuAliasDiskDriveFromDisk, halias, Bool.not_false,
    eq_self_iff_true, if_true, bind, Except.bind, pure, Except.pure] at hdrv
  cases hdrv
  left
  rw [regroup_driveid]
  exact infix_data_of_middle _ _ _

set_option maxHeartbeats 1600000 in
/-- The device fragment of a disk whose backend alias resolves contains
that alias as the full comma-delimited value of its `drive=` key. -/
theorem diskDeviceStr_drive_ref_of_backend (dom : DomainDef) (disk : DiskDef)
    (qemuCaps : QemuCaps) (devstr nf : String)
    (hvu : (virStorageSourceGetActualType disk.src == StorageType.vhostUser)
        = false)
    (hba : qemuDomainDiskGetBackendAlias disk qemuCaps = .ok (some nf))
    (hdev : qemuBuildDiskDeviceStr dom disk qemuCaps = .ok devstr) :
    ∃ pre post, devstr = pre ++ ("," ++ "drive" ++ "=" ++ nf ++ ",") ++ post := by
  unfold qemuBuildDiskDeviceStr at hdev
  simp only [hvu, hba, Bool.false_eq_true, if_false,
    bind, Except.bind, pure, Except.pure] at hdev
  obtain ⟨head, hh, hdev⟩ := except_bind_ok hdev
  cases hdev
  exact ⟨_, _, regroup_drive _ _ _ _ _ _ _ _ _ _ _ _ _ _⟩

set_option maxHeartbeats 800000 in
/-- The legacy source command line contains the `-drive` fragment text as
one of its arguments. -/
theorem diskSource_driveCmd_mem (cmd : VirCommand) (disk : DiskDef)
    (qemuCaps : QemuCaps) (cmdSrc : VirCommand) (s al : String)
    (hcaps : qemuCaps.blockdev = false)
    (hvu : (virStorageSourceGetActualType disk.src == StorageType.vhostUser)
        = false)
    (halias : disk.info.aliasName = some al)
    (hdrv : qemuBuildDriveStr disk qemuCaps = .ok s)
    (hsrc : qemuBuildDiskSourceCommandLine cmd disk qemuCaps = .ok cmdSrc) :
    s ∈ cmdSrc.args := by
  unfold qemuBuildDiskSourceCommandLine at hsrc
  simp only [hvu, hcaps, Bool.false_eq_true, if_false, Bool.false_and,
    bind, Except.bind, pure, Except.pure] at hsrc
  obtain ⟨data, hdata, hemit⟩ := except_bind_ok hsrc
  unfold qemuBuildStorageSourceChainAttachPrepareDrive at hdata
  simp only [bind, Except.bind, pure, Except.pure] at hdata
  obtain ⟨d0, hd0, hdata⟩ := except_bind_ok hdata
  obtain ⟨elem1, hel, hdata⟩ := except_bind_ok hdata
  cases hdata
  have hd0' : d0 = { driveCmd := some s } := by
    unfold qemuBuildStorageSourceAttachPrepareDrive at hd0
    simp only [hdrv, qemuAliasDiskDriveFromDisk, halias,
      bind, Except.bind, pure, Except.pure] at hd0
    cases hd0
    rfl
  obtain ⟨mid, hmid⟩ := emit_last_step cmd elem1 [] qemuCaps cmdSrc hemit
  obtain ⟨args, hspec, hargs⟩ := attachData_realizes_spec_order mid elem1
    qemuCaps cmdSrc hmid
  have hdc : elem1.driveCmd = some s := by
    rw [common_preserves_driveCmd _ _ _ _ hel, hd0']
  have hmem := specOrder_driveCmd_mem elem1 qemuCaps args s hdc hspec
  rw [hargs]
  exact List.mem_append_right _ hmem

/-- The emitted chain arguments contain the serialized format node of the
top image. -/
theorem emit_chain_formatProps_mem (cmd : VirCommand) (src : StorageSource)
    (qemuCaps : QemuCaps) (data : List BlockStorageSourceAttachData)
    (cmd2 : VirCommand) (fp : JObject)
    (hfp : src.formatProps = some fp)
    (hdata : qemuBuildStorageSourceChainAttachPrepareBlockdev src qemuCaps
        = .ok data)
    (hemit : emitChainDataReversed cmd data qemuCaps = .ok cmd2) :
    jsonToString (.obj fp) ∈ cmd2.args := by
  obtain ⟨elem, rest, hcons, hone⟩ := chainPrepare_cons src qemuCaps data hdata
  subst hcons
  obtain ⟨mid, hmid⟩ := emit_last_step cmd elem rest qemuCaps cmd2 hemit
  obtain ⟨args, hspec, hargs⟩ := attachData_realizes_spec_order mid elem
    qemuCaps cmd2 hmid
  have hone' : qemuBuildStorageSourceAttachPrepareCommon src
      (qemuBlockStorageSourceAttachPrepareBlockdev src) qemuCaps
      = .ok elem := hone
  have hefp : elem.formatProps = some fp := by
    rw [common_preserves_formatProps _ _ _ _ hone']
    exact hfp
  have hmem := specOrder_formatProps_mem elem qemuCaps args fp hefp hspec
  rw [hargs]
  exact List.mem_append_right _ hmem

set_option maxHeartbeats 800000 in
/-- The per-disk source command line contains the serialized format node of
the top image as one of its arguments (with or without a copy-on-read
node). -/
theorem diskSource_formatProps_mem (cmd : VirCommand) (disk : DiskDef)
    (qemuCaps : QemuCaps) (cmdSrc : VirCommand) (fp : JObject)
    (hcaps : qemuCaps.blockdev = true)
    (hsd : qemuDiskBusIsSD disk.bus = false)
    (hvu : (virStorageSourceGetActualType disk.src == StorageType.vhostUser)
        = false)
    (hempty : virStorageSourceIsEmpty disk.src = false)
    (hfp : disk.src.formatProps = some fp)
    (hsrc : qemuBuildDiskSourceCommandLine cmd disk qemuCaps = .ok cmdSrc) :
    jsonToString (.obj fp) ∈ cmdSrc.args := by
  unfold qemuBuildDiskSourceCommandLine at hsrc
  simp only [hvu, hcaps, hsd, hempty, Bool.not_false, Bool.false_eq_true,
    if_false, Bool.and_self, Bool.true_and, Bool.and_true, eq_self_iff_true,
    if_true, bind, Except.bind, pure, Except.pure] at hsrc
  obtain ⟨data, hdata, hsrc⟩ := except_bind_ok hsrc
  split at hsrc
  · split at hsrc
    · cases hemit : emitChainDataReversed cmd data qemuCaps with
      | error e => rw [hemit] at hsrc; cases hsrc
      | ok cmd2 =>
          rw [hemit] at hsrc
          cases hsrc
          simp only [VirCommand.addArgList]
          exact List.mem_append_left _
            (emit_chain_formatProps_mem cmd disk.src qemuCaps data cmd2 fp
              hfp hdata hemit)
    · cases hsrc
  · cases hemit : emitChainDataReversed cmd data qemuCaps with
    | error e => rw [hemit] at hsrc; cases hsrc
    | ok cmd2 =>
        rw [hemit] at hsrc
        cases hsrc
        exact emit_chain_formatProps_mem cmd disk.src qemuCaps data cmdSrc fp
          hfp hdata hemit

/-- For a blockdev-backed disk an earlier `-blockdev` fragment introduces
the backend node name the consuming device fragment references via
`drive=`. -/
theorem diskCommandLine_blockdev_introduced (cmd : VirCommand) (dom : DomainDef)
    (disk : DiskDef) (qemuCaps : QemuCaps) (cmd2 : VirCommand) (nf : String)
    (fp : JObject)
    (hcaps : qemuCaps.blockdev = true)
    (hsd : qemuDiskBusIsSD disk.bus = false)
    (hvu : (virStorageSourceGetActualType disk.src == StorageType.vhostUser)
        = false)
    (hempty : virStorageSourceIsEmpty disk.src = false)
    (hnf : disk.src.nodeformat = some nf)
    (hfp : disk.src.formatProps = some fp)
    (hnode : ("node-name", JValue.str nf) ∈ fp)
    (hesc : jsonEscape nf = nf)
    (hcf : ∀ c ∈ nf.data, c ≠ ',')
    (h : qemuBuildDiskCommandLine cmd dom disk qemuCaps = .ok cmd2) :
    ∃ l1 l2 f g, cmd2.args = l1 ++ l2 ∧ f ∈ l1 ∧ g ∈ l2
      ∧ introducesAlias f nf ∧ referencesAliasVia "drive" g nf := by
  have hfdc : (disk.bus == DiskBus.fdc && !qemuCaps.blockdev) = false := by
    rw [hcaps]; simp
  have hba : qemuDomainDiskGetBackendAlias disk qemuCaps = .ok (some nf) := by
    unfold qemuDomainDiskGetBackendAlias
    simp [hcaps, hsd, hempty, hnf]
  obtain ⟨cmdSrc, ext, devstr, hsrc, hdev, hargs⟩ :=
    diskCommandLine_device_last cmd dom disk qemuCaps cmd2 hsd hfdc h
  obtain ⟨pre, post, hdecomp⟩ := diskDeviceStr_drive_ref_of_backend dom disk
    qemuCaps devstr nf hvu hba hdev
  have hmem := diskSource_formatProps_mem cmd disk qemuCaps cmdSrc fp hcaps
    hsd hvu hempty hfp hsrc
  refine ⟨cmdSrc.args, ext ++ ["-device", devstr], jsonToString (.obj fp),
    devstr, ?_, hmem, ?_, ?_, ?_⟩
  · rw [hargs]; simp [List.append_assoc]
  · simp
  · right; right; left
    have hkesc : jsonEscape "node-name" = "node-name" := by decide
    have hq : ("\"node-name\":\"" : String) = "\"" ++ "node-name" ++ "\":\"" := by
      decide
    rw [show ("\"node-name\":\"" ++ nf ++ "\"" : String)
        = "\"" ++ "node-name" ++ "\":\"" ++ nf ++ "\"" from by rw [hq]]
    exact json_member_render fp "node-name" nf hnode hkesc hesc
  · exact ⟨hcf, Or.inl (by
      rw [hdecomp]
      exact infix_data_of_middle pre _ post)⟩

/-- For a legacy `-drive` disk the `-drive` fragment introduces the drive
alias via flat `id=` before the consuming device fragment references it
via `drive=`. -/
theorem diskCommandLine_legacy_introduced (cmd : VirCommand) (dom : DomainDef)
    (disk : DiskDef) (qemuCaps : QemuCaps) (cmd2 : VirCommand) (al : String)
    (hcaps : qemuCaps.blockdev = false)
    (hsd : qemuDiskBusIsSD disk.bus = false)
    (hfdc : (disk.bus == DiskBus.fdc) = false)
    (hvu : (virStorageSourceGetActualType disk.src == StorageType.vhostUser)
        = false)
    (halias : disk.info.aliasName = some al)
    (hcf : ∀ c ∈ al.data, c ≠ ',')
    (h : qemuBuildDiskCommandLine cmd dom disk qemuCaps = .ok cmd2) :
    ∃ l1 l2 f g, cmd2.args = l1 ++ l2 ∧ f ∈ l1 ∧ g ∈ l2
      ∧ introducesAlias f ("drive-" ++ al)
      ∧ referencesAliasVia "drive" g ("drive-" ++ al) := by
  have hfdc2 : (disk.bus == DiskBus.fdc && !qemuCaps.blockdev) = false := by
    rw [hfdc]; simp
  have hba : qemuDomainDiskGetBackendAlias disk qemuCaps
      = .ok (some ("drive-" ++ al)) := by
    unfold qemuDomainDiskGetBackendAlias qemuAliasDiskDriveFromDisk
    simp [hcaps, halias]
  obtain ⟨cmdSrc, ext, devstr, hsrc, hdev, hargs⟩ :=
    diskCommandLine_device_last cmd dom disk qemuCaps cmd2 hsd hfdc2 h
  obtain ⟨pre, post, hdecomp⟩ := diskDeviceStr_drive_ref_of_backend dom disk
    qemuCaps devstr ("drive-" ++ al) hvu hba hdev
  have hcf' : ∀ c ∈ ("drive-" ++ al).data, c ≠ ',' := by
    intro c hc
    rw [String.data_append] at hc
    rcases List.mem_append.mp hc with h1 | h2
    · have hlit : ∀ x ∈ ("drive-" : String).data, x ≠ ',' := by decide
      exact hlit c h1
    · exact hcf c h2
  cases hdrv : qemuBuildDriveStr disk qemuCaps with
  | error e =>
      exfalso
      unfold qemuBuildDiskSourceCommandLine at hsrc
      simp only [hvu, hcaps, Bool.false_eq_true, if_false, Bool.false_and,
        bind, Except.bind, pure, Except.pure] at hsrc
      obtain ⟨data, hdata, hemit⟩ := except_bind_ok hsrc
      unfold qemuBuildStorageSourceChainAttachPrepareDrive at hdata
      simp only [bind, Except.bind, pure, Except.pure] at hdata
      obtain ⟨d0, hd0, hdata⟩ := except_bind_ok hdata
      unfold qemuBuildStorageSourceAttachPrepareDrive at hd0
      rw [hdrv] at hd0
      simp only [bind, Except.bind] at hd0
      cases hd0
  | ok s =>
      have hmem := diskSource_driveCmd_mem cmd disk qemuCaps cmdSrc s al hcaps
        hvu halias hdrv hsrc
      refine ⟨cmdSrc.args, ext ++ ["-device", devstr], s, devstr,
        ?_, hmem, ?_, ?_, ?_⟩
      · rw [hargs]; simp [List.append_assoc]
      · simp
      · exact driveStr_introduces disk qemuCaps s al hsd halias hdrv
      · exact ⟨hcf', Or.inl (by
          rw [hdecomp]
          exact infix_data_of_middle pre _ post)⟩

/-- An SD disk emits no consuming `-device` fragment at all. -/
theorem diskCommandLine_sd_no_device (cmd : VirCommand) (dom : DomainDef)
    (disk : DiskDef) (qemuCaps : QemuCaps) (cmd2 : VirCommand)
    (hsd : qemuDiskBusIsSD disk.bus = true)
    (h : qemuBuildDiskCommandLine cmd dom disk qemuCaps = .ok cmd2) :
    qemuBuildDiskSourceCommandLine cmd disk qemuCaps = .ok cmd2 := by
  unfold qemuBuildDiskCommandLine at h
  simp only [hsd, eq_self_iff_true, if_true, bind, Except.bind, pure,
    Except.pure] at h
  obtain ⟨cmdS, hS, h⟩ := except_bind_ok h
  cases h
  exact hS

/-- C1 (amended): every fragment that references a backend alias via a
`drive=<alias>` or `chardev=<alias>` value is preceded by a fragment that
introduced that exact alias as its own id, while `bus=<alias>` references
to built-in machine buses are provided implicitly by qemu (see the
counterexample).  Conjuncts: the universal property holds of the full
emitted sequences of the blockdev, vhost-user and legacy example domains;
and on each general path — modern blockdev (`drive=` introduced as a
`node-name`), vhost-user (`chardev=` introduced by the socket chardev
fragment via `id=`), legacy (`drive=` introduced by the `-drive` fragment
via flat `id=`) — the introducing fragment precedes the referencing device
fragment; SD disks emit no referencing device fragment at all. -/
theorem aliasIntroduction_corrected :
    ((qemuBuildDisksCommandLine {} exampleDomain exampleCapsBlockdev
        = .ok (VirCommand.mk argsC1))
      ∧ backendAliasBeforeUse argsC1)
    ∧ ((qemuBuildDisksCommandLine {} exampleVhostDomain exampleCapsBlockdev
        = .ok (VirCommand.mk argsVhost))
      ∧ backendAliasBeforeUse argsVhost)
    ∧ ((qemuBuildDisksCommandLine {} exampleLegacyDomain {}
        = .ok (VirCommand.mk argsLegacy))
      ∧ backendAliasBeforeUse argsLegacy)
    ∧ (∀ (cmd : VirCommand) (dom : DomainDef) (disk : DiskDef)
         (qemuCaps : QemuCaps) (cmd2 : VirCommand) (nf : String) (fp : JObject),
       qemuCaps.blockdev = true →
       qemuDiskBusIsSD disk.bus = false →
       (virStorageSourceGetActualType disk.src == StorageType.vhostUser)
           = false →
       virStorageSourceIsEmpty disk.src = false →
       disk.src.nodeformat = some nf →
       disk.src.formatProps = some fp →
       ("node-name", JValue.str nf) ∈ fp →
       jsonEscape nf = nf →
       (∀ c ∈ nf.data, c ≠ ',') →
       qemuBuildDiskCommandLine cmd dom disk qemuCaps = .ok cmd2 →
       ∃ l1 l2 f g, cmd2.args = l1 ++ l2 ∧ f ∈ l1 ∧ g ∈ l2
         ∧ introducesAlias f nf ∧ referencesAliasVia "drive" g nf)
    ∧ (∀ (cmd : VirCommand) (dom : DomainDef) (disk : DiskDef)
         (qemuCaps : QemuCaps) (cmd2 : VirCommand),
       (virStorageSourceGetActualType disk.src == StorageType.vhostUser)
           = true →
       qemuDiskBusIsSD disk.bus = false →
       (disk.bus == DiskBus.fdc && !qemuCaps.blockdev) = false →
       (∀ c ∈ disk.info.aliasStr.data, c ≠ ',') →
       qemuBuildDiskCommandLine cmd dom disk qemuCaps = .ok cmd2 →
       ∃ l1 l2 f g, cmd2.args = l1 ++ l2 ∧ f ∈ l1 ∧ g ∈ l2
         ∧ introducesAlias f (qemuDomainGetVhostUserChrAlias disk.info.aliasStr)
         ∧ referencesAliasVia "chardev" g
             (qemuDomainGetVhostUserChrAlias disk.info.aliasStr))
    ∧ (∀ (cmd : VirCommand) (dom : DomainDef) (disk : DiskDef)
         (qemuCaps : QemuCaps) (cmd2 : VirCommand) (al : String),
       qemuCaps.blockdev = false →
       qemuDiskBusIsSD disk.bus = false →
       (disk.bus == DiskBus.fdc) = false →
       (virStorageSourceGetActualType disk.src == StorageType.vhostUser)
           = false →
       disk.info.aliasName = some al →
       (∀ c ∈ al.data, c ≠ ',') →
       qemuBuildDiskCommandLine cmd dom disk qemuCaps = .ok cmd2 →
       ∃ l1 l2 f g, cmd2.args = l1 ++ l2 ∧ f ∈ l1 ∧ g ∈ l2
         ∧ introducesAlias f ("drive-" ++ al)
         ∧ referencesAliasVia "drive" g ("drive-" ++ al))
    ∧ (∀ (cmd : VirCommand) (dom : DomainDef) (disk : DiskDef)
         (qemuCaps : QemuCaps) (cmd2 : VirCommand),
       qemuDiskBusIsSD disk.bus = true →
       qemuBuildDiskCommandLine cmd dom disk qemuCaps = .ok cmd2 →
       qemuBuildDiskSourceCommandLine cmd disk qemuCaps = .ok cmd2) := by
  refine ⟨⟨rfl, backendAliasBeforeUse_of_check _ backendCheck_argsC1⟩,
    ⟨rfl, backendAliasBeforeUse_of_check _ backendCheck_argsVhost⟩,
    ⟨rfl, backendAliasBeforeUse_of_check _ backendCheck_argsLegacy⟩,
    ?_, ?_, ?_, ?_⟩
  · intro cmd dom disk qemuCaps cmd2 nf fp hcaps hsd hvu hempty hnf hfp hnode
      hesc hcf h
    exact diskCommandLine_blockdev_introduced cmd dom disk qemuCaps cmd2 nf fp
      hcaps hsd hvu hempty hnf hfp hnode hesc hcf h
  · intro cmd dom disk qemuCaps cmd2 hvu hsd hfdc hcf h
    exact diskCommandLine_vhost_introduced cmd dom disk qemuCaps cmd2 hvu hsd
      hfdc hcf h
  · intro cmd dom disk qemuCaps cmd2 al hcaps hsd hfdc hvu halias hcf h
    exact diskCommandLine_legacy_introduced cmd dom disk qemuCaps cmd2 al
      hcaps hsd hfdc hvu halias hcf h
  · intro cmd dom disk qemuCaps cmd2 hsd h
    exact diskCommandLine_sd_no_device cmd dom disk qemuCaps cmd2 hsd h

/-- Witness for C1: the three general path conjuncts applied at the
blockdev, vhost-user, legacy and SD example configurations. -/
theorem aliasIntroduction_corrected_witness :
    (∃ l1 l2 f g,
      (VirCommand.mk argsC1).args = l1 ++ l2 ∧ f ∈ l1 ∧ g ∈ l2
      ∧ introducesAlias f "drive0" ∧ referencesAliasVia "drive" g "drive0")
    ∧ (∃ l1 l2 f g,
      (VirCommand.mk argsVhost).args = l1 ++ l2 ∧ f ∈ l1 ∧ g ∈ l2
      ∧ introducesAlias f "chr-vu-virtio-disk0"
      ∧ referencesAliasVia "chardev" g "chr-vu-virtio-disk0")
    ∧ (∃ l1 l2 f g,
      (VirCommand.mk argsLegacy).args = l1 ++ l2 ∧ f ∈ l1 ∧ g ∈ l2
      ∧ introducesAlias f "drive-virtio-disk0"
      ∧ referencesAliasVia "drive" g "drive-virtio-disk0")
    ∧ qemuBuildDiskSourceCommandLine {} exampleSDDisk {}
        = .ok (VirCommand.mk ["-drive", "file=/tmp/sd.img,if=sd,index=0"]) := by
  refine ⟨?_, ?_, ?_, ?_⟩
  · exact aliasIntroduction_corrected.2.2.2.1 {} exampleDomain exampleDisk
      exampleCapsBlockdev (VirCommand.mk argsC1) "drive0"
      [("driver", JValue.str "qcow2"), ("file", JValue.str "storage0"),
       ("node-name", JValue.str "drive0")]
      rfl rfl rfl rfl rfl rfl
      (List.mem_cons_of_mem _ (List.mem_cons_of_mem _ (List.mem_cons_self _ _)))
      rfl (by decide) rfl
  · exact aliasIntroduction_corrected.2.2.2.2.1 {} exampleVhostDomain
      exampleVhostDisk exampleCapsBlockdev (VirCommand.mk argsVhost)
      rfl rfl rfl (by decide) rfl
  · exact aliasIntroduction_corrected.2.2.2.2.2.1 {} exampleLegacyDomain
      exampleLegacyDisk {} (VirCommand.mk argsLegacy) "virtio-disk0"
      rfl rfl rfl rfl rfl (by decide) rfl
  · exact aliasIntroduction_corrected.2.2.2.2.2.2 {} exampleDomain
      exampleSDDisk {} (VirCommand.mk ["-drive", "file=/tmp/sd.img,if=sd,index=0"])
      rfl rfl

end QemuCmd
